import Mathlib

/-!
# FluidSynth channel state (`src/fluid_chan.c`)

A shallow embedding of the per-channel state of FluidSynth: the packed
SoundFont/bank/program word, the controller reset, and channel
(re)initialisation, followed by theorems about them.

C `int` is modelled as a mathematical integer kept inside the 32-bit two's
complement range; bitwise operators act on the 32-bit pattern of their
operands.
-/

namespace FluidChan

/-! ## 32-bit machine integers -/

/-- Conversion `int -> unsigned int`: the 32-bit pattern of a C `int`. -/
def int_to_uint (x : Int) : Nat := (x % 4294967296).toNat

/-- Conversion `unsigned int -> int`: the two's complement reading of a
32-bit pattern. -/
def uint_to_int (n : Nat) : Int :=
  if n % 4294967296 < 2147483648 then ((n % 4294967296 : Nat) : Int)
  else ((n % 4294967296 : Nat) : Int) - 4294967296

/-- The C operator `&` on two `int` operands. -/
def int_and (x y : Int) : Int := uint_to_int (int_to_uint x &&& int_to_uint y)

/-- The C operator `|` on two `int` operands. -/
def int_or (x y : Int) : Int := uint_to_int (int_to_uint x ||| int_to_uint y)

/-- The C operator `~` on an `int` operand. -/
def int_not (x : Int) : Int := uint_to_int (4294967295 - int_to_uint x)

/-- The C operator `<<` on an `int` left operand; bits shifted past bit 31
are dropped. -/
def int_shl (x : Int) (k : Nat) : Int := uint_to_int ((int_to_uint x <<< k) % 4294967296)

/-- The C operator `>>` on an `int` left operand: an arithmetic shift, the
quotient rounded down. -/
def int_shr (x : Int) (k : Nat) : Int := x / ((2 : Int) ^ k)

/-! ## Field shift amounts and masks of `sfont_bank_prog` -/

def PROG_SHIFTVAL : Nat := 0
def BANK_SHIFTVAL : Nat := 7
def SFONT_SHIFTVAL : Nat := 21

def PROG_MASKVAL : Nat := 0x0000007F
def BANK_MASKVAL : Nat := 0x001FFF80
def BANKLSB_MASKVAL : Nat := 0x00003F80
def BANKMSB_MASKVAL : Nat := 0x001FC000
/-- The only mask that does not fit an `int`: the constant has type
`unsigned int`. -/
def SFONT_MASKVAL : Nat := 0xFFE00000

/-! ## Atomic primitives on the selector word -/

/-- Atomic load. -/
def fluid_atomic_int_get (cell : Int) : Int := cell

/-- Atomic compare-and-exchange: stores `newval` and reports success when
the cell holds `oldval`, otherwise leaves the cell alone and reports
failure.  Returns the success flag and the cell afterwards. -/
def fluid_atomic_int_compare_and_exchange (cell oldval newval : Int) : Bool × Int :=
  if cell = oldval then (true, newval) else (false, cell)

/-- The `do ... while` loop of `fluid_channel_set_sfont_bank_prog`, run by a
single thread on the cell `cell`; `newval` is the candidate carried from one
iteration to the next.  `none` when the iteration bound is exhausted. -/
def set_sfont_bank_prog_loop (oldmask : Int) : Nat → Int → Int → Option Int
  | 0, _, _ => none
  | fuel + 1, newval, cell =>
    let oldval := fluid_atomic_int_get cell
    let newval := int_or (int_and newval (int_not oldmask)) (int_and oldval oldmask)
    if newval ≠ oldval then
      match fluid_atomic_int_compare_and_exchange cell oldval newval with
      | (true, cell1) => some cell1
      | (false, cell1) => set_sfont_bank_prog_loop oldmask fuel newval cell1
    else some cell

/-- The `do ... while` loop of `fluid_channel_set_bank_lsb`. -/
def set_bank_lsb_loop (banklsb : Int) : Nat → Int → Option Int
  | 0, _ => none
  | fuel + 1, cell =>
    let oldval := fluid_atomic_int_get cell
    let newval := int_or (int_and oldval (int_not BANKLSB_MASKVAL)) (int_shl banklsb BANK_SHIFTVAL)
    if newval ≠ oldval then
      match fluid_atomic_int_compare_and_exchange cell oldval newval with
      | (true, cell1) => some cell1
      | (false, cell1) => set_bank_lsb_loop banklsb fuel cell1
    else some cell

/-- The `do ... while` loop of `fluid_channel_set_bank_msb`. -/
def set_bank_msb_loop (bankmsb : Int) : Nat → Int → Option Int
  | 0, _ => none
  | fuel + 1, cell =>
    let oldval := fluid_atomic_int_get cell
    let newval := int_or (int_and oldval (int_not BANKMSB_MASKVAL))
      (int_shl bankmsb (BANK_SHIFTVAL + 7))
    if newval ≠ oldval then
      match fluid_atomic_int_compare_and_exchange cell oldval newval with
      | (true, cell1) => some cell1
      | (false, cell1) => set_bank_msb_loop bankmsb fuel cell1
    else some cell

/-! ## Constants declared outside `fluid_chan.c` -/

/-- The constants `fluid_chan.c` takes from headers: the number of
generators, the interpolation default and the MIDI controller numbers. -/
structure Consts where
  GEN_LAST : Nat
  FLUID_INTERP_DEFAULT : Int
  BANK_SELECT_MSB : Nat
  VOLUME_MSB : Nat
  PAN_MSB : Nat
  EXPRESSION_MSB : Nat
  BANK_SELECT_LSB : Nat
  VOLUME_LSB : Nat
  PAN_LSB : Nat
  EXPRESSION_LSB : Nat
  SOUND_CTRL1 : Nat
  SOUND_CTRL10 : Nat
  EFFECTS_DEPTH1 : Nat
  EFFECTS_DEPTH5 : Nat
  NRPN_LSB : Nat
  NRPN_MSB : Nat
  RPN_LSB : Nat
  RPN_MSB : Nat
  ALL_SOUND_OFF : Nat

/-- The controller numbers of the MIDI specification, with 60 generators. -/
def midi : Consts where
  GEN_LAST := 60
  FLUID_INTERP_DEFAULT := 4
  BANK_SELECT_MSB := 0
  VOLUME_MSB := 7
  PAN_MSB := 10
  EXPRESSION_MSB := 11
  BANK_SELECT_LSB := 32
  VOLUME_LSB := 39
  PAN_LSB := 42
  EXPRESSION_LSB := 43
  SOUND_CTRL1 := 70
  SOUND_CTRL10 := 79
  EFFECTS_DEPTH1 := 91
  EFFECTS_DEPTH5 := 95
  NRPN_LSB := 98
  NRPN_MSB := 99
  RPN_LSB := 100
  RPN_MSB := 101
  ALL_SOUND_OFF := 120

/-- Whether `i` is left alone by the zeroing pass of an "all controllers
off" reset: the three `continue` tests of the loop. -/
def Consts.excluded (K : Consts) (i : Nat) : Bool :=
  (decide (K.EFFECTS_DEPTH1 ≤ i) && decide (i ≤ K.EFFECTS_DEPTH5))
  || (decide (K.SOUND_CTRL1 ≤ i) && decide (i ≤ K.SOUND_CTRL10))
  || (i == K.BANK_SELECT_MSB || i == K.BANK_SELECT_LSB || i == K.VOLUME_MSB
      || i == K.VOLUME_LSB || i == K.PAN_MSB || i == K.PAN_LSB)

/-- The controller numbers index the 128-entry controller array, the zeroing
pass stays inside it, and the six controllers set to 127 are none of the
controllers an "all controllers off" reset leaves alone. -/
def Consts.inArray (K : Consts) : Prop :=
  K.ALL_SOUND_OFF ≤ 128
  ∧ K.RPN_LSB < 128 ∧ K.RPN_MSB < 128 ∧ K.NRPN_LSB < 128 ∧ K.NRPN_MSB < 128
  ∧ K.EXPRESSION_MSB < 128 ∧ K.EXPRESSION_LSB < 128
  ∧ K.SOUND_CTRL10 < 128 ∧ K.VOLUME_MSB < 128 ∧ K.VOLUME_LSB < 128
  ∧ K.PAN_MSB < 128 ∧ K.PAN_LSB < 128
  ∧ K.excluded K.RPN_LSB = false ∧ K.excluded K.RPN_MSB = false
  ∧ K.excluded K.NRPN_LSB = false ∧ K.excluded K.NRPN_MSB = false
  ∧ K.excluded K.EXPRESSION_MSB = false ∧ K.excluded K.EXPRESSION_LSB = false

instance (K : Consts) : Decidable K.inArray := by
  unfold Consts.inArray; infer_instance

/-- The controllers given a default other than 127 by a full reset are
pairwise different: volume and pan, MSB and LSB, lie outside the
sound-controller range and are four different numbers. -/
def Consts.distinctDefaults (K : Consts) : Prop :=
  (K.VOLUME_MSB < K.SOUND_CTRL1 ∨ K.SOUND_CTRL10 < K.VOLUME_MSB)
  ∧ (K.VOLUME_LSB < K.SOUND_CTRL1 ∨ K.SOUND_CTRL10 < K.VOLUME_LSB)
  ∧ (K.PAN_MSB < K.SOUND_CTRL1 ∨ K.SOUND_CTRL10 < K.PAN_MSB)
  ∧ (K.PAN_LSB < K.SOUND_CTRL1 ∨ K.SOUND_CTRL10 < K.PAN_LSB)
  ∧ K.VOLUME_MSB ≠ K.VOLUME_LSB ∧ K.VOLUME_MSB ≠ K.PAN_MSB ∧ K.VOLUME_MSB ≠ K.PAN_LSB
  ∧ K.VOLUME_LSB ≠ K.PAN_MSB ∧ K.PAN_MSB ≠ K.PAN_LSB

instance (K : Consts) : Decidable K.distinctDefaults := by
  unfold Consts.distinctDefaults; infer_instance

/-! ## Data model -/

/-- A preset object, named by its address. -/
abbrev fluid_preset_t := Nat

/-- A tuning object, named by its address. -/
abbrev fluid_tuning_t := Nat

/-- Return status of the C API. -/
inductive fluid_status where
  | FLUID_OK
  | FLUID_FAILED
deriving DecidableEq

/-- Reason passed to `fluid_preset_notify`. -/
inductive fluid_preset_reason where
  | FLUID_PRESET_SELECTED
  | FLUID_PRESET_UNSELECTED
deriving DecidableEq

/-- An element of the synth's return queue, of the two types this file
writes. -/
inductive fluid_event_queue_elem_t where
  | FREE_PRESET (pval : fluid_preset_t)
  | UNREF_TUNING (tuning : fluid_tuning_t) (count : Int)
deriving DecidableEq

/-- Modelled from the spec: the bounded return queue, whose implementation
is outside `fluid_chan.c`; `array` holds the committed elements, oldest
first, and `totalcount` is the number of slots. -/
structure fluid_event_queue_t where
  array : List fluid_event_queue_elem_t
  totalcount : Nat

/-- Modelled from the spec: `fluid_event_queue_get_inptr`, absent from the
sources; `true` when a slot is available, `false` for the NULL returned by a
saturated queue. -/
def fluid_event_queue_get_inptr (queue : fluid_event_queue_t) : Bool :=
  decide (queue.array.length < queue.totalcount)

/-- Modelled from the spec: `fluid_event_queue_next_inptr`, absent from the
sources; commits the slot, written with `event`, to the consumer. -/
def fluid_event_queue_next_inptr (queue : fluid_event_queue_t)
    (event : fluid_event_queue_elem_t) : fluid_event_queue_t :=
  { queue with array := queue.array ++ [event] }

/-- A call made to a collaborator of the channel, recorded in order. -/
inductive Call where
  | find_preset (banknum prognum : Int)
  | preset_notify (preset : fluid_preset_t) (reason : fluid_preset_reason) (chan : Int)
  | tuning_unref (tuning : fluid_tuning_t) (count : Int)
  | delete_preset (preset : fluid_preset_t)
  | log_queue_full
  | log_out_of_memory
deriving DecidableEq

/-- The parts of the synth a channel reaches: the preset store, the return
queue, and the record of the calls made to collaborators. -/
structure fluid_synth_t where
  presets : Int → Int → Option fluid_preset_t
  return_queue : fluid_event_queue_t
  calls : List Call

/-- The fields of a channel that `fluid_chan.c` reads or writes.  A NULL
pointer is `none`. -/
structure fluid_channel_t where
  channum : Int
  sfont_bank_prog : Int
  preset : Option fluid_preset_t
  key_pressure : Int
  channel_pressure : Int
  pitch_bend : Int
  pitch_wheel_sensitivity : Int
  cc : List Int
  interp_method : Int
  tuning : Option fluid_tuning_t
  tuning_bank : Int
  tuning_prog : Int
  nrpn_select : Int
  nrpn_active : Int
  gen : List Rat
  gen_abs : List Int

/-- The arrays of a channel have their declared sizes. -/
def fluid_channel_t.sized (K : Consts) (chan : fluid_channel_t) : Prop :=
  chan.cc.length = 128 ∧ chan.gen.length = K.GEN_LAST ∧ chan.gen_abs.length = K.GEN_LAST

instance (K : Consts) (chan : fluid_channel_t) : Decidable (chan.sized K) := by
  unfold fluid_channel_t.sized; infer_instance

/-- Modelled from the spec: `fluid_synth_find_preset`, absent from the
sources; asks the preset store for the instrument of a bank and program,
`none` when there is no match. -/
def fluid_synth_find_preset (synth : fluid_synth_t) (banknum prognum : Int) :
    fluid_synth_t × Option fluid_preset_t :=
  ({ synth with calls := synth.calls ++ [Call.find_preset banknum prognum] },
   synth.presets banknum prognum)

/-- Modelled from the spec: `fluid_preset_notify`, absent from the sources;
notifies the instrument, if there is one. -/
def fluid_preset_notify (synth : fluid_synth_t) (preset : Option fluid_preset_t)
    (reason : fluid_preset_reason) (chan : Int) : fluid_synth_t :=
  match preset with
  | some p => { synth with calls := synth.calls ++ [Call.preset_notify p reason chan] }
  | none => synth

/-- Modelled from the spec: `fluid_tuning_unref`, absent from the sources;
the synchronous release of `count` references. -/
def fluid_tuning_unref (synth : fluid_synth_t) (tuning : fluid_tuning_t) (count : Int) :
    fluid_synth_t :=
  { synth with calls := synth.calls ++ [Call.tuning_unref tuning count] }

/-- Modelled from the spec: `delete_fluid_preset`, absent from the sources;
the synchronous release of an instrument. -/
def delete_fluid_preset (synth : fluid_synth_t) (preset : fluid_preset_t) : fluid_synth_t :=
  { synth with calls := synth.calls ++ [Call.delete_preset preset] }

/-- The diagnostic `FLUID_LOG (FLUID_ERR, ...)`. -/
def FLUID_LOG (synth : fluid_synth_t) (msg : Call) : fluid_synth_t :=
  { synth with calls := synth.calls ++ [msg] }

/-! ## The selector word -/

/-- Set SoundFont ID, MIDI bank and/or program; -1 keeps the current value.
`fuel` bounds the iterations of the retry loop. -/
def fluid_channel_set_sfont_bank_prog (fuel : Nat) (chan : fluid_channel_t)
    (sfontnum banknum prognum : Int) : Option fluid_channel_t :=
  let newval : Int :=
    int_or (int_or (if sfontnum ≠ -1 then int_shl sfontnum SFONT_SHIFTVAL else 0)
                   (if banknum ≠ -1 then int_shl banknum BANK_SHIFTVAL else 0))
           (if prognum ≠ -1 then int_shl prognum PROG_SHIFTVAL else 0)
  -- the expression has type `unsigned int` and is converted on assignment
  let oldmask : Int :=
    uint_to_int (((if sfontnum ≠ -1 then 0 else SFONT_MASKVAL)
                  ||| (if banknum ≠ -1 then 0 else BANK_MASKVAL))
                 ||| (if prognum ≠ -1 then 0 else PROG_MASKVAL))
  (set_sfont_bank_prog_loop oldmask fuel newval chan.sfont_bank_prog).map
    fun w => { chan with sfont_bank_prog := w }

/-- The candidate word computed before the retry loop of
`fluid_channel_set_sfont_bank_prog`: the specified fields in place, zero
elsewhere. -/
def set_sfont_bank_prog_newval (sfontnum banknum prognum : Int) : Int :=
  int_or (int_or (if sfontnum ≠ -1 then int_shl sfontnum SFONT_SHIFTVAL else 0)
                 (if banknum ≠ -1 then int_shl banknum BANK_SHIFTVAL else 0))
         (if prognum ≠ -1 then int_shl prognum PROG_SHIFTVAL else 0)

/-- The mask computed before the retry loop of
`fluid_channel_set_sfont_bank_prog`: the fields passed as -1. -/
def set_sfont_bank_prog_oldmask (sfontnum banknum prognum : Int) : Int :=
  uint_to_int (((if sfontnum ≠ -1 then 0 else SFONT_MASKVAL)
                ||| (if banknum ≠ -1 then 0 else BANK_MASKVAL))
               ||| (if prognum ≠ -1 then 0 else PROG_MASKVAL))

/-- A run of a retry loop among other threads: the word in the register when
the loop exits, the words observed by its successive atomic loads, and the
number of compare-and-exchange calls it made. -/
structure loop_run where
  cell : Int
  loads : List Int
  cas_calls : Nat

/-- The `do ... while` loop of `fluid_channel_set_sfont_bank_prog` run among
other threads.  Each element `(atCas, atLoad)` of `others` is what the other
threads do to the register during one round of the loop: `atCas` is the word
the register holds when the compare-and-exchange of that round runs, and
`atLoad` the word it holds when the next load runs.  When `others` is used
up, the register is left alone. -/
def set_sfont_bank_prog_loop_among (oldmask : Int) : List (Int × Int) → Int → Int → loop_run
  | [], newval, cell =>
    let oldval := fluid_atomic_int_get cell
    let newval := int_or (int_and newval (int_not oldmask)) (int_and oldval oldmask)
    if newval ≠ oldval then
      { cell := (fluid_atomic_int_compare_and_exchange cell oldval newval).2
        loads := [oldval]
        cas_calls := 1 }
    else { cell := cell, loads := [oldval], cas_calls := 0 }
  | (atCas, atLoad) :: others, newval, cell =>
    let oldval := fluid_atomic_int_get cell
    let newval := int_or (int_and newval (int_not oldmask)) (int_and oldval oldmask)
    if newval ≠ oldval then
      match fluid_atomic_int_compare_and_exchange atCas oldval newval with
      | (true, cell1) => { cell := cell1, loads := [oldval], cas_calls := 1 }
      | (false, _) =>
        let r := set_sfont_bank_prog_loop_among oldmask others newval atLoad
        { cell := r.cell, loads := oldval :: r.loads, cas_calls := r.cas_calls + 1 }
    else { cell := cell, loads := [oldval], cas_calls := 0 }

/-- The call `fluid_channel_set_sfont_bank_prog` run among other threads that
act on the register as `others` tells. -/
def fluid_channel_set_sfont_bank_prog_among (others : List (Int × Int))
    (chan : fluid_channel_t) (sfontnum banknum prognum : Int) : loop_run :=
  set_sfont_bank_prog_loop_among (set_sfont_bank_prog_oldmask sfontnum banknum prognum) others
    (set_sfont_bank_prog_newval sfontnum banknum prognum) chan.sfont_bank_prog

/-- Set bank LSB 7 bits. -/
def fluid_channel_set_bank_lsb (fuel : Nat) (chan : fluid_channel_t) (banklsb : Int) :
    Option fluid_channel_t :=
  (set_bank_lsb_loop banklsb fuel chan.sfont_bank_prog).map
    fun w => { chan with sfont_bank_prog := w }

/-- Set bank MSB 7 bits. -/
def fluid_channel_set_bank_msb (fuel : Nat) (chan : fluid_channel_t) (bankmsb : Int) :
    Option fluid_channel_t :=
  (set_bank_msb_loop bankmsb fuel chan.sfont_bank_prog).map
    fun w => { chan with sfont_bank_prog := w }

/-- Get SoundFont ID, MIDI bank and program, in this order.  The SoundFont
ID is computed in `unsigned int`, as its mask is unsigned. -/
def fluid_channel_get_sfont_bank_prog (chan : fluid_channel_t) : Int × Int × Int :=
  let sfont_bank_prog := fluid_atomic_int_get chan.sfont_bank_prog
  (uint_to_int ((int_to_uint sfont_bank_prog &&& SFONT_MASKVAL) >>> SFONT_SHIFTVAL),
   int_shr (int_and sfont_bank_prog BANK_MASKVAL) BANK_SHIFTVAL,
   int_shr (int_and sfont_bank_prog PROG_MASKVAL) PROG_SHIFTVAL)

/-! ## Controllers -/

/-- The macro `SETCC(_c,_n,_v)`: `_c->cc[_n] = _v`. -/
def SETCC (chan : fluid_channel_t) (n : Nat) (v : Int) : fluid_channel_t :=
  { chan with cc := chan.cc.set n v }

/-- Reset of the controllers; if `is_all_ctrl_off` is nonzero, only some
controllers are reset. -/
def fluid_channel_init_ctrl (K : Consts) (chan : fluid_channel_t) (is_all_ctrl_off : Int) :
    fluid_channel_t :=
  let chan := { chan with key_pressure := 0 }
  let chan := { chan with channel_pressure := 0 }
  let chan := { chan with pitch_bend := 0x2000 }
  let chan := (List.range K.GEN_LAST).foldl
    (fun chan i => { chan with gen := chan.gen.set i 0, gen_abs := chan.gen_abs.set i 0 }) chan
  let chan :=
    if is_all_ctrl_off ≠ 0 then
      (List.range K.ALL_SOUND_OFF).foldl
        (fun chan i =>
          if K.EFFECTS_DEPTH1 ≤ i ∧ i ≤ K.EFFECTS_DEPTH5 then chan
          else if K.SOUND_CTRL1 ≤ i ∧ i ≤ K.SOUND_CTRL10 then chan
          else if i = K.BANK_SELECT_MSB ∨ i = K.BANK_SELECT_LSB ∨ i = K.VOLUME_MSB
              ∨ i = K.VOLUME_LSB ∨ i = K.PAN_MSB ∨ i = K.PAN_LSB then chan
          else SETCC chan i 0) chan
    else
      (List.range 128).foldl (fun chan i => SETCC chan i 0) chan
  let chan := SETCC chan K.RPN_LSB 127
  let chan := SETCC chan K.RPN_MSB 127
  let chan := SETCC chan K.NRPN_LSB 127
  let chan := SETCC chan K.NRPN_MSB 127
  let chan := SETCC chan K.EXPRESSION_MSB 127
  let chan := SETCC chan K.EXPRESSION_LSB 127
  if ¬ (is_all_ctrl_off ≠ 0) then
    let chan := { chan with pitch_wheel_sensitivity := 2 }
    let chan := (List.range (K.SOUND_CTRL10 + 1 - K.SOUND_CTRL1)).foldl
      (fun chan j => SETCC chan (K.SOUND_CTRL1 + j) 64) chan
    let chan := SETCC chan K.VOLUME_MSB 100
    let chan := SETCC chan K.VOLUME_LSB 0
    let chan := SETCC chan K.PAN_MSB 64
    let chan := SETCC chan K.PAN_LSB 0
    chan
  else chan

/-! ## Channel lifecycle -/

/-- Rebind the channel's preset; should only be called from synthesis
context. -/
def fluid_channel_set_preset (synth : fluid_synth_t) (chan : fluid_channel_t)
    (preset : Option fluid_preset_t) : fluid_status × fluid_synth_t × fluid_channel_t :=
  let synth := fluid_preset_notify synth chan.preset
    fluid_preset_reason.FLUID_PRESET_UNSELECTED chan.channum
  let queued : Option fluid_synth_t :=
    match chan.preset with
    | some old =>
      if fluid_event_queue_get_inptr synth.return_queue then
        let event := fluid_event_queue_elem_t.FREE_PRESET old
        some { synth with return_queue := fluid_event_queue_next_inptr synth.return_queue event }
      else none
    | none => some synth
  match queued with
  | none => (fluid_status.FLUID_FAILED, FLUID_LOG synth Call.log_queue_full, chan)
  | some synth =>
    let chan := { chan with preset := preset }
    let synth := fluid_preset_notify synth preset
      fluid_preset_reason.FLUID_PRESET_SELECTED chan.channum
    (fluid_status.FLUID_OK, synth, chan)

/-- Initialisation of the selector, the preset and the tuning of a
channel. -/
def fluid_channel_init (K : Consts) (synth : fluid_synth_t) (chan : fluid_channel_t) :
    fluid_synth_t × fluid_channel_t :=
  let prognum : Int := 0
  let banknum : Int := if chan.channum = 9 then 128 else 0
  let word : Int :=
    int_or (int_or (int_shl 0 SFONT_SHIFTVAL) (int_shl banknum BANK_SHIFTVAL))
      (int_shl prognum PROG_SHIFTVAL)
  let chan := { chan with sfont_bank_prog := word }
  let (synth, newpreset) := fluid_synth_find_preset synth banknum prognum
  let (_, synth, chan) := fluid_channel_set_preset synth chan newpreset
  let chan := { chan with interp_method := K.FLUID_INTERP_DEFAULT }
  let chan := { chan with tuning_bank := 0 }
  let chan := { chan with tuning_prog := 0 }
  let chan := { chan with nrpn_select := 0 }
  let chan := { chan with nrpn_active := 0 }
  match chan.tuning with
  | some tuning =>
    let synth :=
      if fluid_event_queue_get_inptr synth.return_queue then
        let event := fluid_event_queue_elem_t.UNREF_TUNING tuning 1
        { synth with return_queue := fluid_event_queue_next_inptr synth.return_queue event }
      else
        FLUID_LOG (fluid_tuning_unref synth tuning 1) Call.log_queue_full
    (synth, { chan with tuning := none })
  | none => (synth, chan)

/-- Creation of channel `num`; `mem` is the block returned by `FLUID_NEW`,
with unspecified contents, or `none` when the allocation fails. -/
def new_fluid_channel (K : Consts) (synth : fluid_synth_t) (num : Int)
    (mem : Option fluid_channel_t) : fluid_synth_t × Option fluid_channel_t :=
  match mem with
  | none => (FLUID_LOG synth Call.log_out_of_memory, none)
  | some chan =>
    let chan := { chan with channum := num }
    let chan := { chan with preset := none }
    let (synth, chan) := fluid_channel_init K synth chan
    let chan := fluid_channel_init_ctrl K chan 0
    (synth, some chan)

/-- Destruction of a channel; only called by `delete_fluid_synth`, so the
preset is released in place. -/
def delete_fluid_channel (synth : fluid_synth_t) (chan : fluid_channel_t) :
    fluid_status × fluid_synth_t :=
  let synth :=
    match chan.preset with
    | some preset => delete_fluid_preset synth preset
    | none => synth
  (fluid_status.FLUID_OK, synth)

/-- Re-initialisation of a channel. -/
def fluid_channel_reset (K : Consts) (synth : fluid_synth_t) (chan : fluid_channel_t) :
    fluid_synth_t × fluid_channel_t :=
  let (synth, chan) := fluid_channel_init K synth chan
  let chan := fluid_channel_init_ctrl K chan 0
  (synth, chan)

/-! ## Calls on the selector word from several threads -/

/-- A call on the selector word, with its arguments. -/
inductive selector_call where
  | set_sfont_bank_prog (sfontnum banknum prognum : Int)
  | set_bank_lsb (banklsb : Int)
  | set_bank_msb (bankmsb : Int)
  | get_sfont_bank_prog
deriving DecidableEq

/-- Where a thread stands in its call: about to run the atomic load of an
iteration, holding its local `newval`; about to run the compare-and-exchange
of an iteration, holding its locals `oldval` and `newval`; or returned, a
getter with the triple it stored through its three pointers. -/
inductive selector_pc where
  | at_load (newval : Int)
  | at_cas (oldval newval : Int)
  | returned (triple : Option (Int × Int × Int))
deriving DecidableEq

/-- Whether the call of a thread has returned. -/
def selector_pc.is_returned : selector_pc → Bool
  | .returned _ => true
  | _ => false

/-- The local `newval` when a call reaches its loop: the candidate computed
from the arguments in `fluid_channel_set_sfont_bank_prog`; the bank setters
assign `newval` before they read it, and the getter has none. -/
def selector_call.candidate : selector_call → Int
  | .set_sfont_bank_prog sfontnum banknum prognum =>
    set_sfont_bank_prog_newval sfontnum banknum prognum
  | _ => 0

/-- The assignment to `newval` in the loop body of each setter, from the
previous `newval` and the `oldval` just loaded; the getter keeps the word it
loaded. -/
def selector_call.loop_newval : selector_call → Int → Int → Int
  | .set_sfont_bank_prog sfontnum banknum prognum, newval, oldval =>
    int_or (int_and newval (int_not (set_sfont_bank_prog_oldmask sfontnum banknum prognum)))
      (int_and oldval (set_sfont_bank_prog_oldmask sfontnum banknum prognum))
  | .set_bank_lsb banklsb, _, oldval =>
    int_or (int_and oldval (int_not BANKLSB_MASKVAL)) (int_shl banklsb BANK_SHIFTVAL)
  | .set_bank_msb bankmsb, _, oldval =>
    int_or (int_and oldval (int_not BANKMSB_MASKVAL)) (int_shl bankmsb (BANK_SHIFTVAL + 7))
  | .get_sfont_bank_prog, _, oldval => oldval

/-- One atomic step of a thread on the channel.  The atomic operations are
`fluid_atomic_int_get` and `fluid_atomic_int_compare_and_exchange`; what a
thread computes on its locals after an atomic operation (the merge, the test
`newval != oldval`, the three extractions of the getter) belongs to the step
of that operation.  A thread that has returned stays where it is. -/
def selector_step (c : selector_call) (pc : selector_pc) (chan : fluid_channel_t) :
    selector_pc × fluid_channel_t :=
  match pc with
  | .at_load newval =>
    match c with
    | .get_sfont_bank_prog =>
      (.returned (some (fluid_channel_get_sfont_bank_prog chan)), chan)
    | c =>
      let oldval := fluid_atomic_int_get chan.sfont_bank_prog
      let newval := c.loop_newval newval oldval
      if newval ≠ oldval then (.at_cas oldval newval, chan) else (.returned none, chan)
  | .at_cas oldval newval =>
    match fluid_atomic_int_compare_and_exchange chan.sfont_bank_prog oldval newval with
    | (true, cell1) => (.returned none, { chan with sfont_bank_prog := cell1 })
    | (false, cell1) => (.at_load newval, { chan with sfont_bank_prog := cell1 })
  | .returned triple => (.returned triple, chan)

/-- Threads running one call each on one channel: the channel, where each
thread stands, and the record `order` of the threads whose calls have
returned, in the order of the atomic steps by which they returned.  A thread
of the program that makes several calls in a row is several of these
threads, each one scheduled after the one before it has returned. -/
structure selector_system where
  chan : fluid_channel_t
  pcs : List selector_pc
  order : List Nat

/-- The threads at the entry of their calls `calls`. -/
def system_init (calls : List selector_call) (chan : fluid_channel_t) : selector_system :=
  { chan := chan
    pcs := calls.map fun c => selector_pc.at_load c.candidate
    order := [] }

/-- The scheduler lets thread `i` run one atomic step; a number that names
no thread changes nothing. -/
def system_step (calls : List selector_call) (st : selector_system) (i : Nat) :
    selector_system :=
  match calls[i]?, st.pcs[i]? with
  | some c, some pc =>
    let next := selector_step c pc st.chan
    { chan := next.2
      pcs := st.pcs.set i next.1
      order :=
        if pc.is_returned = false ∧ next.1.is_returned = true then st.order ++ [i]
        else st.order }
  | _, _ => st

/-- The threads run as the schedule `sched` tells: one atomic step of the
thread named, for each element in turn. -/
def system_run (calls : List selector_call) (sched : List Nat) (st : selector_system) :
    selector_system :=
  sched.foldl (system_step calls) st

/-- A call run by one thread with no other thread around: the single-thread
function of the call; the getter leaves the channel as it is. -/
def selector_call.run (fuel : Nat) (chan : fluid_channel_t) :
    selector_call → Option fluid_channel_t
  | .set_sfont_bank_prog sfontnum banknum prognum =>
    fluid_channel_set_sfont_bank_prog fuel chan sfontnum banknum prognum
  | .set_bank_lsb banklsb => fluid_channel_set_bank_lsb fuel chan banklsb
  | .set_bank_msb bankmsb => fluid_channel_set_bank_msb fuel chan bankmsb
  | .get_sfont_bank_prog => some chan

/-- The calls of the threads listed in `order` made one after the other by a
single thread. -/
def run_in_order (fuel : Nat) (calls : List selector_call) (order : List Nat)
    (chan : fluid_channel_t) : Option fluid_channel_t :=
  order.foldl
    (fun r i => r.bind fun chan =>
      match calls[i]? with
      | some c => c.run fuel chan
      | none => some chan)
    (some chan)

/-- The four fields of the selector word that a call can target: the
SoundFont ID, the two halves of the bank and the program. -/
inductive selector_field where
  | sfont
  | bank_msb
  | bank_lsb
  | prog
deriving DecidableEq

/-- The value of a field in a triple returned by the getter. -/
def selector_field.of_triple : selector_field → Int × Int × Int → Int
  | .sfont, triple => triple.1
  | .bank_msb, triple => triple.2.1 / 128
  | .bank_lsb, triple => triple.2.1 % 128
  | .prog, triple => triple.2.2

/-- The value a call applies to a field, `none` when the call does not
target the field: an argument -1 of the full setter targets nothing, a bank
number targets both halves of the bank. -/
def selector_call.applied_value : selector_call → selector_field → Option Int
  | .set_sfont_bank_prog sfontnum _ _, .sfont => if sfontnum ≠ -1 then some sfontnum else none
  | .set_sfont_bank_prog _ banknum _, .bank_msb =>
    if banknum ≠ -1 then some (banknum / 128) else none
  | .set_sfont_bank_prog _ banknum _, .bank_lsb =>
    if banknum ≠ -1 then some (banknum % 128) else none
  | .set_sfont_bank_prog _ _ prognum, .prog => if prognum ≠ -1 then some prognum else none
  | .set_bank_lsb banklsb, .bank_lsb => some banklsb
  | .set_bank_msb bankmsb, .bank_msb => some bankmsb
  | _, _ => none

/-- The value most recently applied to a field by the calls of the threads
listed in `order`, the earliest first; `initial` when none targets it. -/
def most_recently_applied (calls : List selector_call) (order : List Nat)
    (field : selector_field) (initial : Int) : Int :=
  order.foldl
    (fun v i =>
      match calls[i]? with
      | some c => (c.applied_value field).getD v
      | none => v)
    initial

/-- The arguments of a call are field values: a SoundFont ID below 2048, a
bank below 16384, a program or a bank half below 128, or -1 where the full
setter allows it. -/
def selector_call.in_range : selector_call → Prop
  | .set_sfont_bank_prog sfontnum banknum prognum =>
    (sfontnum = -1 ∨ (0 ≤ sfontnum ∧ sfontnum ≤ 2047))
      ∧ (banknum = -1 ∨ (0 ≤ banknum ∧ banknum ≤ 16383))
      ∧ (prognum = -1 ∨ (0 ≤ prognum ∧ prognum ≤ 127))
  | .set_bank_lsb banklsb => 0 ≤ banklsb ∧ banklsb ≤ 127
  | .set_bank_msb bankmsb => 0 ≤ bankmsb ∧ bankmsb ≤ 127
  | .get_sfont_bank_prog => True

instance (c : selector_call) : Decidable c.in_range := by
  cases c <;> unfold selector_call.in_range <;> infer_instance

/-! ## Sample states -/

/-- A channel whose selector word is `w`, with arbitrary non-default
contents everywhere else. -/
def sampleChan (w : Int) : fluid_channel_t where
  channum := 3
  sfont_bank_prog := w
  preset := some 11
  key_pressure := 5
  channel_pressure := 6
  pitch_bend := 7
  pitch_wheel_sensitivity := 9
  cc := List.replicate 128 77
  interp_method := 1
  tuning := some 21
  tuning_bank := 2
  tuning_prog := 3
  nrpn_select := 4
  nrpn_active := 1
  gen := List.replicate 60 1
  gen_abs := List.replicate 60 1

/-- A synth whose preset store knows one instrument per bank below 129 and
whose return queue has `slots` slots, none of them used. -/
def sampleSynth (slots : Nat) : fluid_synth_t where
  presets := fun banknum prognum =>
    if 0 ≤ banknum ∧ banknum ≤ 128 ∧ prognum = 0 then some (100 + banknum.toNat) else none
  return_queue := { array := [], totalcount := slots }
  calls := []

/-- A synth whose preset store knows no instrument and whose return queue
has `slots` slots, none of them used. -/
def emptySynth (slots : Nat) : fluid_synth_t where
  presets := fun _ _ => none
  return_queue := { array := [], totalcount := slots }
  calls := []

/-- Four threads on one channel: a full setter that keeps the bank, the two
bank setters and a getter. -/
def sampleCalls : List selector_call :=
  [.set_sfont_bank_prog 3 (-1) 10, .set_bank_lsb 20, .set_bank_msb 5, .get_sfont_bank_prog]

/-- A schedule of the four threads in which the compare-and-exchange of
thread 0 and later that of thread 2 fail, because thread 1 and then thread 0
changed the word after their loads, and in which every thread returns. -/
def sampleSchedule : List Nat := [0, 1, 1, 0, 2, 0, 0, 2, 3, 2, 2]

/-! ## Machine integers and bit fields -/

theorem int_to_uint_lt (x : Int) : int_to_uint x < 4294967296 := by
  unfold int_to_uint; omega

theorem int_to_uint_natCast (n : Nat) (h : n < 4294967296) : int_to_uint (n : Int) = n := by
  unfold int_to_uint; omega

theorem int_to_uint_uint_to_int (n : Nat) (h : n < 4294967296) :
    int_to_uint (uint_to_int n) = n := by
  unfold int_to_uint uint_to_int; split <;> omega

theorem uint_to_int_small (n : Nat) (h : n < 2147483648) : uint_to_int n = (n : Int) := by
  unfold uint_to_int; split <;> omega

theorem uint_to_int_int_to_uint (x : Int) (h1 : -2147483648 ≤ x) (h2 : x < 2147483648) :
    uint_to_int (int_to_uint x) = x := by
  unfold int_to_uint uint_to_int; split <;> omega

theorem land_concat (k a a' b b' : Nat) (hb : b < 2 ^ k) (hb' : b' < 2 ^ k) :
    (2 ^ k * a + b) &&& (2 ^ k * a' + b') = 2 ^ k * (a &&& a') + (b &&& b') := by
  apply Nat.eq_of_testBit_eq
  intro j
  rw [Nat.testBit_and, Nat.testBit_mul_pow_two_add _ hb, Nat.testBit_mul_pow_two_add _ hb',
    Nat.testBit_mul_pow_two_add _ (Nat.and_lt_two_pow _ hb')]
  split <;> simp [Nat.testBit_and]

theorem lor_concat (k a a' b b' : Nat) (hb : b < 2 ^ k) (hb' : b' < 2 ^ k) :
    (2 ^ k * a + b) ||| (2 ^ k * a' + b') = 2 ^ k * (a ||| a') + (b ||| b') := by
  apply Nat.eq_of_testBit_eq
  intro j
  rw [Nat.testBit_or, Nat.testBit_mul_pow_two_add _ hb, Nat.testBit_mul_pow_two_add _ hb',
    Nat.testBit_mul_pow_two_add _ (Nat.or_lt_two_pow hb hb')]
  split <;> simp [Nat.testBit_or]

theorem land_fields (s b p s' b' p' : Nat) (hb : b < 16384) (hp : p < 128)
    (hb' : b' < 16384) (hp' : p' < 128) :
    (s * 2097152 + b * 128 + p) &&& (s' * 2097152 + b' * 128 + p')
      = (s &&& s') * 2097152 + (b &&& b') * 128 + (p &&& p') := by
  have e1 : s * 2097152 + b * 128 + p = 2 ^ 7 * (2 ^ 14 * s + b) + p := by omega
  have e2 : s' * 2097152 + b' * 128 + p' = 2 ^ 7 * (2 ^ 14 * s' + b') + p' := by omega
  rw [e1, e2, land_concat 7 _ _ _ _ (by omega) (by omega),
    land_concat 14 _ _ _ _ (by omega) (by omega)]
  omega

theorem lor_fields (s b p s' b' p' : Nat) (hb : b < 16384) (hp : p < 128)
    (hb' : b' < 16384) (hp' : p' < 128) :
    (s * 2097152 + b * 128 + p) ||| (s' * 2097152 + b' * 128 + p')
      = (s ||| s') * 2097152 + (b ||| b') * 128 + (p ||| p') := by
  have e1 : s * 2097152 + b * 128 + p = 2 ^ 7 * (2 ^ 14 * s + b) + p := by omega
  have e2 : s' * 2097152 + b' * 128 + p' = 2 ^ 7 * (2 ^ 14 * s' + b') + p' := by omega
  rw [e1, e2, lor_concat 7 _ _ _ _ (by omega) (by omega),
    lor_concat 14 _ _ _ _ (by omega) (by omega)]
  omega


theorem int_to_uint_int_and (x y : Int) :
    int_to_uint (int_and x y) = int_to_uint x &&& int_to_uint y := by
  unfold int_and
  exact int_to_uint_uint_to_int _ (Nat.and_lt_two_pow (n := 32) _ (int_to_uint_lt y))

theorem int_to_uint_int_or (x y : Int) :
    int_to_uint (int_or x y) = int_to_uint x ||| int_to_uint y := by
  unfold int_or
  exact int_to_uint_uint_to_int _ (Nat.or_lt_two_pow (n := 32) (int_to_uint_lt x) (int_to_uint_lt y))

theorem int_to_uint_int_not (x : Int) :
    int_to_uint (int_not x) = 4294967295 - int_to_uint x := by
  unfold int_not
  exact int_to_uint_uint_to_int _ (by omega)

theorem int_to_uint_int_shl (x : Int) (k : Nat) :
    int_to_uint (int_shl x k) = (int_to_uint x * 2 ^ k) % 4294967296 := by
  unfold int_shl
  rw [int_to_uint_uint_to_int _ (Nat.mod_lt _ (by decide)), Nat.shiftLeft_eq]

theorem int_or_eq (x y : Int) : int_or x y = uint_to_int (int_to_uint x ||| int_to_uint y) := rfl

/-- The retry loop of the full setter stops in its first iteration. -/
theorem set_sfont_bank_prog_loop_succ (oldmask : Int) (fuel : Nat) (newval cell : Int) :
    set_sfont_bank_prog_loop oldmask (fuel + 1) newval cell
      = some (int_or (int_and newval (int_not oldmask)) (int_and cell oldmask)) := by
  simp only [set_sfont_bank_prog_loop, fluid_atomic_int_get,
    fluid_atomic_int_compare_and_exchange]
  split
  · simp
  · rename_i h
    simp only [ne_eq, not_not] at h
    rw [h]

theorem set_bank_lsb_loop_succ (banklsb : Int) (fuel : Nat) (cell : Int) :
    set_bank_lsb_loop banklsb (fuel + 1) cell
      = some (int_or (int_and cell (int_not BANKLSB_MASKVAL)) (int_shl banklsb BANK_SHIFTVAL)) := by
  simp only [set_bank_lsb_loop, fluid_atomic_int_get,
    fluid_atomic_int_compare_and_exchange]
  split
  · simp
  · rename_i h
    simp only [ne_eq, not_not] at h
    rw [h]

theorem set_bank_msb_loop_succ (bankmsb : Int) (fuel : Nat) (cell : Int) :
    set_bank_msb_loop bankmsb (fuel + 1) cell
      = some (int_or (int_and cell (int_not BANKMSB_MASKVAL))
          (int_shl bankmsb (BANK_SHIFTVAL + 7))) := by
  simp only [set_bank_msb_loop, fluid_atomic_int_get,
    fluid_atomic_int_compare_and_exchange]
  split
  · simp
  · rename_i h
    simp only [ne_eq, not_not] at h
    rw [h]

theorem land_max (k x : Nat) (h : x < 2 ^ k) : x &&& (2 ^ k - 1) = x :=
  Nat.and_pow_two_sub_one_of_lt_two_pow h

/-- Every 32-bit pattern is the concatenation of its three fields. -/
theorem fields_eq (n : Nat) :
    n = n / 2097152 * 2097152 + n / 128 % 16384 * 128 + n % 128 := by omega


/-- The merge of one field: the candidate's bits where the field is
specified, the old bits otherwise. -/
theorem merge_field (k : Nat) (c : Bool) (v old : Nat) (hv : v < 2 ^ k) (ho : old < 2 ^ k) :
    (((if c then v else 0) &&& (2 ^ k - 1 - (if c then 0 else 2 ^ k - 1)))
      ||| (old &&& (if c then 0 else 2 ^ k - 1))) = if c then v else old := by
  cases c
  · simp [land_max k old ho]
  · simp [land_max k v hv]

/-- Bit pattern left by the merge step of the full setter, field by field. -/
theorem merge_pattern (cs cb cp : Bool) (s b p n : Nat) (hs : s < 2048) (hb : b < 16384)
    (hp : p < 128) (hn : n < 4294967296) :
    ((((if cs then s * 2097152 else 0) ||| (if cb then b * 128 else 0)) ||| (if cp then p else 0))
        &&& (4294967295 - (((if cs then 0 else SFONT_MASKVAL) ||| (if cb then 0 else BANK_MASKVAL))
              ||| (if cp then 0 else PROG_MASKVAL))))
      ||| (n &&& (((if cs then 0 else SFONT_MASKVAL) ||| (if cb then 0 else BANK_MASKVAL))
              ||| (if cp then 0 else PROG_MASKVAL)))
    = (if cs then s else n / 2097152) * 2097152 + (if cb then b else n / 128 % 16384) * 128
        + (if cp then p else n % 128) := by
  have hnv : (((if cs then s * 2097152 else 0) ||| (if cb then b * 128 else 0))
        ||| (if cp then p else 0))
      = (if cs then s else 0) * 2097152 + (if cb then b else 0) * 128 + (if cp then p else 0) := by
    have e1 : (if cs then s * 2097152 else 0) = (if cs then s else 0) * 2097152 + 0 * 128 + 0 := by
      cases cs <;> simp
    have e2 : (if cb then b * 128 else 0) = 0 * 2097152 + (if cb then b else 0) * 128 + 0 := by
      cases cb <;> simp
    have e3 : (if cp then p else 0) = 0 * 2097152 + 0 * 128 + (if cp then p else 0) := by
      cases cp <;> simp
    have hb0 : (if cb then b else 0) < 16384 := by cases cb <;> simp [hb]
    have hp0 : (if cp then p else 0) < 128 := by cases cp <;> simp [hp]
    rw [e1, e2, e3, lor_fields _ _ _ _ _ _ (by omega) (by omega) hb0 (by omega),
      lor_fields _ _ _ _ _ _ (by simp; exact hb0) (by simp) (by omega) hp0]
    simp
  have hm : (((if cs then 0 else SFONT_MASKVAL) ||| (if cb then 0 else BANK_MASKVAL))
        ||| (if cp then 0 else PROG_MASKVAL))
      = (if cs then 0 else 2 ^ 11 - 1) * 2097152 + (if cb then 0 else 2 ^ 14 - 1) * 128
          + (if cp then 0 else 2 ^ 7 - 1) := by
    cases cs <;> cases cb <;> cases cp <;> decide
  have hms : (if cs then 0 else 2 ^ 11 - 1) ≤ 2 ^ 11 - 1 := by cases cs <;> simp
  have hmb : (if cb then 0 else 2 ^ 14 - 1) ≤ 2 ^ 14 - 1 := by cases cb <;> simp
  have hmp : (if cp then 0 else 2 ^ 7 - 1) ≤ 2 ^ 7 - 1 := by cases cp <;> simp
  have hnot : 4294967295 - ((if cs then 0 else 2 ^ 11 - 1) * 2097152
        + (if cb then 0 else 2 ^ 14 - 1) * 128 + (if cp then 0 else 2 ^ 7 - 1))
      = (2 ^ 11 - 1 - (if cs then 0 else 2 ^ 11 - 1)) * 2097152
        + (2 ^ 14 - 1 - (if cb then 0 else 2 ^ 14 - 1)) * 128
        + (2 ^ 7 - 1 - (if cp then 0 else 2 ^ 7 - 1)) := by
    cases cs <;> cases cb <;> cases cp <;> decide
  have hs0 : (if cs then s else 0) < 2 ^ 11 := by split <;> omega
  have hb0 : (if cb then b else 0) < 2 ^ 14 := by split <;> omega
  have hp0 : (if cp then p else 0) < 2 ^ 7 := by split <;> omega
  rw [hnv, hm, hnot]
  conv_lhs => rw [fields_eq n]
  rw [land_fields _ _ _ _ _ _ (by omega) (by omega) (by omega) (by omega),
    land_fields _ _ _ _ _ _ (by omega) (by omega) (by omega) (by omega),
    lor_fields _ _ _ _ _ _ (Nat.lt_of_le_of_lt Nat.and_le_left (by omega))
      (Nat.lt_of_le_of_lt Nat.and_le_left (by omega))
      (Nat.lt_of_le_of_lt Nat.and_le_left (by omega))
      (Nat.lt_of_le_of_lt Nat.and_le_left (by omega)),
    merge_field 11 cs s _ (by omega) (by omega), merge_field 14 cb b _ (by omega) (by omega),
    merge_field 7 cp p _ (by omega) (by omega)]

/-- An argument of the full setter: the sentinel -1 or a value below
`bound`. -/
theorem arg_pattern (x : Int) (bound k : Nat) (hbound : bound * 2 ^ k ≤ 4294967296)
    (hx : x = -1 ∨ (0 ≤ x ∧ x < bound)) :
    int_to_uint (if x ≠ -1 then int_shl x k else 0)
      = if decide (x ≠ -1) = true then x.toNat * 2 ^ k else 0 := by
  rcases hx with rfl | ⟨h0, h1⟩
  · simp [int_to_uint]
  · have hne : x ≠ -1 := by omega
    obtain ⟨m, rfl⟩ := Int.eq_ofNat_of_zero_le h0
    have hm : m < bound := by omega
    have hlt : m * 2 ^ k < 4294967296 :=
      Nat.lt_of_lt_of_le (Nat.mul_lt_mul_of_pos_right hm (Nat.two_pow_pos k)) hbound
    have hm32 : m < 4294967296 :=
      Nat.lt_of_le_of_lt (Nat.le_mul_of_pos_right m (Nat.two_pow_pos k)) hlt
    simp only [hne, ne_eq, not_false_eq_true, ite_true, decide_True, int_to_uint_int_shl,
      Int.toNat_ofNat]
    rw [int_to_uint_natCast m hm32, Nat.mod_eq_of_lt hlt]

/-- The word left by the full setter, field by field. -/
theorem set_sfont_bank_prog_eq (fuel : Nat) (chan : fluid_channel_t) (s b p : Int)
    (hs : s = -1 ∨ (0 ≤ s ∧ s ≤ 2047)) (hb : b = -1 ∨ (0 ≤ b ∧ b ≤ 16383))
    (hp : p = -1 ∨ (0 ≤ p ∧ p ≤ 127)) :
    fluid_channel_set_sfont_bank_prog (fuel + 1) chan s b p
      = some { chan with
          sfont_bank_prog := uint_to_int
            ((if s ≠ -1 then s.toNat else int_to_uint chan.sfont_bank_prog / 2097152) * 2097152
              + (if b ≠ -1 then b.toNat else int_to_uint chan.sfont_bank_prog / 128 % 16384) * 128
              + (if p ≠ -1 then p.toNat else int_to_uint chan.sfont_bank_prog % 128)) } := by
  have hS : s.toNat < 2048 := by omega
  have hB : b.toNat < 16384 := by omega
  have hP : p.toNat < 128 := by omega
  have hmask : ∀ cs cb cp : Bool, (((if cs then 0 else SFONT_MASKVAL)
      ||| (if cb then 0 else BANK_MASKVAL)) ||| (if cp then 0 else PROG_MASKVAL)) < 4294967296 := by
    decide
  have key := merge_pattern (decide (s ≠ -1)) (decide (b ≠ -1)) (decide (p ≠ -1))
    s.toNat b.toNat p.toNat (int_to_uint chan.sfont_bank_prog) hS hB hP (int_to_uint_lt _)
  have hmask1 := hmask (decide (s ≠ -1)) (decide (b ≠ -1)) (decide (p ≠ -1))
  simp only [decide_eq_true_eq] at key hmask1
  unfold fluid_channel_set_sfont_bank_prog
  simp only [set_sfont_bank_prog_loop_succ, Option.map_some']
  congr 2
  rw [int_or_eq]
  congr 1
  rw [int_to_uint_int_and, int_to_uint_int_and, int_to_uint_int_not, int_to_uint_int_or,
    int_to_uint_int_or, int_to_uint_uint_to_int _ hmask1,
    arg_pattern s 2048 SFONT_SHIFTVAL (by decide) (by omega),
    arg_pattern b 16384 BANK_SHIFTVAL (by decide) (by omega),
    arg_pattern p 128 PROG_SHIFTVAL (by decide) (by omega)]
  simp only [decide_eq_true_eq, SFONT_SHIFTVAL, BANK_SHIFTVAL, PROG_SHIFTVAL]
  norm_num only [Nat.mul_one] at key ⊢
  exact key

theorem land_SFONT_MASKVAL (n : Nat) (hn : n < 4294967296) :
    n &&& SFONT_MASKVAL = n / 2097152 * 2097152 := by
  have hm : SFONT_MASKVAL = (2 ^ 11 - 1) * 2097152 + 0 * 128 + 0 := by decide
  conv_lhs => rw [fields_eq n, hm]
  rw [land_fields _ _ _ _ _ _ (by omega) (by omega) (by omega) (by omega),
    land_max 11 _ (by omega)]
  simp

theorem land_BANK_MASKVAL (n : Nat) : n &&& BANK_MASKVAL = n / 128 % 16384 * 128 := by
  have hm : BANK_MASKVAL = 0 * 2097152 + (2 ^ 14 - 1) * 128 + 0 := by decide
  conv_lhs => rw [fields_eq n, hm]
  rw [land_fields _ _ _ _ _ _ (by omega) (by omega) (by omega) (by omega),
    land_max 14 _ (by omega)]
  simp

theorem land_PROG_MASKVAL (n : Nat) : n &&& PROG_MASKVAL = n % 128 := by
  have hm : PROG_MASKVAL = 0 * 2097152 + 0 * 128 + (2 ^ 7 - 1) := by decide
  conv_lhs => rw [fields_eq n, hm]
  rw [land_fields _ _ _ _ _ _ (by omega) (by omega) (by omega) (by omega),
    land_max 7 _ (by omega)]
  simp

/-- What the getter returns, in terms of the 32-bit pattern of the word. -/
theorem get_sfont_bank_prog_eq (chan : fluid_channel_t) :
    fluid_channel_get_sfont_bank_prog chan
      = (((int_to_uint chan.sfont_bank_prog / 2097152 : Nat) : Int),
         ((int_to_uint chan.sfont_bank_prog / 128 % 16384 : Nat) : Int),
         ((int_to_uint chan.sfont_bank_prog % 128 : Nat) : Int)) := by
  have hn := int_to_uint_lt chan.sfont_bank_prog
  have hB : int_to_uint ((BANK_MASKVAL : Nat) : Int) = BANK_MASKVAL :=
    int_to_uint_natCast _ (by decide)
  have hP : int_to_uint ((PROG_MASKVAL : Nat) : Int) = PROG_MASKVAL :=
    int_to_uint_natCast _ (by decide)
  unfold fluid_channel_get_sfont_bank_prog fluid_atomic_int_get int_shr int_and
  simp only [hB, hP, land_SFONT_MASKVAL _ hn, land_BANK_MASKVAL, land_PROG_MASKVAL,
    Nat.shiftRight_eq_div_pow, SFONT_SHIFTVAL, BANK_SHIFTVAL, PROG_SHIFTVAL]
  rw [uint_to_int_small _ (by omega), uint_to_int_small _ (by omega),
    uint_to_int_small _ (by omega)]
  refine Prod.ext ?_ (Prod.ext ?_ ?_)
  · simp
  · simp only []
    omega
  · simp

/-- The getter applied to a word assembled from three in-range fields. -/
theorem get_of_fields (chan : fluid_channel_t) (s b p : Nat) (hs : s < 2048) (hb : b < 16384)
    (hp : p < 128) (hw : chan.sfont_bank_prog = uint_to_int (s * 2097152 + b * 128 + p)) :
    fluid_channel_get_sfont_bank_prog chan = ((s : Int), (b : Int), (p : Int)) := by
  rw [get_sfont_bank_prog_eq, hw, int_to_uint_uint_to_int _ (by omega)]
  have e1 : (s * 2097152 + b * 128 + p) / 2097152 = s := by omega
  have e2 : (s * 2097152 + b * 128 + p) / 128 % 16384 = b := by omega
  have e3 : (s * 2097152 + b * 128 + p) % 128 = p := by omega
  rw [e1, e2, e3]

/-- Bit pattern left by the merge step of the bank LSB setter. -/
theorem lsb_pattern (n m : Nat) (hn : n < 4294967296) (hm : m < 128) :
    (n &&& (4294967295 - BANKLSB_MASKVAL)) ||| (m * 2 ^ 7)
      = n / 2097152 * 2097152 + (n / 128 % 16384 / 128 * 128 + m) * 128 + n % 128 := by
  have hnot : 4294967295 - BANKLSB_MASKVAL
      = (2 ^ 11 - 1) * 2097152 + (2 ^ 7 * (2 ^ 7 - 1) + 0) * 128 + (2 ^ 7 - 1) := by decide
  have hb : n / 128 % 16384 = 2 ^ 7 * (n / 128 % 16384 / 128) + n / 128 % 16384 % 128 := by
    omega
  have hv : m * 2 ^ 7 = 0 * 2097152 + (2 ^ 7 * 0 + m) * 128 + 0 := by omega
  rw [hnot, hv]
  conv_lhs => rw [fields_eq n]
  rw [land_fields _ _ _ _ _ _ (by omega) (by omega) (by omega) (by omega),
    land_max 11 _ (by omega), land_max 7 _ (by omega)]
  conv_lhs => rw [hb]
  rw [land_concat 7 _ _ _ _ (by omega) (by omega), land_max 7 _ (by omega), Nat.and_zero,
    lor_fields _ _ _ _ _ _ (by omega) (by omega) (by omega) (by omega),
    lor_concat 7 _ _ _ _ (by omega) (by omega)]
  simp only [Nat.or_zero, Nat.zero_or]
  omega

/-- Bit pattern left by the merge step of the bank MSB setter. -/
theorem msb_pattern (n m : Nat) (hn : n < 4294967296) (hm : m < 128) :
    (n &&& (4294967295 - BANKMSB_MASKVAL)) ||| (m * 2 ^ 14)
      = n / 2097152 * 2097152 + (m * 128 + n / 128 % 16384 % 128) * 128 + n % 128 := by
  have hnot : 4294967295 - BANKMSB_MASKVAL
      = (2 ^ 11 - 1) * 2097152 + (2 ^ 7 * 0 + (2 ^ 7 - 1)) * 128 + (2 ^ 7 - 1) := by decide
  have hb : n / 128 % 16384 = 2 ^ 7 * (n / 128 % 16384 / 128) + n / 128 % 16384 % 128 := by
    omega
  have hv : m * 2 ^ 14 = 0 * 2097152 + (2 ^ 7 * m + 0) * 128 + 0 := by omega
  rw [hnot, hv]
  conv_lhs => rw [fields_eq n]
  rw [land_fields _ _ _ _ _ _ (by omega) (by omega) (by omega) (by omega),
    land_max 11 _ (by omega), land_max 7 _ (by omega)]
  conv_lhs => rw [hb]
  rw [land_concat 7 _ _ _ _ (by omega) (by omega), land_max 7 _ (by omega), Nat.and_zero,
    lor_fields _ _ _ _ _ _ (by omega) (by omega) (by omega) (by omega),
    lor_concat 7 _ _ _ _ (by omega) (by omega)]
  simp only [Nat.or_zero, Nat.zero_or]
  omega

/-- The word left by the bank LSB setter, field by field. -/
theorem set_bank_lsb_eq (fuel : Nat) (chan : fluid_channel_t) (v : Int)
    (hv : 0 ≤ v ∧ v ≤ 127) :
    fluid_channel_set_bank_lsb (fuel + 1) chan v
      = some { chan with
          sfont_bank_prog := uint_to_int
            (int_to_uint chan.sfont_bank_prog / 2097152 * 2097152
              + (int_to_uint chan.sfont_bank_prog / 128 % 16384 / 128 * 128 + v.toNat) * 128
              + int_to_uint chan.sfont_bank_prog % 128) } := by
  obtain ⟨m, rfl⟩ := Int.eq_ofNat_of_zero_le hv.1
  have hm : m < 128 := by omega
  have hM : int_to_uint ((BANKLSB_MASKVAL : Nat) : Int) = BANKLSB_MASKVAL :=
    int_to_uint_natCast _ (by decide)
  unfold fluid_channel_set_bank_lsb
  simp only [set_bank_lsb_loop_succ, Option.map_some']
  congr 2
  rw [int_or_eq]
  congr 1
  rw [int_to_uint_int_and, int_to_uint_int_not, int_to_uint_int_shl, hM,
    int_to_uint_natCast m (by omega), Nat.mod_eq_of_lt (by simp only [BANK_SHIFTVAL]; omega)]
  exact lsb_pattern _ m (int_to_uint_lt _) hm

/-- The word left by the bank MSB setter, field by field. -/
theorem set_bank_msb_eq (fuel : Nat) (chan : fluid_channel_t) (v : Int)
    (hv : 0 ≤ v ∧ v ≤ 127) :
    fluid_channel_set_bank_msb (fuel + 1) chan v
      = some { chan with
          sfont_bank_prog := uint_to_int
            (int_to_uint chan.sfont_bank_prog / 2097152 * 2097152
              + (v.toNat * 128 + int_to_uint chan.sfont_bank_prog / 128 % 16384 % 128) * 128
              + int_to_uint chan.sfont_bank_prog % 128) } := by
  obtain ⟨m, rfl⟩ := Int.eq_ofNat_of_zero_le hv.1
  have hm : m < 128 := by omega
  have hM : int_to_uint ((BANKMSB_MASKVAL : Nat) : Int) = BANKMSB_MASKVAL :=
    int_to_uint_natCast _ (by decide)
  unfold fluid_channel_set_bank_msb
  simp only [set_bank_msb_loop_succ, Option.map_some']
  congr 2
  rw [int_or_eq]
  congr 1
  rw [int_to_uint_int_and, int_to_uint_int_not, int_to_uint_int_shl, hM,
    int_to_uint_natCast m (by omega), Nat.mod_eq_of_lt (by simp only [BANK_SHIFTVAL]; omega)]
  exact msb_pattern _ m (int_to_uint_lt _) hm

/-- The word `s << 21 | b << 7 | p` assembled from three in-range fields. -/
theorem encode_eq (s b p : Nat) (hs : s < 2048) (hb : b < 16384) (hp : p < 128) :
    int_or (int_or (int_shl (s : Int) SFONT_SHIFTVAL) (int_shl (b : Int) BANK_SHIFTVAL))
        (int_shl (p : Int) PROG_SHIFTVAL)
      = uint_to_int (s * 2097152 + b * 128 + p) := by
  rw [int_or_eq]
  congr 1
  rw [int_to_uint_int_or, int_to_uint_int_shl, int_to_uint_int_shl, int_to_uint_int_shl,
    int_to_uint_natCast s (by omega), int_to_uint_natCast b (by omega),
    int_to_uint_natCast p (by omega)]
  simp only [SFONT_SHIFTVAL, BANK_SHIFTVAL, PROG_SHIFTVAL]
  have e1 : s * 2 ^ 21 % 4294967296 = s * 2097152 + 0 * 128 + 0 := by omega
  have e2 : b * 2 ^ 7 % 4294967296 = 0 * 2097152 + b * 128 + 0 := by omega
  have e3 : p * 2 ^ 0 % 4294967296 = 0 * 2097152 + 0 * 128 + p := by omega
  rw [e1, e2, e3, lor_fields _ _ _ _ _ _ (by omega) (by omega) (by omega) (by omega),
    lor_fields _ _ _ _ _ _ (by simpa using hb) (by simp) (by omega) (by omega)]
  simp

/-! ## The selector word: claims -/

/-- C1 (round trip): for every channel, whatever word its selector holds, and
every source in [0,2047], bank in [0,16383] and program in [0,127],
`fluid_channel_set_sfont_bank_prog` returns within any positive iteration
bound, and `fluid_channel_get_sfont_bank_prog` then returns exactly
(source, bank, program); the stored `int` is negative, that is, has bit 31
set, exactly for the sources from 1024 on. -/
theorem set_get_round_trip (fuel : Nat) (chan : fluid_channel_t) (source bank program : Int)
    (hs : 0 ≤ source ∧ source ≤ 2047) (hb : 0 ≤ bank ∧ bank ≤ 16383)
    (hp : 0 ≤ program ∧ program ≤ 127) :
    ∃ chan1, fluid_channel_set_sfont_bank_prog (fuel + 1) chan source bank program = some chan1
      ∧ fluid_channel_get_sfont_bank_prog chan1 = (source, bank, program)
      ∧ (1024 ≤ source ↔ chan1.sfont_bank_prog < 0) := by
  refine ⟨_, set_sfont_bank_prog_eq fuel chan source bank program (Or.inr hs) (Or.inr hb)
    (Or.inr hp), ?_, ?_⟩
  · rw [get_of_fields _ _ _ _ (by split <;> omega) (by split <;> omega) (by split <;> omega) rfl]
    refine Prod.ext ?_ (Prod.ext ?_ ?_)
    · simp only []
      split <;> omega
    · simp only []
      split <;> omega
    · simp only []
      split <;> omega
  · simp only [uint_to_int]
    have h1 : source ≠ -1 := by omega
    have h2 : bank ≠ -1 := by omega
    have h3 : program ≠ -1 := by omega
    simp only [h1, h2, h3, ne_eq, not_false_eq_true, ite_true]
    split <;> omega

/-- Instance of C1 at the largest triple, on a selector holding the word -1. -/
theorem set_get_round_trip_witness :
    ((0 : Int) ≤ 2047 ∧ (2047 : Int) ≤ 2047) ∧ ((0 : Int) ≤ 16383 ∧ (16383 : Int) ≤ 16383)
    ∧ ((0 : Int) ≤ 127 ∧ (127 : Int) ≤ 127)
    ∧ ∃ chan1, fluid_channel_set_sfont_bank_prog (0 + 1) (sampleChan (-1)) 2047 16383 127
          = some chan1
        ∧ fluid_channel_get_sfont_bank_prog chan1 = (2047, 16383, 127)
        ∧ ((1024 : Int) ≤ 2047 ↔ chan1.sfont_bank_prog < 0) :=
  ⟨by decide, by decide, by decide,
    set_get_round_trip 0 (sampleChan (-1)) 2047 16383 127 (by decide) (by decide) (by decide)⟩

/-- C2 (partial update): for every selector word and every call of
`fluid_channel_set_sfont_bank_prog` whose arguments are each the sentinel -1
or in the range of their field, the call returns and a following get
returns, field by field, the argument if it was specified and what get
returned before the call if it was -1. -/
theorem set_partial_update (fuel : Nat) (chan : fluid_channel_t) (s b p : Int)
    (hs : s = -1 ∨ (0 ≤ s ∧ s ≤ 2047)) (hb : b = -1 ∨ (0 ≤ b ∧ b ≤ 16383))
    (hp : p = -1 ∨ (0 ≤ p ∧ p ≤ 127)) :
    ∃ chan1, fluid_channel_set_sfont_bank_prog (fuel + 1) chan s b p = some chan1
      ∧ fluid_channel_get_sfont_bank_prog chan1
        = (if s = -1 then (fluid_channel_get_sfont_bank_prog chan).1 else s,
           if b = -1 then (fluid_channel_get_sfont_bank_prog chan).2.1 else b,
           if p = -1 then (fluid_channel_get_sfont_bank_prog chan).2.2 else p) := by
  have hn := int_to_uint_lt chan.sfont_bank_prog
  refine ⟨_, set_sfont_bank_prog_eq fuel chan s b p hs hb hp, ?_⟩
  rw [get_of_fields _ _ _ _ (by split <;> omega) (by split <;> omega) (by split <;> omega) rfl,
    get_sfont_bank_prog_eq chan]
  refine Prod.ext ?_ (Prod.ext ?_ ?_)
  · simp only []
    split <;> omega
  · simp only []
    split <;> omega
  · simp only []
    split <;> omega

/-- Instance of C2: only the bank is specified, on a selector holding -1. -/
theorem set_partial_update_witness :
    ((-1 : Int) = -1 ∨ ((0 : Int) ≤ -1 ∧ (-1 : Int) ≤ 2047))
    ∧ ((5 : Int) = -1 ∨ ((0 : Int) ≤ 5 ∧ (5 : Int) ≤ 16383))
    ∧ ((-1 : Int) = -1 ∨ ((0 : Int) ≤ -1 ∧ (-1 : Int) ≤ 127))
    ∧ ∃ chan1, fluid_channel_set_sfont_bank_prog (0 + 1) (sampleChan (-1)) (-1) 5 (-1)
          = some chan1
        ∧ fluid_channel_get_sfont_bank_prog chan1
          = (if (-1 : Int) = -1 then (fluid_channel_get_sfont_bank_prog (sampleChan (-1))).1
              else -1,
             if (5 : Int) = -1 then (fluid_channel_get_sfont_bank_prog (sampleChan (-1))).2.1
              else 5,
             if (-1 : Int) = -1 then (fluid_channel_get_sfont_bank_prog (sampleChan (-1))).2.2
              else -1) :=
  ⟨by decide, by decide, by decide,
    set_partial_update 0 (sampleChan (-1)) (-1) 5 (-1) (by decide) (by decide) (by decide)⟩

/-- C3: for every selector word, decoding to (source, bank, program), and
every v in [0,127], `fluid_channel_set_bank_lsb` returns and leaves a word
decoding to (source, (bank / 128) * 128 + v, program): the low seven bank
bits are replaced by v, the bank MSB, the source and the program are
kept. -/
theorem set_bank_lsb_spec (fuel : Nat) (chan : fluid_channel_t) (v : Int)
    (hv : 0 ≤ v ∧ v ≤ 127) :
    ∃ chan1, fluid_channel_set_bank_lsb (fuel + 1) chan v = some chan1
      ∧ fluid_channel_get_sfont_bank_prog chan1
        = ((fluid_channel_get_sfont_bank_prog chan).1,
           (fluid_channel_get_sfont_bank_prog chan).2.1 / 128 * 128 + v,
           (fluid_channel_get_sfont_bank_prog chan).2.2) := by
  have hn := int_to_uint_lt chan.sfont_bank_prog
  refine ⟨_, set_bank_lsb_eq fuel chan v hv, ?_⟩
  rw [get_of_fields _ _ _ _ (by omega) (by omega) (by omega) rfl, get_sfont_bank_prog_eq chan]
  refine Prod.ext rfl (Prod.ext ?_ rfl)
  simp only []
  omega

/-- Instance of C3 from the triple (5, 3, 10), whose word is 10486154:
setting the bank LSB to 20 gives (5, 20, 10). -/
theorem set_bank_lsb_spec_witness :
    ((0 : Int) ≤ 20 ∧ (20 : Int) ≤ 127)
    ∧ fluid_channel_get_sfont_bank_prog (sampleChan 10486154) = (5, 3, 10)
    ∧ ∃ chan1, fluid_channel_set_bank_lsb (0 + 1) (sampleChan 10486154) 20 = some chan1
        ∧ fluid_channel_get_sfont_bank_prog chan1 = (5, 20, 10) :=
  ⟨by decide, by decide, set_bank_lsb_spec 0 (sampleChan 10486154) 20 (by decide)⟩

/-- C4: for every selector word, decoding to (source, bank, program), and
every v in [0,127], `fluid_channel_set_bank_msb` returns and leaves a word
decoding to (source, v * 128 + bank % 128, program): the bank LSB, the
source and the program are kept. -/
theorem set_bank_msb_spec (fuel : Nat) (chan : fluid_channel_t) (v : Int)
    (hv : 0 ≤ v ∧ v ≤ 127) :
    ∃ chan1, fluid_channel_set_bank_msb (fuel + 1) chan v = some chan1
      ∧ fluid_channel_get_sfont_bank_prog chan1
        = ((fluid_channel_get_sfont_bank_prog chan).1,
           v * 128 + (fluid_channel_get_sfont_bank_prog chan).2.1 % 128,
           (fluid_channel_get_sfont_bank_prog chan).2.2)
      ∧ (fluid_channel_get_sfont_bank_prog chan1).2.1 % 128
        = (fluid_channel_get_sfont_bank_prog chan).2.1 % 128 := by
  have hn := int_to_uint_lt chan.sfont_bank_prog
  have hget : fluid_channel_get_sfont_bank_prog
      { chan with
        sfont_bank_prog := uint_to_int
          (int_to_uint chan.sfont_bank_prog / 2097152 * 2097152
            + (v.toNat * 128 + int_to_uint chan.sfont_bank_prog / 128 % 16384 % 128) * 128
            + int_to_uint chan.sfont_bank_prog % 128) }
      = _ := get_of_fields _ _ _ _ (by omega) (by omega) (by omega) rfl
  refine ⟨_, set_bank_msb_eq fuel chan v hv, ?_, ?_⟩
  · rw [hget, get_sfont_bank_prog_eq chan]
    refine Prod.ext rfl (Prod.ext ?_ rfl)
    simp only []
    omega
  · rw [hget, get_sfont_bank_prog_eq chan]
    simp only []
    omega

/-- Instance of C4 from the triple (5, 300, 10), whose word is 10524170:
setting the bank MSB to 20 gives bank 20 * 128 + 44. -/
theorem set_bank_msb_spec_witness :
    ((0 : Int) ≤ 20 ∧ (20 : Int) ≤ 127)
    ∧ fluid_channel_get_sfont_bank_prog (sampleChan 10524170) = (5, 300, 10)
    ∧ ∃ chan1, fluid_channel_set_bank_msb (0 + 1) (sampleChan 10524170) 20 = some chan1
        ∧ fluid_channel_get_sfont_bank_prog chan1 = (5, 2604, 10)
        ∧ (fluid_channel_get_sfont_bank_prog chan1).2.1 % 128 = 44 :=
  ⟨by decide, by decide, set_bank_msb_spec 0 (sampleChan 10524170) 20 (by decide)⟩

/-- C5 (the bit layout is a partition): the program, bank LSB, bank MSB and
source masks are pairwise disjoint, their union is all 32 bits, and the bank
mask is bank LSB | bank MSB; and for every 32-bit word w, negative or not,
get returns a triple (s, b, p) with 0 <= s <= 2047, 0 <= b <= 16383,
0 <= p <= 127 and w = s << 21 | b << 7 | p, so that setting (s, b, p) on any
channel leaves the word w. -/
theorem layout_partition (fuel : Nat) (chan : fluid_channel_t)
    (hw : -2147483648 ≤ chan.sfont_bank_prog ∧ chan.sfont_bank_prog < 2147483648) :
    (PROG_MASKVAL &&& BANKLSB_MASKVAL = 0 ∧ PROG_MASKVAL &&& BANKMSB_MASKVAL = 0
      ∧ PROG_MASKVAL &&& SFONT_MASKVAL = 0 ∧ BANKLSB_MASKVAL &&& BANKMSB_MASKVAL = 0
      ∧ BANKLSB_MASKVAL &&& SFONT_MASKVAL = 0 ∧ BANKMSB_MASKVAL &&& SFONT_MASKVAL = 0)
    ∧ PROG_MASKVAL ||| BANKLSB_MASKVAL ||| BANKMSB_MASKVAL ||| SFONT_MASKVAL = 0xFFFFFFFF
    ∧ BANK_MASKVAL = BANKLSB_MASKVAL ||| BANKMSB_MASKVAL
    ∧ ∃ s b p : Int, fluid_channel_get_sfont_bank_prog chan = (s, b, p)
        ∧ (0 ≤ s ∧ s ≤ 2047) ∧ (0 ≤ b ∧ b ≤ 16383) ∧ (0 ≤ p ∧ p ≤ 127)
        ∧ chan.sfont_bank_prog
            = int_or (int_or (int_shl s SFONT_SHIFTVAL) (int_shl b BANK_SHIFTVAL))
                (int_shl p PROG_SHIFTVAL)
        ∧ ∀ other : fluid_channel_t,
            fluid_channel_set_sfont_bank_prog (fuel + 1) other s b p
              = some { other with sfont_bank_prog := chan.sfont_bank_prog } := by
  have hn := int_to_uint_lt chan.sfont_bank_prog
  have hword : uint_to_int (int_to_uint chan.sfont_bank_prog / 2097152 * 2097152
      + int_to_uint chan.sfont_bank_prog / 128 % 16384 * 128
      + int_to_uint chan.sfont_bank_prog % 128) = chan.sfont_bank_prog := by
    rw [← fields_eq, uint_to_int_int_to_uint _ hw.1 hw.2]
  refine ⟨by decide, by decide, by decide, _, _, _, get_sfont_bank_prog_eq chan,
    ⟨by omega, by omega⟩, ⟨by omega, by omega⟩, ⟨by omega, by omega⟩, ?_, ?_⟩
  · rw [encode_eq _ _ _ (by omega) (by omega) (by omega), hword]
  · intro other
    rw [set_sfont_bank_prog_eq fuel other _ _ _ (Or.inr ⟨by omega, by omega⟩)
      (Or.inr ⟨by omega, by omega⟩) (Or.inr ⟨by omega, by omega⟩)]
    have h1 : ((int_to_uint chan.sfont_bank_prog / 2097152 : Nat) : Int) ≠ -1 := by omega
    have h2 : ((int_to_uint chan.sfont_bank_prog / 128 % 16384 : Nat) : Int) ≠ -1 := by omega
    have h3 : ((int_to_uint chan.sfont_bank_prog % 128 : Nat) : Int) ≠ -1 := by omega
    simp only [h1, h2, h3, ne_eq, not_false_eq_true, ite_true, Int.toNat_ofNat, hword]

/-- Instance of C5 at the most negative word, whose only set bit is bit 31. -/
theorem layout_partition_witness :
    ((-2147483648 : Int) ≤ (sampleChan (-2147483648)).sfont_bank_prog
      ∧ (sampleChan (-2147483648)).sfont_bank_prog < 2147483648)
    ∧ fluid_channel_get_sfont_bank_prog (sampleChan (-2147483648)) = (1024, 0, 0)
    ∧ ∃ s b p : Int, fluid_channel_get_sfont_bank_prog (sampleChan (-2147483648)) = (s, b, p)
        ∧ (0 ≤ s ∧ s ≤ 2047) ∧ (0 ≤ b ∧ b ≤ 16383) ∧ (0 ≤ p ∧ p ≤ 127)
        ∧ (sampleChan (-2147483648)).sfont_bank_prog
            = int_or (int_or (int_shl s SFONT_SHIFTVAL) (int_shl b BANK_SHIFTVAL))
                (int_shl p PROG_SHIFTVAL)
        ∧ ∀ other : fluid_channel_t,
            fluid_channel_set_sfont_bank_prog (0 + 1) other s b p
              = some { other with
                  sfont_bank_prog := (sampleChan (-2147483648)).sfont_bank_prog } :=
  ⟨by decide, by decide,
    (layout_partition 0 (sampleChan (-2147483648)) (by decide)).2.2.2⟩

/-! ## Arrays and loops -/

/-- Entry `j` of an array after a loop that stores the constant `v` at index
`k i` for the loop indices `i` passing the test `c`. -/
theorem getElem?_foldl_set {α : Type} (c : Nat → Prop) [DecidablePred c] (k : Nat → Nat) (v : α)
    (is : List Nat) (l : List α) (j : Nat) :
    (is.foldl (fun acc i => if c i then acc.set (k i) v else acc) l)[j]?
      = if (∃ i ∈ is, c i ∧ k i = j) ∧ j < l.length then some v else l[j]? := by
  induction is generalizing l with
  | nil => simp
  | cons a t ih =>
    rw [List.foldl_cons, ih]
    by_cases hc : c a
    · by_cases hk : k a = j
      · subst hk
        by_cases hlt : k a < l.length
        · have h1 : (∃ i ∈ a :: t, c i ∧ k i = k a) := ⟨a, List.mem_cons_self _ _, hc, rfl⟩
          simp [hc, hlt, h1, List.getElem?_set]
        · have hle : l.length ≤ k a := Nat.le_of_not_lt hlt
          simp [hc, hlt, hle, List.getElem?_set]
      · have h1 : (∃ i ∈ a :: t, c i ∧ k i = j) ↔ (∃ i ∈ t, c i ∧ k i = j) := by
          simp [hk]
        simp only [hc, if_true, h1, List.length_set, List.getElem?_set, hk, if_false]
    · have h1 : (∃ i ∈ a :: t, c i ∧ k i = j) ↔ (∃ i ∈ t, c i ∧ k i = j) := by
        simp [hc]
      simp only [hc, if_false, h1]

theorem length_foldl_set {α : Type} (c : Nat → Prop) [DecidablePred c] (k : Nat → Nat) (v : α)
    (is : List Nat) (l : List α) :
    (is.foldl (fun acc i => if c i then acc.set (k i) v else acc) l).length = l.length := by
  induction is generalizing l with
  | nil => rfl
  | cons a t ih =>
    rw [List.foldl_cons, ih]
    split <;> simp

/-- Entry `j` of an array after a loop storing `v` at index `k i` for every
loop index `i`. -/
theorem getElem?_foldl_set_all {α : Type} (k : Nat → Nat) (v : α) (is : List Nat) (l : List α)
    (j : Nat) :
    (is.foldl (fun acc i => acc.set (k i) v) l)[j]?
      = if (∃ i ∈ is, k i = j) ∧ j < l.length then some v else l[j]? := by
  simpa using getElem?_foldl_set (fun _ => True) k v is l j

theorem length_foldl_set_all {α : Type} (k : Nat → Nat) (v : α) (is : List Nat) (l : List α) :
    (is.foldl (fun acc i => acc.set (k i) v) l).length = l.length := by
  simpa using length_foldl_set (fun _ => True) k v is l

/-- A loop whose body only stores into the controller array. -/
theorem foldl_cc_only (body : fluid_channel_t → Nat → fluid_channel_t)
    (f : List Int → Nat → List Int)
    (h : ∀ chan i, body chan i = { chan with cc := f chan.cc i }) (is : List Nat)
    (chan : fluid_channel_t) :
    is.foldl body chan = { chan with cc := is.foldl f chan.cc } := by
  induction is generalizing chan with
  | nil => rfl
  | cons a t ih => rw [List.foldl_cons, ih, h]; rfl

/-- The loop clearing the generator overrides. -/
theorem foldl_gen (is : List Nat) (chan : fluid_channel_t) :
    is.foldl (fun chan i =>
        { chan with gen := chan.gen.set i 0, gen_abs := chan.gen_abs.set i 0 }) chan
      = { chan with
          gen := is.foldl (fun acc i => acc.set i 0) chan.gen
          gen_abs := is.foldl (fun acc i => acc.set i 0) chan.gen_abs } := by
  induction is generalizing chan with
  | nil => rfl
  | cons a t ih => rw [List.foldl_cons, ih]; rfl

/-- The three `continue` tests of the zeroing pass, as one test. -/
theorem zero_pass_body (K : Consts) (chan : fluid_channel_t) (i : Nat) :
    (if K.EFFECTS_DEPTH1 ≤ i ∧ i ≤ K.EFFECTS_DEPTH5 then chan
      else if K.SOUND_CTRL1 ≤ i ∧ i ≤ K.SOUND_CTRL10 then chan
      else if i = K.BANK_SELECT_MSB ∨ i = K.BANK_SELECT_LSB ∨ i = K.VOLUME_MSB
          ∨ i = K.VOLUME_LSB ∨ i = K.PAN_MSB ∨ i = K.PAN_LSB then chan
      else SETCC chan i 0)
      = { chan with cc := if K.excluded i = false then chan.cc.set i 0 else chan.cc } := by
  unfold Consts.excluded SETCC
  by_cases h1 : K.EFFECTS_DEPTH1 ≤ i ∧ i ≤ K.EFFECTS_DEPTH5
  · simp [h1]
  · by_cases h2 : K.SOUND_CTRL1 ≤ i ∧ i ≤ K.SOUND_CTRL10
    · simp [h1, h2]
    · by_cases h3 : i = K.BANK_SELECT_MSB ∨ i = K.BANK_SELECT_LSB ∨ i = K.VOLUME_MSB
          ∨ i = K.VOLUME_LSB ∨ i = K.PAN_MSB ∨ i = K.PAN_LSB
      · have h3b : (i == K.BANK_SELECT_MSB || i == K.BANK_SELECT_LSB || i == K.VOLUME_MSB
            || i == K.VOLUME_LSB || i == K.PAN_MSB || i == K.PAN_LSB) = true := by
          simpa [Bool.or_eq_true, or_assoc] using h3
        simp only [h1, h2, h3, if_true, if_false, h3b, Bool.or_true]
        simp
      · have h3b : (i == K.BANK_SELECT_MSB || i == K.BANK_SELECT_LSB || i == K.VOLUME_MSB
            || i == K.VOLUME_LSB || i == K.PAN_MSB || i == K.PAN_LSB) = false := by
          rw [Bool.eq_false_iff]
          simpa [Bool.or_eq_true, or_assoc] using h3
        have h1b : (decide (K.EFFECTS_DEPTH1 ≤ i) && decide (i ≤ K.EFFECTS_DEPTH5)) = false := by
          rw [Bool.eq_false_iff]
          simpa using h1
        have h2b : (decide (K.SOUND_CTRL1 ≤ i) && decide (i ≤ K.SOUND_CTRL10)) = false := by
          rw [Bool.eq_false_iff]
          simpa using h2
        simp only [h1, h2, h3, if_false, h1b, h2b, h3b, Bool.or_false, if_true]

/-- The state left by a full reset, array by array. -/
theorem init_ctrl_full_eq (K : Consts) (chan : fluid_channel_t) :
    fluid_channel_init_ctrl K chan 0
      = { chan with
          key_pressure := 0
          channel_pressure := 0
          pitch_bend := 0x2000
          pitch_wheel_sensitivity := 2
          gen := (List.range K.GEN_LAST).foldl
            (fun acc i => acc.set i 0) chan.gen
          gen_abs := (List.range K.GEN_LAST).foldl
            (fun acc i => acc.set i 0) chan.gen_abs
          cc := (((((List.range (K.SOUND_CTRL10 + 1 - K.SOUND_CTRL1)).foldl
              (fun acc j => acc.set (K.SOUND_CTRL1 + j) 64)
              ((((((((List.range 128).foldl (fun acc i => acc.set i 0)
                chan.cc).set K.RPN_LSB 127).set K.RPN_MSB 127).set K.NRPN_LSB 127).set
                K.NRPN_MSB 127).set K.EXPRESSION_MSB 127).set K.EXPRESSION_LSB 127)).set
              K.VOLUME_MSB 100).set K.VOLUME_LSB 0).set K.PAN_MSB 64).set K.PAN_LSB 0 } := by
  unfold fluid_channel_init_ctrl
  simp only [ne_eq, not_true_eq_false, if_false, not_false_eq_true, if_true]
  rw [foldl_gen,
    foldl_cc_only (fun chan i => SETCC chan i 0)
      (fun acc i => acc.set i 0) (fun _ _ => rfl),
    foldl_cc_only (fun chan j => SETCC chan (K.SOUND_CTRL1 + j) 64)
      (fun acc j => acc.set (K.SOUND_CTRL1 + j) 64)
      (fun _ _ => rfl)]
  simp only [SETCC]

/-- The state left by an "all controllers off" reset, array by array. -/
theorem init_ctrl_off_eq (K : Consts) (chan : fluid_channel_t) (is_all_ctrl_off : Int)
    (h : is_all_ctrl_off ≠ 0) :
    fluid_channel_init_ctrl K chan is_all_ctrl_off
      = { chan with
          key_pressure := 0
          channel_pressure := 0
          pitch_bend := 0x2000
          gen := (List.range K.GEN_LAST).foldl
            (fun acc i => acc.set i 0) chan.gen
          gen_abs := (List.range K.GEN_LAST).foldl
            (fun acc i => acc.set i 0) chan.gen_abs
          cc := (((((((List.range K.ALL_SOUND_OFF).foldl
              (fun acc i => if K.excluded i = false then acc.set i 0 else acc)
              chan.cc).set K.RPN_LSB 127).set K.RPN_MSB 127).set K.NRPN_LSB 127).set
              K.NRPN_MSB 127).set K.EXPRESSION_MSB 127).set K.EXPRESSION_LSB 127 } := by
  unfold fluid_channel_init_ctrl
  simp only [ne_eq, h, not_false_eq_true, if_true, not_true_eq_false, if_false]
  rw [foldl_gen,
    foldl_cc_only _ (fun acc i => if K.excluded i = false then acc.set i 0 else acc)
      (fun chan i => zero_pass_body K chan i)]
  simp only [SETCC]

/-- Entry `i` after the loop `for (j = a; j < a + m; j++) l[j] = v`. -/
theorem getElem?_fill {α : Type} (a m : Nat) (v : α) (l : List α) (i : Nat) :
    ((List.range m).foldl (fun acc j => acc.set (a + j) v) l)[i]?
      = if (a ≤ i ∧ i < a + m) ∧ i < l.length then some v else l[i]? := by
  rw [getElem?_foldl_set_all (fun j => a + j)]
  have h : (∃ j ∈ List.range m, a + j = i) ↔ (a ≤ i ∧ i < a + m) := by
    constructor
    · rintro ⟨j, hj, rfl⟩
      have := List.mem_range.mp hj
      omega
    · rintro ⟨h1, h2⟩
      exact ⟨i - a, List.mem_range.mpr (by omega), by omega⟩
  simp only [h]

/-- Entry `i` after the zeroing pass of an "all controllers off" reset. -/
theorem getElem?_zero_pass (K : Consts) (l : List Int) (i : Nat) :
    ((List.range K.ALL_SOUND_OFF).foldl
        (fun acc i => if K.excluded i = false then acc.set i 0 else acc) l)[i]?
      = if (i < K.ALL_SOUND_OFF ∧ K.excluded i = false) ∧ i < l.length then some 0
        else l[i]? := by
  rw [getElem?_foldl_set (fun i => K.excluded i = false) (fun i => i)]
  have h : (∃ j ∈ List.range K.ALL_SOUND_OFF, K.excluded j = false ∧ j = i)
      ↔ (i < K.ALL_SOUND_OFF ∧ K.excluded i = false) := by
    constructor
    · rintro ⟨j, hj, hx, rfl⟩
      exact ⟨List.mem_range.mp hj, hx⟩
    · rintro ⟨h1, h2⟩
      exact ⟨i, List.mem_range.mpr h1, h2, rfl⟩
  simp only [h]

/-- A loop storing `v` at every index of an array leaves the constant
array. -/
theorem fill_all {α : Type} (v : α) (l : List α) :
    (List.range l.length).foldl (fun acc i => acc.set i v) l = List.replicate l.length v := by
  apply List.ext_getElem?
  intro j
  have h := getElem?_fill 0 l.length v l j
  simp only [Nat.zero_add] at h
  rw [h, List.getElem?_replicate]
  by_cases hj : j < l.length
  · simp [hj]
  · simp [hj, List.getElem?_eq_none (Nat.le_of_not_lt hj)]

/-- One store into the controller array, read back at index `j`. -/
theorem getElem?_set_of_lt (l : List Int) (i j : Nat) (v : Int) (hi : i < l.length) :
    (l.set i v)[j]? = if j = i then some v else l[j]? := by
  rw [List.getElem?_set]
  by_cases h : i = j
  · subst h
    simp [hi]
  · have h2 : ¬ j = i := fun e => h e.symm
    simp [h, h2]

theorem length_fill {α : Type} (a m : Nat) (v : α) (l : List α) :
    ((List.range m).foldl (fun acc j => acc.set (a + j) v) l).length = l.length :=
  length_foldl_set_all (fun j => a + j) v _ l

/-- Six stores of 127 into an array of 128 entries, read back at `j`. -/
theorem getElem?_null_slots (z : List Int) (a b c d e f j : Nat) (hz : z.length = 128)
    (ha : a < 128) (hb : b < 128) (hc : c < 128) (hd : d < 128) (he : e < 128) (hf : f < 128) :
    ((((((z.set a 127).set b 127).set c 127).set d 127).set e 127).set f 127)[j]?
      = if j = f then some 127 else if j = e then some 127 else if j = d then some 127
        else if j = c then some 127 else if j = b then some 127
        else if j = a then some 127 else z[j]? := by
  rw [getElem?_set_of_lt _ _ _ _ (by simp only [List.length_set]; omega),
    getElem?_set_of_lt _ _ _ _ (by simp only [List.length_set]; omega),
    getElem?_set_of_lt _ _ _ _ (by simp only [List.length_set]; omega),
    getElem?_set_of_lt _ _ _ _ (by simp only [List.length_set]; omega),
    getElem?_set_of_lt _ _ _ _ (by simp only [List.length_set]; omega),
    getElem?_set_of_lt _ _ _ _ (by omega)]

/-- Entry `j` of the controller array after a full reset: the last store
into index `j` decides. -/
theorem full_cc_getElem? (K : Consts) (l : List Int) (hl : l.length = 128) (hK : K.inArray)
    (j : Nat) (hj : j < 128) :
    ((((((List.range (K.SOUND_CTRL10 + 1 - K.SOUND_CTRL1)).foldl
        (fun acc j => acc.set (K.SOUND_CTRL1 + j) 64)
        ((((((((List.range 128).foldl (fun acc i => acc.set i 0)
          l).set K.RPN_LSB 127).set K.RPN_MSB 127).set K.NRPN_LSB 127).set
          K.NRPN_MSB 127).set K.EXPRESSION_MSB 127).set K.EXPRESSION_LSB 127)).set
        K.VOLUME_MSB 100).set K.VOLUME_LSB 0).set K.PAN_MSB 64).set K.PAN_LSB 0)[j]?
      = some (if j = K.PAN_LSB then 0 else if j = K.PAN_MSB then 64
          else if j = K.VOLUME_LSB then 0 else if j = K.VOLUME_MSB then 100
          else if K.SOUND_CTRL1 ≤ j ∧ j ≤ K.SOUND_CTRL10 then 64
          else if j = K.EXPRESSION_LSB then 127 else if j = K.EXPRESSION_MSB then 127
          else if j = K.NRPN_MSB then 127 else if j = K.NRPN_LSB then 127
          else if j = K.RPN_MSB then 127 else if j = K.RPN_LSB then 127
          else 0) := by
  obtain ⟨_, h1, h2, h3, h4, h5, h6, h0, h7, h8, h9, h10, _⟩ := hK
  have hzlen : ((List.range 128).foldl (fun acc i => acc.set i (0 : Int)) l).length = 128 := by
    rw [length_foldl_set_all (fun i => i)]
    exact hl
  have hzj : ((List.range 128).foldl (fun acc i => acc.set i (0 : Int)) l)[j]? = some 0 := by
    have hz := getElem?_fill 0 128 (0 : Int) l j
    simp only [Nat.zero_add] at hz
    rw [hz, if_pos ⟨⟨Nat.zero_le _, hj⟩, by omega⟩]
  generalize (List.range 128).foldl (fun acc i => acc.set i (0 : Int)) l = z at hzlen hzj
  have hnull := getElem?_null_slots z K.RPN_LSB K.RPN_MSB K.NRPN_LSB K.NRPN_MSB
    K.EXPRESSION_MSB K.EXPRESSION_LSB j hzlen h1 h2 h3 h4 h5 h6
  have hnlen : ((((((z.set K.RPN_LSB 127).set K.RPN_MSB 127).set K.NRPN_LSB 127).set
      K.NRPN_MSB 127).set K.EXPRESSION_MSB 127).set K.EXPRESSION_LSB 127).length = 128 := by
    simp only [List.length_set]
    exact hzlen
  generalize (((((z.set K.RPN_LSB 127).set K.RPN_MSB 127).set K.NRPN_LSB 127).set
      K.NRPN_MSB 127).set K.EXPRESSION_MSB 127).set K.EXPRESSION_LSB 127 = n at hnull hnlen
  have hslen := length_fill K.SOUND_CTRL1 (K.SOUND_CTRL10 + 1 - K.SOUND_CTRL1) (64 : Int) n
  have hsj := getElem?_fill K.SOUND_CTRL1 (K.SOUND_CTRL10 + 1 - K.SOUND_CTRL1) (64 : Int) n j
  have hcond : ((K.SOUND_CTRL1 ≤ j ∧ j < K.SOUND_CTRL1 + (K.SOUND_CTRL10 + 1 - K.SOUND_CTRL1))
      ∧ j < n.length) ↔ (K.SOUND_CTRL1 ≤ j ∧ j ≤ K.SOUND_CTRL10) := by omega
  simp only [hcond] at hsj
  generalize (List.range (K.SOUND_CTRL10 + 1 - K.SOUND_CTRL1)).foldl
    (fun acc j => acc.set (K.SOUND_CTRL1 + j) (64 : Int)) n = s at hslen hsj
  rw [getElem?_set_of_lt _ _ _ _ (by simp only [List.length_set]; omega),
    getElem?_set_of_lt _ _ _ _ (by simp only [List.length_set]; omega),
    getElem?_set_of_lt _ _ _ _ (by simp only [List.length_set]; omega),
    getElem?_set_of_lt _ _ _ _ (by omega), hsj, hnull, hzj]
  simp only [apply_ite some]

theorem excluded_eq_false_iff (K : Consts) (i : Nat) :
    K.excluded i = false ↔
      (¬ (K.EFFECTS_DEPTH1 ≤ i ∧ i ≤ K.EFFECTS_DEPTH5) ∧ ¬ (K.SOUND_CTRL1 ≤ i ∧ i ≤ K.SOUND_CTRL10)
        ∧ i ≠ K.BANK_SELECT_MSB ∧ i ≠ K.BANK_SELECT_LSB ∧ i ≠ K.VOLUME_MSB
        ∧ i ≠ K.VOLUME_LSB ∧ i ≠ K.PAN_MSB ∧ i ≠ K.PAN_LSB) := by
  simp only [Consts.excluded, Bool.or_eq_false_iff, Bool.and_eq_false_imp, decide_eq_true_eq,
    decide_eq_false_iff_not, beq_eq_false_iff_ne, ne_eq, not_and, and_assoc]

/-- The defaults of a full reset do not depend on the order of the stores
when the controllers given different defaults are different controllers. -/
theorem defaults_reorder (pl pm vl vm s1 s10 el em nm nl rm rl j : Nat)
    (hnull : ∀ x, x = rl ∨ x = rm ∨ x = nl ∨ x = nm ∨ x = em ∨ x = el →
      x ≠ pl ∧ x ≠ pm ∧ x ≠ vl ∧ x ≠ vm ∧ ¬ (s1 ≤ x ∧ x ≤ s10))
    (d1 : vm < s1 ∨ s10 < vm) (d2 : vl < s1 ∨ s10 < vl) (d3 : pm < s1 ∨ s10 < pm)
    (d4 : pl < s1 ∨ s10 < pl) (d5 : vm ≠ vl) (d6 : vm ≠ pm) (d7 : vm ≠ pl) (d8 : vl ≠ pm)
    (d9 : pm ≠ pl) :
    (if j = pl then (0 : Int) else if j = pm then 64 else if j = vl then 0
      else if j = vm then 100 else if s1 ≤ j ∧ j ≤ s10 then 64
      else if j = el then 127 else if j = em then 127 else if j = nm then 127
      else if j = nl then 127 else if j = rm then 127 else if j = rl then 127 else 0)
    = (if j = rl ∨ j = rm ∨ j = nl ∨ j = nm ∨ j = em ∨ j = el then (127 : Int)
      else if s1 ≤ j ∧ j ≤ s10 then 64 else if j = vm then 100 else if j = vl then 0
      else if j = pm then 64 else if j = pl then 0 else 0) := by
  by_cases hN : j = rl ∨ j = rm ∨ j = nl ∨ j = nm ∨ j = em ∨ j = el
  · obtain ⟨n1, n2, n3, n4, n5⟩ := hnull j hN
    rw [if_neg n1, if_neg n2, if_neg n3, if_neg n4, if_neg n5, if_pos hN]
    rcases hN with h | h | h | h | h | h <;> simp only [h, if_true, ite_self]
  · rw [if_neg hN]
    simp only [not_or] at hN
    obtain ⟨m1, m2, m3, m4, m5, m6⟩ := hN
    simp only [if_neg m1, if_neg m2, if_neg m3, if_neg m4, if_neg m5, if_neg m6]
    clear hnull m1 m2 m3 m4 m5 m6
    by_cases hS : s1 ≤ j ∧ j ≤ s10
    · have c1 : j ≠ pl := by omega
      have c2 : j ≠ pm := by omega
      have c3 : j ≠ vl := by omega
      have c4 : j ≠ vm := by omega
      simp only [if_neg c1, if_neg c2, if_neg c3, if_neg c4, if_pos hS]
    · simp only [if_neg hS]
      clear d1 d2 d3 d4 hS
      split_ifs <;> first | rfl | omega

/-- A full reset touches neither the selector word nor the channel number. -/
theorem init_ctrl_selector (K : Consts) (chan : fluid_channel_t) :
    (fluid_channel_init_ctrl K chan 0).sfont_bank_prog = chan.sfont_bank_prog
    ∧ (fluid_channel_init_ctrl K chan 0).channum = chan.channum := by
  rw [init_ctrl_full_eq]
  exact ⟨rfl, rfl⟩

/-- A rebind keeps the selector word, the channel number and the tuning, and
makes no query of the preset store. -/
theorem set_preset_calls (synth : fluid_synth_t) (chan : fluid_channel_t)
    (preset : Option fluid_preset_t) :
    (fluid_channel_set_preset synth chan preset).2.2.sfont_bank_prog = chan.sfont_bank_prog
    ∧ (fluid_channel_set_preset synth chan preset).2.2.channum = chan.channum
    ∧ (fluid_channel_set_preset synth chan preset).2.2.tuning = chan.tuning
    ∧ (fluid_channel_set_preset synth chan preset).2.1.presets = synth.presets
    ∧ ∃ rest, (fluid_channel_set_preset synth chan preset).2.1.calls = synth.calls ++ rest
        ∧ ∀ b p, Call.find_preset b p ∉ rest := by
  unfold fluid_channel_set_preset fluid_preset_notify FLUID_LOG
  rcases hp : chan.preset with _ | old
  · rcases preset with _ | new
    · exact ⟨rfl, rfl, rfl, rfl, [], by simp, by simp⟩
    · exact ⟨rfl, rfl, rfl, rfl, [_], rfl, by simp⟩
  · by_cases hq : fluid_event_queue_get_inptr synth.return_queue = true
    · rcases preset with _ | new
      · simp only [hq, if_true]
        exact ⟨trivial, trivial, trivial, trivial, [_], rfl, by simp⟩
      · simp only [hq, if_true]
        refine ⟨trivial, trivial, trivial, trivial, [_, _], List.append_assoc _ _ _, by simp⟩
    · have hq1 : fluid_event_queue_get_inptr synth.return_queue = false := by
        simpa using hq
      simp only [hq1, Bool.false_eq_true, if_false]
      refine ⟨trivial, trivial, trivial, trivial, [_, _], List.append_assoc _ _ _, by simp⟩

/-- The selector word, the channel number and the queries of the preset
store after `fluid_channel_init`. -/
theorem init_selector (K : Consts) (synth : fluid_synth_t) (chan : fluid_channel_t) :
    (fluid_channel_init K synth chan).2.sfont_bank_prog
        = (if chan.channum = 9 then 16384 else 0)
    ∧ (fluid_channel_init K synth chan).2.channum = chan.channum
    ∧ ∃ rest, (fluid_channel_init K synth chan).1.calls
          = synth.calls ++ Call.find_preset (if chan.channum = 9 then 128 else 0) 0 :: rest
        ∧ ∀ b p, Call.find_preset b p ∉ rest := by
  have hword : int_or (int_or (int_shl 0 SFONT_SHIFTVAL)
      (int_shl (if chan.channum = 9 then 128 else 0) BANK_SHIFTVAL)) (int_shl 0 PROG_SHIFTVAL)
      = (if chan.channum = 9 then 16384 else 0) := by
    split <;> decide
  simp only [fluid_channel_init, fluid_synth_find_preset, hword]
  obtain ⟨h1, h2, h3, h4, rest, hcalls, hrest⟩ := set_preset_calls
    { synth with calls := synth.calls
        ++ [Call.find_preset (if chan.channum = 9 then 128 else 0) 0] }
    { chan with sfont_bank_prog := if chan.channum = 9 then 16384 else 0 }
    (synth.presets (if chan.channum = 9 then 128 else 0) 0)
  generalize fluid_channel_set_preset
    { synth with calls := synth.calls
        ++ [Call.find_preset (if chan.channum = 9 then 128 else 0) 0] }
    { chan with sfont_bank_prog := if chan.channum = 9 then 16384 else 0 }
    (synth.presets (if chan.channum = 9 then 128 else 0) 0) = r at h1 h2 h3 h4 hcalls
  obtain ⟨st, s1, c1⟩ := r
  simp only at h1 h2 h3 h4 hcalls ⊢
  rcases ht : c1.tuning with _ | tuning
  · simp only []
    refine ⟨h1, h2, rest, ?_, hrest⟩
    rw [hcalls, List.append_assoc]
    rfl
  · simp only []
    refine ⟨h1, h2, ?_⟩
    by_cases hq : fluid_event_queue_get_inptr s1.return_queue = true
    · simp only [hq, if_true]
      refine ⟨rest, ?_, hrest⟩
      rw [hcalls, List.append_assoc]
      rfl
    · have hq1 : fluid_event_queue_get_inptr s1.return_queue = false := by simpa using hq
      simp only [hq1, Bool.false_eq_true, if_false, FLUID_LOG, fluid_tuning_unref]
      refine ⟨rest ++ [Call.tuning_unref tuning 1, Call.log_queue_full], ?_, ?_⟩
      · rw [hcalls]
        simp [List.append_assoc]
      · intro b p hmem
        rcases List.mem_append.mp hmem with h | h
        · exact hrest b p h
        · simp at h

/-- The triple decoded from the word written by `fluid_channel_init`. -/
theorem get_default (chan : fluid_channel_t) (n : Int)
    (hw : chan.sfont_bank_prog = if n = 9 then 16384 else 0) :
    fluid_channel_get_sfont_bank_prog chan = (0, if n = 9 then 128 else 0, 0) := by
  rw [get_sfont_bank_prog_eq, hw]
  split <;> decide

/-! ## The controller reset: claims -/

set_option maxRecDepth 20000

/-- C7 (full reset defaults): for every prior channel state with arrays of
the declared sizes, after `fluid_channel_init_ctrl(chan, 0)` the 128-entry
controller array is a fixed table: 127 at RPN LSB/MSB, NRPN LSB/MSB and
expression MSB/LSB, 64 at sound controllers 1 to 10, 100 at volume MSB, 0 at
volume LSB, 64 at pan MSB, 0 at pan LSB and 0 at every other index; the
pitch-wheel sensitivity is 2, the pitch bend 0x2000, key and channel
pressure 0, and every generator override value and absolute flag is 0.  The
controller numbers are those of any enumeration that keeps them inside the
array and gives different numbers to controllers with different defaults. -/
theorem full_reset_defaults (K : Consts) (chan : fluid_channel_t) (hK : K.inArray)
    (hD : K.distinctDefaults) (hsz : chan.sized K) :
    (fluid_channel_init_ctrl K chan 0).cc
        = (List.range 128).map (fun i =>
            if i = K.RPN_LSB ∨ i = K.RPN_MSB ∨ i = K.NRPN_LSB ∨ i = K.NRPN_MSB
              ∨ i = K.EXPRESSION_MSB ∨ i = K.EXPRESSION_LSB then (127 : Int)
            else if K.SOUND_CTRL1 ≤ i ∧ i ≤ K.SOUND_CTRL10 then 64
            else if i = K.VOLUME_MSB then 100
            else if i = K.VOLUME_LSB then 0
            else if i = K.PAN_MSB then 64
            else if i = K.PAN_LSB then 0
            else 0)
    ∧ (fluid_channel_init_ctrl K chan 0).pitch_wheel_sensitivity = 2
    ∧ (fluid_channel_init_ctrl K chan 0).pitch_bend = 0x2000
    ∧ (fluid_channel_init_ctrl K chan 0).key_pressure = 0
    ∧ (fluid_channel_init_ctrl K chan 0).channel_pressure = 0
    ∧ (fluid_channel_init_ctrl K chan 0).gen = List.replicate K.GEN_LAST 0
    ∧ (fluid_channel_init_ctrl K chan 0).gen_abs = List.replicate K.GEN_LAST 0 := by
  obtain ⟨hcc, hgen, hgen_abs⟩ := hsz
  rw [init_ctrl_full_eq]
  refine ⟨?_, rfl, rfl, rfl, rfl, ?_, ?_⟩
  · apply List.ext_getElem?
    intro j
    by_cases hj : j < 128
    · have hentry := full_cc_getElem? K chan.cc hcc hK j hj
      obtain ⟨_, _, _, _, _, _, _, _, _, _, _, _, e1, e2, e3, e4, e5, e6⟩ := hK
      rw [excluded_eq_false_iff] at e1 e2 e3 e4 e5 e6
      obtain ⟨d1, d2, d3, d4, d5, d6, d7, d8, d9⟩ := hD
      have hnull : ∀ x, x = K.RPN_LSB ∨ x = K.RPN_MSB ∨ x = K.NRPN_LSB ∨ x = K.NRPN_MSB
          ∨ x = K.EXPRESSION_MSB ∨ x = K.EXPRESSION_LSB →
          x ≠ K.PAN_LSB ∧ x ≠ K.PAN_MSB ∧ x ≠ K.VOLUME_LSB ∧ x ≠ K.VOLUME_MSB
            ∧ ¬ (K.SOUND_CTRL1 ≤ x ∧ x ≤ K.SOUND_CTRL10) := by
        intro x hx
        rcases hx with h | h | h | h | h | h
        · rw [h]; exact ⟨e1.2.2.2.2.2.2.2, e1.2.2.2.2.2.2.1, e1.2.2.2.2.2.1, e1.2.2.2.2.1, e1.2.1⟩
        · rw [h]; exact ⟨e2.2.2.2.2.2.2.2, e2.2.2.2.2.2.2.1, e2.2.2.2.2.2.1, e2.2.2.2.2.1, e2.2.1⟩
        · rw [h]; exact ⟨e3.2.2.2.2.2.2.2, e3.2.2.2.2.2.2.1, e3.2.2.2.2.2.1, e3.2.2.2.2.1, e3.2.1⟩
        · rw [h]; exact ⟨e4.2.2.2.2.2.2.2, e4.2.2.2.2.2.2.1, e4.2.2.2.2.2.1, e4.2.2.2.2.1, e4.2.1⟩
        · rw [h]; exact ⟨e5.2.2.2.2.2.2.2, e5.2.2.2.2.2.2.1, e5.2.2.2.2.2.1, e5.2.2.2.2.1, e5.2.1⟩
        · rw [h]; exact ⟨e6.2.2.2.2.2.2.2, e6.2.2.2.2.2.2.1, e6.2.2.2.2.2.1, e6.2.2.2.2.1, e6.2.1⟩
      have hre := defaults_reorder K.PAN_LSB K.PAN_MSB K.VOLUME_LSB K.VOLUME_MSB K.SOUND_CTRL1
        K.SOUND_CTRL10 K.EXPRESSION_LSB K.EXPRESSION_MSB K.NRPN_MSB K.NRPN_LSB K.RPN_MSB
        K.RPN_LSB j hnull d1 d2 d3 d4 d5 d6 d7 d8 d9
      rw [List.getElem?_map, List.getElem?_range hj, Option.map_some', ← hre]
      exact hentry
    · have hlen : ∀ l : List Int, l.length = 128 → l[j]? = none := fun l hl =>
        List.getElem?_eq_none (by omega)
      rw [List.getElem?_eq_none (l := List.map _ _)
        (by rw [List.length_map, List.length_range]; omega)]
      apply hlen
      simp only [List.length_set, length_fill]
      rw [length_foldl_set_all (fun i => i)]
      exact hcc
  · show (List.range K.GEN_LAST).foldl (fun acc i => acc.set i 0) chan.gen = _
    rw [← hgen, fill_all]
  · show (List.range K.GEN_LAST).foldl (fun acc i => acc.set i 0) chan.gen_abs = _
    rw [← hgen_abs, fill_all]

/-- Instance of C7 with the MIDI controller numbers, from a channel whose
controllers all hold 77. -/
theorem full_reset_defaults_witness :
    midi.inArray ∧ midi.distinctDefaults ∧ (sampleChan 0).sized midi
    ∧ (fluid_channel_init_ctrl midi (sampleChan 0) 0).cc
        = (List.range 128).map (fun i =>
            if i = midi.RPN_LSB ∨ i = midi.RPN_MSB ∨ i = midi.NRPN_LSB ∨ i = midi.NRPN_MSB
              ∨ i = midi.EXPRESSION_MSB ∨ i = midi.EXPRESSION_LSB then (127 : Int)
            else if midi.SOUND_CTRL1 ≤ i ∧ i ≤ midi.SOUND_CTRL10 then 64
            else if i = midi.VOLUME_MSB then 100
            else if i = midi.VOLUME_LSB then 0
            else if i = midi.PAN_MSB then 64
            else if i = midi.PAN_LSB then 0
            else 0)
    ∧ (fluid_channel_init_ctrl midi (sampleChan 0) 0).pitch_wheel_sensitivity = 2
    ∧ (fluid_channel_init_ctrl midi (sampleChan 0) 0).pitch_bend = 0x2000
    ∧ (fluid_channel_init_ctrl midi (sampleChan 0) 0).key_pressure = 0
    ∧ (fluid_channel_init_ctrl midi (sampleChan 0) 0).channel_pressure = 0
    ∧ (fluid_channel_init_ctrl midi (sampleChan 0) 0).gen = List.replicate midi.GEN_LAST 0
    ∧ (fluid_channel_init_ctrl midi (sampleChan 0) 0).gen_abs
        = List.replicate midi.GEN_LAST 0 :=
  ⟨by decide, by decide, by decide,
    full_reset_defaults midi (sampleChan 0) (by decide) (by decide) (by decide)⟩

/-- C8 (exclusions of "all controllers off"): for every prior channel state,
`fluid_channel_init_ctrl(chan, nonzero)` leaves unchanged every controller
of the effects-depth range, of the sound-controller range, and bank select
MSB/LSB, volume MSB/LSB and pan MSB/LSB, and leaves the pitch-wheel
sensitivity unchanged. -/
theorem all_ctrl_off_exclusions (K : Consts) (chan : fluid_channel_t) (is_all_ctrl_off : Int)
    (hmode : is_all_ctrl_off ≠ 0) (hK : K.inArray) :
    (∀ i : Nat,
        ((K.EFFECTS_DEPTH1 ≤ i ∧ i ≤ K.EFFECTS_DEPTH5) ∨ (K.SOUND_CTRL1 ≤ i ∧ i ≤ K.SOUND_CTRL10)
          ∨ i = K.BANK_SELECT_MSB ∨ i = K.BANK_SELECT_LSB ∨ i = K.VOLUME_MSB
          ∨ i = K.VOLUME_LSB ∨ i = K.PAN_MSB ∨ i = K.PAN_LSB) →
        (fluid_channel_init_ctrl K chan is_all_ctrl_off).cc[i]? = chan.cc[i]?)
    ∧ (fluid_channel_init_ctrl K chan is_all_ctrl_off).pitch_wheel_sensitivity
        = chan.pitch_wheel_sensitivity := by
  rw [init_ctrl_off_eq K chan is_all_ctrl_off hmode]
  refine ⟨?_, rfl⟩
  intro i hi
  obtain ⟨_, _, _, _, _, _, _, _, _, _, _, _, e1, e2, e3, e4, e5, e6⟩ := hK
  have hex : ¬ (K.excluded i = false) := by
    rw [excluded_eq_false_iff]
    intro h
    obtain ⟨a1, a2, a3, a4, a5, a6, a7, a8⟩ := h
    rcases hi with h | h | h | h | h | h | h | h
    · exact a1 h
    · exact a2 h
    · exact a3 h
    · exact a4 h
    · exact a5 h
    · exact a6 h
    · exact a7 h
    · exact a8 h
  have hne : ∀ x, K.excluded x = false → ¬ x = i := by
    intro x hx hxi
    rw [hxi] at hx
    exact hex hx
  show ((((((((List.range K.ALL_SOUND_OFF).foldl
      (fun acc i => if K.excluded i = false then acc.set i 0 else acc)
      chan.cc).set K.RPN_LSB 127).set K.RPN_MSB 127).set K.NRPN_LSB 127).set
      K.NRPN_MSB 127).set K.EXPRESSION_MSB 127).set K.EXPRESSION_LSB 127)[i]? = chan.cc[i]?
  rw [List.getElem?_set, if_neg (hne _ e6), List.getElem?_set, if_neg (hne _ e5),
    List.getElem?_set, if_neg (hne _ e4), List.getElem?_set, if_neg (hne _ e3),
    List.getElem?_set, if_neg (hne _ e2), List.getElem?_set, if_neg (hne _ e1),
    getElem?_zero_pass, if_neg (fun h => hex h.1.2)]

/-- Instance of C8: volume MSB, holding 77 before the reset, still holds 77
after it, and the pitch-wheel sensitivity is still 9. -/
theorem all_ctrl_off_exclusions_witness :
    (1 : Int) ≠ 0 ∧ midi.inArray
    ∧ (sampleChan 0).cc[midi.VOLUME_MSB]? = some 77
    ∧ (fluid_channel_init_ctrl midi (sampleChan 0) 1).cc[midi.VOLUME_MSB]? = some 77
    ∧ (fluid_channel_init_ctrl midi (sampleChan 0) 1).pitch_wheel_sensitivity = 9 :=
  ⟨by decide, by decide, by decide,
    (all_ctrl_off_exclusions midi (sampleChan 0) 1 (by decide) (by decide)).1
      midi.VOLUME_MSB (by decide),
    (all_ctrl_off_exclusions midi (sampleChan 0) 1 (by decide) (by decide)).2⟩

/-- C9 (zeroing of "all controllers off"): for every prior channel state with
a 128-entry controller array and every controller index i below
ALL_SOUND_OFF that is outside the effects-depth range, outside the
sound-controller range and none of bank select MSB/LSB, volume MSB/LSB and
pan MSB/LSB, after `fluid_channel_init_ctrl(chan, nonzero)` controller i is
127 if i is RPN LSB/MSB, NRPN LSB/MSB or expression MSB/LSB, and 0
otherwise. -/
theorem all_ctrl_off_zeroing (K : Consts) (chan : fluid_channel_t) (is_all_ctrl_off : Int)
    (hmode : is_all_ctrl_off ≠ 0) (hK : K.inArray) (hcc : chan.cc.length = 128) (i : Nat)
    (hi : i < K.ALL_SOUND_OFF)
    (hex : ¬ ((K.EFFECTS_DEPTH1 ≤ i ∧ i ≤ K.EFFECTS_DEPTH5)
      ∨ (K.SOUND_CTRL1 ≤ i ∧ i ≤ K.SOUND_CTRL10)
      ∨ i = K.BANK_SELECT_MSB ∨ i = K.BANK_SELECT_LSB ∨ i = K.VOLUME_MSB
      ∨ i = K.VOLUME_LSB ∨ i = K.PAN_MSB ∨ i = K.PAN_LSB)) :
    (fluid_channel_init_ctrl K chan is_all_ctrl_off).cc[i]?
      = some (if i = K.RPN_LSB ∨ i = K.RPN_MSB ∨ i = K.NRPN_LSB ∨ i = K.NRPN_MSB
          ∨ i = K.EXPRESSION_MSB ∨ i = K.EXPRESSION_LSB then 127 else 0) := by
  rw [init_ctrl_off_eq K chan is_all_ctrl_off hmode]
  obtain ⟨h0, h1, h2, h3, h4, h5, h6, _⟩ := hK
  have hexb : K.excluded i = false := by
    rw [excluded_eq_false_iff]
    simp only [not_or] at hex
    exact hex
  have hzlen : ((List.range K.ALL_SOUND_OFF).foldl
      (fun acc i => if K.excluded i = false then acc.set i 0 else acc) chan.cc).length = 128 := by
    rw [length_foldl_set (fun i => K.excluded i = false) (fun i => i)]
    exact hcc
  have hzi := getElem?_zero_pass K chan.cc i
  rw [if_pos ⟨⟨hi, hexb⟩, by omega⟩] at hzi
  generalize (List.range K.ALL_SOUND_OFF).foldl
      (fun acc i => if K.excluded i = false then acc.set i 0 else acc) chan.cc = z at hzlen hzi
  show ((((((z.set K.RPN_LSB 127).set K.RPN_MSB 127).set K.NRPN_LSB 127).set
      K.NRPN_MSB 127).set K.EXPRESSION_MSB 127).set K.EXPRESSION_LSB 127)[i]? = _
  rw [getElem?_null_slots z _ _ _ _ _ _ i hzlen h1 h2 h3 h4 h5 h6, hzi]
  by_cases hN : i = K.RPN_LSB ∨ i = K.RPN_MSB ∨ i = K.NRPN_LSB ∨ i = K.NRPN_MSB
      ∨ i = K.EXPRESSION_MSB ∨ i = K.EXPRESSION_LSB
  · rw [if_pos hN]
    rcases hN with h | h | h | h | h | h <;> simp only [h, if_true, ite_self]
  · rw [if_neg hN]
    simp only [not_or] at hN
    obtain ⟨m1, m2, m3, m4, m5, m6⟩ := hN
    rw [if_neg m6, if_neg m5, if_neg m4, if_neg m3, if_neg m2, if_neg m1]

/-- Instance of C9: controller 1, holding 77 before the reset, holds 0
after it. -/
theorem all_ctrl_off_zeroing_witness :
    (1 : Int) ≠ 0 ∧ midi.inArray ∧ (sampleChan 0).cc.length = 128 ∧ 1 < midi.ALL_SOUND_OFF
    ∧ (sampleChan 0).cc[1]? = some 77
    ∧ (fluid_channel_init_ctrl midi (sampleChan 0) 1).cc[1]? = some 0 :=
  ⟨by decide, by decide, by decide, by decide, by decide,
    all_ctrl_off_zeroing midi (sampleChan 0) 1 (by decide) (by decide) (by decide) 1
      (by decide) (by decide)⟩

/-- C10: in both reset modes and for every prior channel state with
generator arrays of GEN_LAST entries, `fluid_channel_init_ctrl` sets key
pressure and channel pressure to 0, the pitch bend to the centre 0x2000, and
every one of the GEN_LAST generator override values and absolute flags
to 0. -/
theorem init_ctrl_clears (K : Consts) (chan : fluid_channel_t) (is_all_ctrl_off : Int)
    (hsz : chan.sized K) :
    (fluid_channel_init_ctrl K chan is_all_ctrl_off).key_pressure = 0
    ∧ (fluid_channel_init_ctrl K chan is_all_ctrl_off).channel_pressure = 0
    ∧ (fluid_channel_init_ctrl K chan is_all_ctrl_off).pitch_bend = 0x2000
    ∧ (fluid_channel_init_ctrl K chan is_all_ctrl_off).gen = List.replicate K.GEN_LAST 0
    ∧ (fluid_channel_init_ctrl K chan is_all_ctrl_off).gen_abs = List.replicate K.GEN_LAST 0 := by
  obtain ⟨_, hgen, hgen_abs⟩ := hsz
  have hg : (List.range K.GEN_LAST).foldl (fun acc i => acc.set i (0 : Rat)) chan.gen
      = List.replicate K.GEN_LAST 0 := by
    rw [← hgen, fill_all]
  have hga : (List.range K.GEN_LAST).foldl (fun acc i => acc.set i (0 : Int)) chan.gen_abs
      = List.replicate K.GEN_LAST 0 := by
    rw [← hgen_abs, fill_all]
  by_cases hmode : is_all_ctrl_off = 0
  · rw [hmode, init_ctrl_full_eq]
    exact ⟨rfl, rfl, rfl, hg, hga⟩
  · rw [init_ctrl_off_eq K chan is_all_ctrl_off hmode]
    exact ⟨rfl, rfl, rfl, hg, hga⟩

/-- Instance of C10 in the "all controllers off" mode. -/
theorem init_ctrl_clears_witness :
    (sampleChan 0).sized midi
    ∧ (fluid_channel_init_ctrl midi (sampleChan 0) 1).key_pressure = 0
    ∧ (fluid_channel_init_ctrl midi (sampleChan 0) 1).channel_pressure = 0
    ∧ (fluid_channel_init_ctrl midi (sampleChan 0) 1).pitch_bend = 0x2000
    ∧ (fluid_channel_init_ctrl midi (sampleChan 0) 1).gen = List.replicate midi.GEN_LAST 0
    ∧ (fluid_channel_init_ctrl midi (sampleChan 0) 1).gen_abs
        = List.replicate midi.GEN_LAST 0 :=
  ⟨by decide, init_ctrl_clears midi (sampleChan 0) 1 (by decide)⟩

/-! ## Channel creation and reset: claims -/

/-- C6 (default selector by channel index): for every channel index n and
every block of memory obtained for the channel, `new_fluid_channel(synth, n)`
yields a channel of index n whose selector decodes to source 0, bank 128 if
n == 9 and bank 0 otherwise, program 0; and `fluid_channel_reset` leaves the
same triple for the index of the channel, whatever the selector held before.
In both cases the preset store is queried once, with that bank and
program 0. -/
theorem default_selector (K : Consts) (synth : fluid_synth_t) (n : Int)
    (mem chan : fluid_channel_t) :
    (∃ synth1 chan1, new_fluid_channel K synth n (some mem) = (synth1, some chan1)
      ∧ chan1.channum = n
      ∧ fluid_channel_get_sfont_bank_prog chan1 = (0, if n = 9 then 128 else 0, 0)
      ∧ ∃ rest, synth1.calls
            = synth.calls ++ Call.find_preset (if n = 9 then 128 else 0) 0 :: rest
          ∧ ∀ b p, Call.find_preset b p ∉ rest)
    ∧ ((fluid_channel_reset K synth chan).2.channum = chan.channum
      ∧ fluid_channel_get_sfont_bank_prog (fluid_channel_reset K synth chan).2
          = (0, if chan.channum = 9 then 128 else 0, 0)
      ∧ ∃ rest, (fluid_channel_reset K synth chan).1.calls
            = synth.calls
              ++ Call.find_preset (if chan.channum = 9 then 128 else 0) 0 :: rest
          ∧ ∀ b p, Call.find_preset b p ∉ rest) := by
  constructor
  · obtain ⟨h1, h2, h3⟩ := init_selector K synth { mem with channum := n, preset := none }
    obtain ⟨h4, h5⟩ := init_ctrl_selector K
      (fluid_channel_init K synth { mem with channum := n, preset := none }).2
    refine ⟨(fluid_channel_init K synth { mem with channum := n, preset := none }).1,
      fluid_channel_init_ctrl K
        (fluid_channel_init K synth { mem with channum := n, preset := none }).2 0,
      rfl, ?_, ?_, h3⟩
    · rw [h5, h2]
    · exact get_default _ n (by rw [h4, h1])
  · obtain ⟨h1, h2, h3⟩ := init_selector K synth chan
    obtain ⟨h4, h5⟩ := init_ctrl_selector K (fluid_channel_init K synth chan).2
    refine ⟨?_, ?_, h3⟩
    · show (fluid_channel_init_ctrl K (fluid_channel_init K synth chan).2 0).channum = _
      rw [h5, h2]
    · exact get_default _ chan.channum (by
        show (fluid_channel_init_ctrl K (fluid_channel_init K synth chan).2 0).sfont_bank_prog = _
        rw [h4, h1])

/-! ## Resets, rebinds and the retry loop: further lemmas -/

/-- Entry `j` of the controller array after an "all controllers off" reset,
for an array of 128 entries. -/
theorem off_cc_getElem? (K : Consts) (l : List Int) (hl : l.length = 128) (hK : K.inArray)
    (j : Nat) :
    ((((((((List.range K.ALL_SOUND_OFF).foldl
        (fun acc i => if K.excluded i = false then acc.set i 0 else acc)
        l).set K.RPN_LSB 127).set K.RPN_MSB 127).set K.NRPN_LSB 127).set
        K.NRPN_MSB 127).set K.EXPRESSION_MSB 127).set K.EXPRESSION_LSB 127)[j]?
      = if j = K.EXPRESSION_LSB then some 127 else if j = K.EXPRESSION_MSB then some 127
        else if j = K.NRPN_MSB then some 127 else if j = K.NRPN_LSB then some 127
        else if j = K.RPN_MSB then some 127 else if j = K.RPN_LSB then some 127
        else if (j < K.ALL_SOUND_OFF ∧ K.excluded j = false) ∧ j < l.length then some 0
        else l[j]? := by
  obtain ⟨_, h1, h2, h3, h4, h5, h6, _⟩ := hK
  have hzlen : ((List.range K.ALL_SOUND_OFF).foldl
      (fun acc i => if K.excluded i = false then acc.set i 0 else acc) l).length = 128 := by
    rw [length_foldl_set (fun i => K.excluded i = false) (fun i => i)]
    exact hl
  have hzj := getElem?_zero_pass K l j
  generalize (List.range K.ALL_SOUND_OFF).foldl
      (fun acc i => if K.excluded i = false then acc.set i 0 else acc) l = z at hzlen hzj
  rw [getElem?_null_slots z _ _ _ _ _ _ j hzlen h1 h2 h3 h4 h5 h6, hzj]

/-- Entry `j` of the controller array after a full reset of a channel. -/
theorem init_ctrl_full_cc (K : Consts) (chan : fluid_channel_t) (hcc : chan.cc.length = 128)
    (hK : K.inArray) (j : Nat) (hj : j < 128) :
    (fluid_channel_init_ctrl K chan 0).cc[j]?
      = some (if j = K.PAN_LSB then 0 else if j = K.PAN_MSB then 64
          else if j = K.VOLUME_LSB then 0 else if j = K.VOLUME_MSB then 100
          else if K.SOUND_CTRL1 ≤ j ∧ j ≤ K.SOUND_CTRL10 then 64
          else if j = K.EXPRESSION_LSB then 127 else if j = K.EXPRESSION_MSB then 127
          else if j = K.NRPN_MSB then 127 else if j = K.NRPN_LSB then 127
          else if j = K.RPN_MSB then 127 else if j = K.RPN_LSB then 127
          else 0) := by
  rw [init_ctrl_full_eq]
  exact full_cc_getElem? K chan.cc hcc hK j hj

/-- Entry `j` of the controller array after an "all controllers off" reset
of a channel. -/
theorem init_ctrl_off_cc (K : Consts) (chan : fluid_channel_t) (is_all_ctrl_off : Int)
    (hm : is_all_ctrl_off ≠ 0) (hcc : chan.cc.length = 128) (hK : K.inArray) (j : Nat) :
    (fluid_channel_init_ctrl K chan is_all_ctrl_off).cc[j]?
      = if j = K.EXPRESSION_LSB then some 127 else if j = K.EXPRESSION_MSB then some 127
        else if j = K.NRPN_MSB then some 127 else if j = K.NRPN_LSB then some 127
        else if j = K.RPN_MSB then some 127 else if j = K.RPN_LSB then some 127
        else if (j < K.ALL_SOUND_OFF ∧ K.excluded j = false) ∧ j < chan.cc.length then some 0
        else chan.cc[j]? := by
  rw [init_ctrl_off_eq K chan is_all_ctrl_off hm]
  exact off_cc_getElem? K chan.cc hcc hK j

/-- The value of one of the four RPN and NRPN selector controllers after a
reset in either mode. -/
theorem init_ctrl_selector_pair (K : Consts) (chan : fluid_channel_t) (is_all_ctrl_off : Int)
    (hK : K.inArray) (hcc : chan.cc.length = 128) (x : Nat) (hx : x < 128)
    (n1 : ¬ (K.SOUND_CTRL1 ≤ x ∧ x ≤ K.SOUND_CTRL10)) (n2 : x ≠ K.VOLUME_MSB)
    (n3 : x ≠ K.VOLUME_LSB) (n4 : x ≠ K.PAN_MSB) (n5 : x ≠ K.PAN_LSB)
    (hslot : x = K.RPN_LSB ∨ x = K.RPN_MSB ∨ x = K.NRPN_LSB ∨ x = K.NRPN_MSB) :
    (fluid_channel_init_ctrl K chan is_all_ctrl_off).cc[x]? = some 127 := by
  by_cases hm : is_all_ctrl_off = 0
  · rw [hm, init_ctrl_full_cc K chan hcc hK x hx, if_neg n5, if_neg n4, if_neg n3, if_neg n2,
      if_neg n1]
    congr 1
    rcases hslot with h | h | h | h <;> simp only [h, if_true, ite_self]
  · rw [init_ctrl_off_cc K chan is_all_ctrl_off hm hcc hK x]
    rcases hslot with h | h | h | h <;> simp only [h, if_true, ite_self]

/-- A conditional between two controller values is a controller value. -/
theorem ite_in_range (c : Prop) [Decidable c] (a b : Int) (ha : 0 ≤ a ∧ a ≤ 127)
    (hb : 0 ≤ b ∧ b ≤ 127) : 0 ≤ (if c then a else b) ∧ (if c then a else b) ≤ 127 := by
  split <;> assumption

/-- Every default stored by a full reset is a controller value. -/
theorem full_defaults_in_range (pl pm vl vm s1 s10 el em nm nl rm rl j : Nat) :
    0 ≤ (if j = pl then (0 : Int) else if j = pm then 64 else if j = vl then 0
      else if j = vm then 100 else if s1 ≤ j ∧ j ≤ s10 then 64
      else if j = el then 127 else if j = em then 127 else if j = nm then 127
      else if j = nl then 127 else if j = rm then 127 else if j = rl then 127 else 0)
    ∧ (if j = pl then (0 : Int) else if j = pm then 64 else if j = vl then 0
      else if j = vm then 100 else if s1 ≤ j ∧ j ≤ s10 then 64
      else if j = el then 127 else if j = em then 127 else if j = nm then 127
      else if j = nl then 127 else if j = rm then 127 else if j = rl then 127 else 0) ≤ 127 := by
  repeat' apply ite_in_range
  all_goals decide

/-- An entry left by an "all controllers off" reset is 127, 0 or the old
entry. -/
theorem off_entry_in_range (c1 c2 c3 c4 c5 c6 c7 : Prop) [Decidable c1] [Decidable c2]
    [Decidable c3] [Decidable c4] [Decidable c5] [Decidable c6] [Decidable c7] (v : Int)
    (hv0 : 0 ≤ v) (hv1 : v ≤ 127) :
    ∃ u, (if c1 then some (127 : Int) else if c2 then some 127 else if c3 then some 127
        else if c4 then some 127 else if c5 then some 127 else if c6 then some 127
        else if c7 then some 0 else some v) = some u ∧ 0 ≤ u ∧ u ≤ 127 := by
  split_ifs
  all_goals first
    | exact ⟨127, rfl, by decide, by decide⟩
    | exact ⟨0, rfl, by decide, by decide⟩
    | exact ⟨v, rfl, hv0, hv1⟩

/-- The rebind when an instrument is bound and the queue has a free slot. -/
theorem set_preset_queued (synth : fluid_synth_t) (chan : fluid_channel_t)
    (preset : Option fluid_preset_t) (old : fluid_preset_t) (hold : chan.preset = some old)
    (hq : fluid_event_queue_get_inptr synth.return_queue = true) :
    fluid_channel_set_preset synth chan preset
      = (fluid_status.FLUID_OK,
         fluid_preset_notify
           { fluid_preset_notify synth (some old) fluid_preset_reason.FLUID_PRESET_UNSELECTED
               chan.channum with
             return_queue := fluid_event_queue_next_inptr synth.return_queue
               (fluid_event_queue_elem_t.FREE_PRESET old) }
           preset fluid_preset_reason.FLUID_PRESET_SELECTED chan.channum,
         { chan with preset := preset }) := by
  unfold fluid_channel_set_preset
  simp only [hold, fluid_preset_notify, hq, if_true]

/-- The rebind when an instrument is bound and the queue is saturated. -/
theorem set_preset_saturated (synth : fluid_synth_t) (chan : fluid_channel_t)
    (preset : Option fluid_preset_t) (old : fluid_preset_t) (hold : chan.preset = some old)
    (hq : fluid_event_queue_get_inptr synth.return_queue = false) :
    fluid_channel_set_preset synth chan preset
      = (fluid_status.FLUID_FAILED,
         FLUID_LOG (fluid_preset_notify synth (some old)
           fluid_preset_reason.FLUID_PRESET_UNSELECTED chan.channum) Call.log_queue_full,
         chan) := by
  unfold fluid_channel_set_preset
  simp only [hold, fluid_preset_notify, hq, Bool.false_eq_true, if_false]

/-- The rebind when no instrument is bound. -/
theorem set_preset_unbound (synth : fluid_synth_t) (chan : fluid_channel_t)
    (preset : Option fluid_preset_t) (hold : chan.preset = none) :
    fluid_channel_set_preset synth chan preset
      = (fluid_status.FLUID_OK,
         fluid_preset_notify synth preset fluid_preset_reason.FLUID_PRESET_SELECTED chan.channum,
         { chan with preset := preset }) := by
  unfold fluid_channel_set_preset
  simp only [hold, fluid_preset_notify]

/-- A notification leaves the return queue alone. -/
theorem preset_notify_queue (synth : fluid_synth_t) (preset : Option fluid_preset_t)
    (reason : fluid_preset_reason) (chan : Int) :
    (fluid_preset_notify synth preset reason chan).return_queue = synth.return_queue := by
  unfold fluid_preset_notify
  cases preset <;> rfl

/-- The word written by `fluid_channel_init`. -/
theorem init_word (n : Int) :
    int_or (int_or (int_shl 0 SFONT_SHIFTVAL)
      (int_shl (if n = 9 then 128 else 0) BANK_SHIFTVAL)) (int_shl 0 PROG_SHIFTVAL)
      = (if n = 9 then 16384 else 0) := by
  split <;> decide

/-- `fluid_channel_init` in terms of the state its rebind leaves: the part of
the function that retires the tuning. -/
theorem init_after_rebind (K : Consts) (synth : fluid_synth_t) (chan : fluid_channel_t)
    (mid : fluid_status × fluid_synth_t × fluid_channel_t)
    (hmid : mid = fluid_channel_set_preset
      (fluid_synth_find_preset synth (if chan.channum = 9 then 128 else 0) 0).1
      { chan with sfont_bank_prog := if chan.channum = 9 then 16384 else 0 }
      (fluid_synth_find_preset synth (if chan.channum = 9 then 128 else 0) 0).2) :
    (fluid_channel_init K synth chan).2.preset = mid.2.2.preset
    ∧ (fluid_channel_init K synth chan).2.tuning = none
    ∧ (∀ t, chan.tuning = some t →
        fluid_event_queue_get_inptr mid.2.1.return_queue = true →
        (fluid_channel_init K synth chan).1
          = { mid.2.1 with
              return_queue := fluid_event_queue_next_inptr mid.2.1.return_queue
                (fluid_event_queue_elem_t.UNREF_TUNING t 1) })
    ∧ (∀ t, chan.tuning = some t →
        fluid_event_queue_get_inptr mid.2.1.return_queue = false →
        (fluid_channel_init K synth chan).1
          = FLUID_LOG (fluid_tuning_unref mid.2.1 t 1) Call.log_queue_full)
    ∧ (chan.tuning = none → (fluid_channel_init K synth chan).1 = mid.2.1) := by
  simp only [fluid_channel_init, fluid_synth_find_preset, init_word] at hmid ⊢
  obtain ⟨_, _, h3, _⟩ := set_preset_calls
    { synth with calls := synth.calls
        ++ [Call.find_preset (if chan.channum = 9 then 128 else 0) 0] }
    { chan with sfont_bank_prog := if chan.channum = 9 then 16384 else 0 }
    (synth.presets (if chan.channum = 9 then 128 else 0) 0)
  rw [← hmid] at h3 ⊢
  obtain ⟨st, s1, c1⟩ := mid
  simp only at h3 ⊢
  rcases ht : c1.tuning with _ | tuning
  · rw [ht] at h3
    refine ⟨rfl, rfl, ?_, ?_, fun _ => rfl⟩
    · intro t htt
      rw [← h3] at htt
      exact absurd htt (by simp)
    · intro t htt
      rw [← h3] at htt
      exact absurd htt (by simp)
  · rw [ht] at h3
    refine ⟨rfl, rfl, ?_, ?_, ?_⟩
    · intro t htt hq
      rw [← h3] at htt
      cases htt
      simp only [hq, if_true]
    · intro t htt hq
      rw [← h3] at htt
      cases htt
      simp only [hq, Bool.false_eq_true, if_false]
    · intro htt
      rw [← h3] at htt
      exact absurd htt (by simp)

/-- A full reset of the controllers keeps the bound instrument. -/
theorem init_ctrl_preset (K : Consts) (chan : fluid_channel_t) :
    (fluid_channel_init_ctrl K chan 0).preset = chan.preset := by
  rw [init_ctrl_full_eq]

/-- The instrument bound by `fluid_channel_init` when the preset store has
none for the default bank and program, and the rebind is not refused. -/
theorem init_missing_preset (K : Consts) (synth : fluid_synth_t) (chan : fluid_channel_t)
    (hnone : synth.presets (if chan.channum = 9 then 128 else 0) 0 = none)
    (hfree : chan.preset = none ∨ fluid_event_queue_get_inptr synth.return_queue = true) :
    (fluid_channel_init K synth chan).2.preset = none := by
  rw [(init_after_rebind K synth chan _ rfl).1]
  simp only [fluid_synth_find_preset, hnone]
  rcases hold : chan.preset with _ | old
  · rw [set_preset_unbound _ _ _ rfl]
  · rcases hfree with h | h
    · rw [h] at hold
      exact absurd hold (by simp)
    · have hq : fluid_event_queue_get_inptr
          ({ synth with calls := synth.calls
              ++ [Call.find_preset (if chan.channum = 9 then 128 else 0) 0] } :
            fluid_synth_t).return_queue = true := h
      rw [set_preset_queued _ _ _ old rfl hq]

/-- Merging a candidate that was itself merged: only the last word merged
shows outside the bits the candidate specifies. -/
theorem merge_absorb (a w1 w m : Int) :
    int_or (int_and (int_or (int_and a (int_not m)) (int_and w1 m)) (int_not m)) (int_and w m)
      = int_or (int_and a (int_not m)) (int_and w m) := by
  show uint_to_int _ = uint_to_int _
  congr 1
  simp only [int_to_uint_int_and, int_to_uint_int_or, int_to_uint_int_not]
  have hM := int_to_uint_lt m
  generalize int_to_uint a = A
  generalize int_to_uint w1 = W1
  generalize int_to_uint w = W
  generalize int_to_uint m = M at hM
  have hnot : ∀ i, (4294967295 - M).testBit i = (decide (i < 32) && !M.testBit i) := by
    intro i
    have h := Nat.testBit_two_pow_sub_succ (n := 32) hM i
    have e : 2 ^ 32 - (M + 1) = 4294967295 - M := by omega
    rw [e] at h
    exact h
  apply Nat.eq_of_testBit_eq
  intro i
  simp only [Nat.testBit_or, Nat.testBit_and, hnot]
  cases A.testBit i <;> cases W1.testBit i <;> cases W.testBit i <;> cases M.testBit i <;>
    cases decide (i < 32) <;> rfl

/-- Whatever the other threads do, the loop exits with the register holding
the first candidate merged with the last word loaded. -/
theorem loop_among_cell (oldmask : Int) (others : List (Int × Int)) (newval cell : Int) :
    ∃ w, (set_sfont_bank_prog_loop_among oldmask others newval cell).loads.getLast? = some w
      ∧ (set_sfont_bank_prog_loop_among oldmask others newval cell).cell
          = int_or (int_and newval (int_not oldmask)) (int_and w oldmask) := by
  induction others generalizing newval cell with
  | nil =>
    simp only [set_sfont_bank_prog_loop_among, fluid_atomic_int_get,
      fluid_atomic_int_compare_and_exchange]
    split
    · exact ⟨cell, rfl, by simp⟩
    · rename_i h
      simp only [ne_eq, not_not] at h
      exact ⟨cell, rfl, h.symm⟩
  | cons x rest ih =>
    obtain ⟨atCas, atLoad⟩ := x
    simp only [set_sfont_bank_prog_loop_among, fluid_atomic_int_get,
      fluid_atomic_int_compare_and_exchange]
    split
    · by_cases hc : atCas = cell
      · simp only [hc, if_true]
        exact ⟨cell, rfl, rfl⟩
      · simp only [hc, if_false]
        obtain ⟨w, hw, hcell⟩ := ih
          (int_or (int_and newval (int_not oldmask)) (int_and cell oldmask)) atLoad
        refine ⟨w, ?_, ?_⟩
        · rw [List.getLast?_cons, hw]
          rfl
        · rw [hcell, merge_absorb]
    · rename_i h
      simp only [ne_eq, not_not] at h
      exact ⟨cell, rfl, h.symm⟩

/-- The first word loaded is the word the register holds at the call. -/
theorem loop_among_head (oldmask : Int) (others : List (Int × Int)) (newval cell : Int) :
    (set_sfont_bank_prog_loop_among oldmask others newval cell).loads.head? = some cell := by
  cases others with
  | nil =>
    simp only [set_sfont_bank_prog_loop_among, fluid_atomic_int_get]
    split <;> rfl
  | cons x rest =>
    obtain ⟨atCas, atLoad⟩ := x
    simp only [set_sfont_bank_prog_loop_among, fluid_atomic_int_get,
      fluid_atomic_int_compare_and_exchange]
    split
    · by_cases hc : atCas = cell
      · simp only [hc, if_true]
        rfl
      · simp only [hc, if_false]
        rfl
    · rfl

/-- The run of the loop when the other threads leave the register alone. -/
theorem loop_among_nil (oldmask newval cell : Int) :
    (set_sfont_bank_prog_loop_among oldmask [] newval cell).loads = [cell]
    ∧ (set_sfont_bank_prog_loop_among oldmask [] newval cell).cell
        = int_or (int_and newval (int_not oldmask)) (int_and cell oldmask)
    ∧ (set_sfont_bank_prog_loop_among oldmask [] newval cell).cas_calls
        = if int_or (int_and newval (int_not oldmask)) (int_and cell oldmask) = cell then 0
          else 1 := by
  simp only [set_sfont_bank_prog_loop_among, fluid_atomic_int_get,
    fluid_atomic_int_compare_and_exchange]
  by_cases h : int_or (int_and newval (int_not oldmask)) (int_and cell oldmask) = cell
  · simp only [h, ne_eq, not_true_eq_false, if_false, if_true]
    exact ⟨trivial, trivial, trivial⟩
  · simp only [h, ne_eq, not_false_eq_true, if_true, if_false]
    exact ⟨trivial, trivial, trivial⟩

/-- The run of the loop when every round of the schedule is a failed
compare-and-exchange: the loop loads the word held at the call and then the
word of every round, makes one compare-and-exchange per round and one more
unless the last candidate equals the last word loaded. -/
theorem loop_among_failed (oldmask : Int) (others : List (Int × Int)) (newval cell : Int)
    (hfail : ∀ p ∈ (cell :: others.map Prod.snd).zip (others.map Prod.fst),
      int_or (int_and newval (int_not oldmask)) (int_and p.1 oldmask) ≠ p.1 ∧ p.2 ≠ p.1) :
    (set_sfont_bank_prog_loop_among oldmask others newval cell).loads
        = cell :: others.map Prod.snd
    ∧ ∃ w, (cell :: others.map Prod.snd).getLast? = some w
        ∧ (set_sfont_bank_prog_loop_among oldmask others newval cell).cas_calls
          = others.length
            + (if int_or (int_and newval (int_not oldmask)) (int_and w oldmask) = w then 0
              else 1) := by
  induction others generalizing newval cell with
  | nil =>
    obtain ⟨n1, _, n3⟩ := loop_among_nil oldmask newval cell
    exact ⟨n1, cell, rfl, by rw [n3]; simp⟩
  | cons x rest ih =>
    obtain ⟨atCas, atLoad⟩ := x
    have hhead := hfail (cell, atCas) (by simp)
    obtain ⟨h1, h2⟩ := hhead
    simp only at h1 h2
    have hrest : ∀ p ∈ (atLoad :: rest.map Prod.snd).zip (rest.map Prod.fst),
        int_or (int_and (int_or (int_and newval (int_not oldmask)) (int_and cell oldmask))
          (int_not oldmask)) (int_and p.1 oldmask) ≠ p.1 ∧ p.2 ≠ p.1 := by
      intro p hp
      rw [merge_absorb]
      exact hfail p (by simp [hp])
    obtain ⟨l1, w, hw, l2⟩ := ih
      (int_or (int_and newval (int_not oldmask)) (int_and cell oldmask)) atLoad hrest
    simp only [set_sfont_bank_prog_loop_among, fluid_atomic_int_get,
      fluid_atomic_int_compare_and_exchange, ne_eq, h1, not_false_eq_true, if_true, h2, if_false]
    refine ⟨by rw [l1]; rfl, w, ?_, ?_⟩
    · rw [List.map_cons, List.getLast?_cons_cons]
      exact hw
    · rw [l2, merge_absorb, List.length_cons]
      omega

/-- A round in which the other threads leave the word loaded in the register
ends the loop as a run without other threads does. -/
theorem loop_among_undisturbed (oldmask : Int) (rest : List (Int × Int))
    (newval cell atLoad : Int) :
    set_sfont_bank_prog_loop_among oldmask ((cell, atLoad) :: rest) newval cell
      = set_sfont_bank_prog_loop_among oldmask [] newval cell := by
  simp only [set_sfont_bank_prog_loop_among, fluid_atomic_int_get,
    fluid_atomic_int_compare_and_exchange, if_true]

/-- After rounds that all fail, a round in which the register still holds the
last word loaded ends the loop: what the other threads do afterwards is not
looked at. -/
theorem loop_among_stop (oldmask : Int) (others : List (Int × Int)) (newval cell : Int)
    (hfail : ∀ p ∈ (cell :: others.map Prod.snd).zip (others.map Prod.fst),
      int_or (int_and newval (int_not oldmask)) (int_and p.1 oldmask) ≠ p.1 ∧ p.2 ≠ p.1)
    (w : Int) (hw : (cell :: others.map Prod.snd).getLast? = some w)
    (atLoad : Int) (rest : List (Int × Int)) :
    set_sfont_bank_prog_loop_among oldmask (others ++ (w, atLoad) :: rest) newval cell
      = set_sfont_bank_prog_loop_among oldmask others newval cell := by
  induction others generalizing newval cell with
  | nil =>
    simp only [List.map_nil, List.getLast?_singleton, Option.some.injEq] at hw
    subst hw
    exact loop_among_undisturbed oldmask rest newval cell atLoad
  | cons x pre ih =>
    obtain ⟨atCas, atLoad1⟩ := x
    obtain ⟨h1, h2⟩ := hfail (cell, atCas) (by simp)
    simp only at h1 h2
    have hrest : ∀ p ∈ (atLoad1 :: pre.map Prod.snd).zip (pre.map Prod.fst),
        int_or (int_and (int_or (int_and newval (int_not oldmask)) (int_and cell oldmask))
          (int_not oldmask)) (int_and p.1 oldmask) ≠ p.1 ∧ p.2 ≠ p.1 := by
      intro p hp
      rw [merge_absorb]
      exact hfail p (by simp [hp])
    rw [List.map_cons, List.getLast?_cons_cons] at hw
    have e := ih (int_or (int_and newval (int_not oldmask)) (int_and cell oldmask)) atLoad1
      hrest hw
    rw [List.cons_append]
    simp only [set_sfont_bank_prog_loop_among, fluid_atomic_int_get,
      fluid_atomic_int_compare_and_exchange, ne_eq, h1, not_false_eq_true, if_true, h2,
      if_false]
    rw [e]

/-- Two channels with the same fields are the same channel. -/
theorem channel_eq (a b : fluid_channel_t) (h1 : a.channum = b.channum)
    (h2 : a.sfont_bank_prog = b.sfont_bank_prog) (h3 : a.preset = b.preset)
    (h4 : a.key_pressure = b.key_pressure) (h5 : a.channel_pressure = b.channel_pressure)
    (h6 : a.pitch_bend = b.pitch_bend)
    (h7 : a.pitch_wheel_sensitivity = b.pitch_wheel_sensitivity) (h8 : a.cc = b.cc)
    (h9 : a.interp_method = b.interp_method) (h10 : a.tuning = b.tuning)
    (h11 : a.tuning_bank = b.tuning_bank) (h12 : a.tuning_prog = b.tuning_prog)
    (h13 : a.nrpn_select = b.nrpn_select) (h14 : a.nrpn_active = b.nrpn_active)
    (h15 : a.gen = b.gen) (h16 : a.gen_abs = b.gen_abs) : a = b := by
  cases a
  cases b
  simp only at h1 h2 h3 h4 h5 h6 h7 h8 h9 h10 h11 h12 h13 h14 h15 h16
  subst h1 h2 h3 h4 h5 h6 h7 h8 h9 h10 h11 h12 h13 h14 h15 h16
  rfl

/-- Clearing an array twice is clearing it once. -/
theorem fill_idem {α : Type} (n : Nat) (v : α) (l : List α) :
    (List.range n).foldl (fun acc i => acc.set i v)
        ((List.range n).foldl (fun acc i => acc.set i v) l)
      = (List.range n).foldl (fun acc i => acc.set i v) l := by
  apply List.ext_getElem?
  intro j
  have h1 := getElem?_fill 0 n v ((List.range n).foldl (fun acc i => acc.set i v) l) j
  have h2 := getElem?_fill 0 n v l j
  have h3 := length_fill 0 n v l
  simp only [Nat.zero_add] at h1 h2 h3
  rw [h1, h3, h2]
  split <;> rfl

/-- The fields a reset of the controllers leaves alone, and the scalars and
generator arrays it writes in both modes. -/
theorem init_ctrl_frame (K : Consts) (chan : fluid_channel_t) (is_all_ctrl_off : Int) :
    (fluid_channel_init_ctrl K chan is_all_ctrl_off).channum = chan.channum
    ∧ (fluid_channel_init_ctrl K chan is_all_ctrl_off).sfont_bank_prog = chan.sfont_bank_prog
    ∧ (fluid_channel_init_ctrl K chan is_all_ctrl_off).preset = chan.preset
    ∧ (fluid_channel_init_ctrl K chan is_all_ctrl_off).interp_method = chan.interp_method
    ∧ (fluid_channel_init_ctrl K chan is_all_ctrl_off).tuning = chan.tuning
    ∧ (fluid_channel_init_ctrl K chan is_all_ctrl_off).tuning_bank = chan.tuning_bank
    ∧ (fluid_channel_init_ctrl K chan is_all_ctrl_off).tuning_prog = chan.tuning_prog
    ∧ (fluid_channel_init_ctrl K chan is_all_ctrl_off).nrpn_select = chan.nrpn_select
    ∧ (fluid_channel_init_ctrl K chan is_all_ctrl_off).nrpn_active = chan.nrpn_active
    ∧ (fluid_channel_init_ctrl K chan is_all_ctrl_off).key_pressure = 0
    ∧ (fluid_channel_init_ctrl K chan is_all_ctrl_off).channel_pressure = 0
    ∧ (fluid_channel_init_ctrl K chan is_all_ctrl_off).pitch_bend = 0x2000
    ∧ (fluid_channel_init_ctrl K chan is_all_ctrl_off).gen
        = (List.range K.GEN_LAST).foldl (fun acc i => acc.set i 0) chan.gen
    ∧ (fluid_channel_init_ctrl K chan is_all_ctrl_off).gen_abs
        = (List.range K.GEN_LAST).foldl (fun acc i => acc.set i 0) chan.gen_abs
    ∧ (fluid_channel_init_ctrl K chan is_all_ctrl_off).pitch_wheel_sensitivity
        = (if is_all_ctrl_off = 0 then 2 else chan.pitch_wheel_sensitivity)
    ∧ (fluid_channel_init_ctrl K chan is_all_ctrl_off).cc.length = chan.cc.length := by
  by_cases hm : is_all_ctrl_off = 0
  · rw [hm, init_ctrl_full_eq]
    refine ⟨rfl, rfl, rfl, rfl, rfl, rfl, rfl, rfl, rfl, rfl, rfl, rfl, rfl, rfl, rfl, ?_⟩
    simp only [List.length_set, length_fill]
    exact length_foldl_set_all (fun i => i) 0 _ _
  · rw [init_ctrl_off_eq K chan is_all_ctrl_off hm]
    refine ⟨rfl, rfl, rfl, rfl, rfl, rfl, rfl, rfl, rfl, rfl, rfl, rfl, rfl, rfl, ?_, ?_⟩
    · rw [if_neg hm]
    · simp only [List.length_set]
      exact length_foldl_set (fun i => K.excluded i = false) (fun i => i) 0 _ _

/-- The controller array left by a full reset does not depend on the array
before it. -/
theorem full_cc_const (K : Consts) (a b : fluid_channel_t) (ha : a.cc.length = 128)
    (hb : b.cc.length = 128) (hK : K.inArray) :
    (fluid_channel_init_ctrl K a 0).cc = (fluid_channel_init_ctrl K b 0).cc := by
  apply List.ext_getElem?
  intro j
  by_cases hj : j < 128
  · rw [init_ctrl_full_cc K a ha hK j hj, init_ctrl_full_cc K b hb hK j hj]
  · have la := (init_ctrl_frame K a 0).2.2.2.2.2.2.2.2.2.2.2.2.2.2.2
    have lb := (init_ctrl_frame K b 0).2.2.2.2.2.2.2.2.2.2.2.2.2.2.2
    rw [List.getElem?_eq_none (by omega), List.getElem?_eq_none (by omega)]

/-- A chain of seven constant stores applied twice is the chain applied
once. -/
theorem ite_chain_idem (c1 c2 c3 c4 c5 c6 c7 : Prop) [Decidable c1] [Decidable c2]
    [Decidable c3] [Decidable c4] [Decidable c5] [Decidable c6] [Decidable c7]
    (a z x : Option Int) :
    (if c1 then a else if c2 then a else if c3 then a else if c4 then a else if c5 then a
      else if c6 then a else if c7 then z
      else (if c1 then a else if c2 then a else if c3 then a else if c4 then a
        else if c5 then a else if c6 then a else if c7 then z else x))
    = (if c1 then a else if c2 then a else if c3 then a else if c4 then a else if c5 then a
      else if c6 then a else if c7 then z else x) := by
  split_ifs <;> rfl

/-- Two resets in a row against one reset: the fields other than the
controller array and the pitch-wheel sensitivity always agree. -/
theorem init_ctrl_twice (K : Consts) (chan : fluid_channel_t) (m1 m2 m3 : Int)
    (hpws : (fluid_channel_init_ctrl K (fluid_channel_init_ctrl K chan m1) m2).pitch_wheel_sensitivity
      = (fluid_channel_init_ctrl K chan m3).pitch_wheel_sensitivity)
    (hcc : (fluid_channel_init_ctrl K (fluid_channel_init_ctrl K chan m1) m2).cc
      = (fluid_channel_init_ctrl K chan m3).cc) :
    fluid_channel_init_ctrl K (fluid_channel_init_ctrl K chan m1) m2
      = fluid_channel_init_ctrl K chan m3 := by
  obtain ⟨i1, i2, i3, i4, i5, i6, i7, i8, i9, _, _, _, i13, i14, _, _⟩ :=
    init_ctrl_frame K chan m1
  obtain ⟨o1, o2, o3, o4, o5, o6, o7, o8, o9, o10, o11, o12, o13, o14, _, _⟩ :=
    init_ctrl_frame K (fluid_channel_init_ctrl K chan m1) m2
  obtain ⟨t1, t2, t3, t4, t5, t6, t7, t8, t9, t10, t11, t12, t13, t14, _, _⟩ :=
    init_ctrl_frame K chan m3
  apply channel_eq
  · rw [o1, i1, t1]
  · rw [o2, i2, t2]
  · rw [o3, i3, t3]
  · rw [o10, t10]
  · rw [o11, t11]
  · rw [o12, t12]
  · exact hpws
  · exact hcc
  · rw [o4, i4, t4]
  · rw [o5, i5, t5]
  · rw [o6, i6, t6]
  · rw [o7, i7, t7]
  · rw [o8, i8, t8]
  · rw [o9, i9, t9]
  · rw [o13, i13, t13, fill_idem]
  · rw [o14, i14, t14, fill_idem]

/-- An entry of the table of a full reset is left as it is by an "all
controllers off" reset. -/
theorem full_then_off_entry (pl pm vl vm s1 s10 el em nm nl rm rl j : Nat) (Z : Prop)
    [Decidable Z]
    (hnull : ∀ x, x = el ∨ x = em ∨ x = nm ∨ x = nl ∨ x = rm ∨ x = rl →
      x ≠ pl ∧ x ≠ pm ∧ x ≠ vl ∧ x ≠ vm ∧ ¬ (s1 ≤ x ∧ x ≤ s10))
    (hZ : Z → j ≠ pl ∧ j ≠ pm ∧ j ≠ vl ∧ j ≠ vm ∧ ¬ (s1 ≤ j ∧ j ≤ s10)) :
    (if j = el then some (127 : Int) else if j = em then some 127 else if j = nm then some 127
      else if j = nl then some 127 else if j = rm then some 127 else if j = rl then some 127
      else if Z then some 0
      else some (if j = pl then 0 else if j = pm then 64 else if j = vl then 0
        else if j = vm then 100 else if s1 ≤ j ∧ j ≤ s10 then 64
        else if j = el then 127 else if j = em then 127 else if j = nm then 127
        else if j = nl then 127 else if j = rm then 127 else if j = rl then 127 else 0))
    = some (if j = pl then 0 else if j = pm then 64 else if j = vl then 0
        else if j = vm then 100 else if s1 ≤ j ∧ j ≤ s10 then 64
        else if j = el then 127 else if j = em then 127 else if j = nm then 127
        else if j = nl then 127 else if j = rm then 127 else if j = rl then 127 else 0) := by
  by_cases hN : j = el ∨ j = em ∨ j = nm ∨ j = nl ∨ j = rm ∨ j = rl
  · obtain ⟨n1, n2, n3, n4, n5⟩ := hnull j hN
    simp only [if_neg n1, if_neg n2, if_neg n3, if_neg n4, if_neg n5]
    rcases hN with h | h | h | h | h | h <;> simp only [h, if_true, ite_self]
  · simp only [not_or] at hN
    obtain ⟨m1, m2, m3, m4, m5, m6⟩ := hN
    simp only [if_neg m1, if_neg m2, if_neg m3, if_neg m4, if_neg m5, if_neg m6]
    by_cases hz : Z
    · obtain ⟨n1, n2, n3, n4, n5⟩ := hZ hz
      simp only [if_pos hz, if_neg n1, if_neg n2, if_neg n3, if_neg n4, if_neg n5]
    · simp only [if_neg hz]

/-! ## Invariant and algebra of the controller reset: claims -/

/-- C11 (controller-range invariant): for a channel with a 128-entry
controller array, a full reset leaves every controller cc[i], 0 <= i < 128,
in [0,127] whatever the array held; an "all controllers off" reset keeps
that property if it held before the call; and after a reset in either mode
the RPN pair and the NRPN pair are both (127,127). -/
theorem controller_range_invariant (K : Consts) (chan : fluid_channel_t)
    (is_all_ctrl_off : Int) (hK : K.inArray) (hcc : chan.cc.length = 128) :
    (∀ i, i < 128 → ∃ v, (fluid_channel_init_ctrl K chan 0).cc[i]? = some v ∧ 0 ≤ v ∧ v ≤ 127)
    ∧ (is_all_ctrl_off ≠ 0 →
        (∀ i, i < 128 → ∃ v, chan.cc[i]? = some v ∧ 0 ≤ v ∧ v ≤ 127) →
        ∀ i, i < 128 →
          ∃ v, (fluid_channel_init_ctrl K chan is_all_ctrl_off).cc[i]? = some v
            ∧ 0 ≤ v ∧ v ≤ 127)
    ∧ (fluid_channel_init_ctrl K chan is_all_ctrl_off).cc[K.RPN_LSB]? = some 127
    ∧ (fluid_channel_init_ctrl K chan is_all_ctrl_off).cc[K.RPN_MSB]? = some 127
    ∧ (fluid_channel_init_ctrl K chan is_all_ctrl_off).cc[K.NRPN_LSB]? = some 127
    ∧ (fluid_channel_init_ctrl K chan is_all_ctrl_off).cc[K.NRPN_MSB]? = some 127 := by
  have hK1 := hK
  obtain ⟨_, b1, b2, b3, b4, _, _, _, _, _, _, _, e1, e2, e3, e4, _, _⟩ := hK1
  rw [excluded_eq_false_iff] at e1 e2 e3 e4
  refine ⟨?_, ?_, ?_, ?_, ?_, ?_⟩
  · intro i hi
    exact ⟨_, init_ctrl_full_cc K chan hcc hK i hi, full_defaults_in_range _ _ _ _ _ _ _ _ _ _ _ _ i⟩
  · intro hm hbefore i _
    obtain ⟨v, hv, hv0, hv1⟩ := hbefore i (by assumption)
    rw [init_ctrl_off_cc K chan is_all_ctrl_off hm hcc hK i, hv]
    exact off_entry_in_range _ _ _ _ _ _ _ v hv0 hv1
  · exact init_ctrl_selector_pair K chan is_all_ctrl_off hK hcc _ b1 e1.2.1 e1.2.2.2.2.1
      e1.2.2.2.2.2.1 e1.2.2.2.2.2.2.1 e1.2.2.2.2.2.2.2 (Or.inl rfl)
  · exact init_ctrl_selector_pair K chan is_all_ctrl_off hK hcc _ b2 e2.2.1 e2.2.2.2.2.1
      e2.2.2.2.2.2.1 e2.2.2.2.2.2.2.1 e2.2.2.2.2.2.2.2 (Or.inr (Or.inl rfl))
  · exact init_ctrl_selector_pair K chan is_all_ctrl_off hK hcc _ b3 e3.2.1 e3.2.2.2.2.1
      e3.2.2.2.2.2.1 e3.2.2.2.2.2.2.1 e3.2.2.2.2.2.2.2 (Or.inr (Or.inr (Or.inl rfl)))
  · exact init_ctrl_selector_pair K chan is_all_ctrl_off hK hcc _ b4 e4.2.1 e4.2.2.2.2.1
      e4.2.2.2.2.2.1 e4.2.2.2.2.2.2.1 e4.2.2.2.2.2.2.2 (Or.inr (Or.inr (Or.inr rfl)))

/-- Instance of C11 in the "all controllers off" mode, from a channel whose
controllers all hold 77. -/
theorem controller_range_invariant_witness :
    midi.inArray ∧ (sampleChan 0).cc.length = 128
    ∧ (fluid_channel_init_ctrl midi (sampleChan 0) 1).cc[midi.RPN_LSB]? = some 127
    ∧ (fluid_channel_init_ctrl midi (sampleChan 0) 1).cc[midi.RPN_MSB]? = some 127
    ∧ (fluid_channel_init_ctrl midi (sampleChan 0) 1).cc[midi.NRPN_LSB]? = some 127
    ∧ (fluid_channel_init_ctrl midi (sampleChan 0) 1).cc[midi.NRPN_MSB]? = some 127 :=
  ⟨by decide, by decide,
    (controller_range_invariant midi (sampleChan 0) 1 (by decide) (by decide)).2.2⟩

/-- C20: for a channel with a 128-entry controller array, a full reset
applied twice, and an "all controllers off" reset applied twice, leave the
state one application leaves; a full reset followed by an "all controllers
off" reset, and an "all controllers off" reset followed by a full reset,
both leave the state the full reset alone leaves. -/
theorem reset_idempotent (K : Consts) (chan : fluid_channel_t) (x y : Int) (hK : K.inArray)
    (hcc : chan.cc.length = 128) (hx : x ≠ 0) (hy : y ≠ 0) :
    fluid_channel_init_ctrl K (fluid_channel_init_ctrl K chan 0) 0
        = fluid_channel_init_ctrl K chan 0
    ∧ fluid_channel_init_ctrl K (fluid_channel_init_ctrl K chan x) y
        = fluid_channel_init_ctrl K chan x
    ∧ fluid_channel_init_ctrl K (fluid_channel_init_ctrl K chan 0) x
        = fluid_channel_init_ctrl K chan 0
    ∧ fluid_channel_init_ctrl K (fluid_channel_init_ctrl K chan x) 0
        = fluid_channel_init_ctrl K chan 0 := by
  have pws := fun c m => (init_ctrl_frame K c m).2.2.2.2.2.2.2.2.2.2.2.2.2.2.1
  have len := fun c m => (init_ctrl_frame K c m).2.2.2.2.2.2.2.2.2.2.2.2.2.2.2
  have lenF : (fluid_channel_init_ctrl K chan 0).cc.length = 128 := by rw [len, hcc]
  have lenO : (fluid_channel_init_ctrl K chan x).cc.length = 128 := by rw [len, hcc]
  refine ⟨?_, ?_, ?_, ?_⟩
  · apply init_ctrl_twice
    · simp only [pws, if_true]
    · exact full_cc_const K _ _ lenF hcc hK
  · apply init_ctrl_twice
    · simp only [pws, if_neg hy, if_neg hx]
    · apply List.ext_getElem?
      intro j
      rw [init_ctrl_off_cc K _ y hy lenO hK j, lenO, init_ctrl_off_cc K chan x hx hcc hK j, hcc]
      exact ite_chain_idem _ _ _ _ _ _ _ _ _ _
  · apply init_ctrl_twice
    · simp only [pws, if_neg hx, if_true]
    · apply List.ext_getElem?
      intro j
      by_cases hj : j < 128
      · rw [init_ctrl_off_cc K _ x hx lenF hK j, init_ctrl_full_cc K chan hcc hK j hj]
        have hK1 := hK
        obtain ⟨_, _, _, _, _, _, _, _, _, _, _, _, e1, e2, e3, e4, e5, e6⟩ := hK1
        rw [excluded_eq_false_iff] at e1 e2 e3 e4 e5 e6
        apply full_then_off_entry
        · intro z hz
          rcases hz with h | h | h | h | h | h
          · rw [h]; exact ⟨e6.2.2.2.2.2.2.2, e6.2.2.2.2.2.2.1, e6.2.2.2.2.2.1, e6.2.2.2.2.1, e6.2.1⟩
          · rw [h]; exact ⟨e5.2.2.2.2.2.2.2, e5.2.2.2.2.2.2.1, e5.2.2.2.2.2.1, e5.2.2.2.2.1, e5.2.1⟩
          · rw [h]; exact ⟨e4.2.2.2.2.2.2.2, e4.2.2.2.2.2.2.1, e4.2.2.2.2.2.1, e4.2.2.2.2.1, e4.2.1⟩
          · rw [h]; exact ⟨e3.2.2.2.2.2.2.2, e3.2.2.2.2.2.2.1, e3.2.2.2.2.2.1, e3.2.2.2.2.1, e3.2.1⟩
          · rw [h]; exact ⟨e2.2.2.2.2.2.2.2, e2.2.2.2.2.2.2.1, e2.2.2.2.2.2.1, e2.2.2.2.2.1, e2.2.1⟩
          · rw [h]; exact ⟨e1.2.2.2.2.2.2.2, e1.2.2.2.2.2.2.1, e1.2.2.2.2.2.1, e1.2.2.2.2.1, e1.2.1⟩
        · intro hz
          have hex := (excluded_eq_false_iff K j).mp hz.1.2
          exact ⟨hex.2.2.2.2.2.2.2, hex.2.2.2.2.2.2.1, hex.2.2.2.2.2.1, hex.2.2.2.2.1, hex.2.1⟩
      · have l2 : (fluid_channel_init_ctrl K (fluid_channel_init_ctrl K chan 0) x).cc.length
            = 128 := by rw [len, lenF]
        rw [List.getElem?_eq_none (by omega), List.getElem?_eq_none (by omega)]
  · apply init_ctrl_twice
    · simp only [pws, if_true]
    · exact full_cc_const K _ _ lenO hcc hK

/-- Instance of C20 with the MIDI controller numbers. -/
theorem reset_idempotent_witness :
    midi.inArray ∧ (sampleChan 0).cc.length = 128 ∧ (1 : Int) ≠ 0
    ∧ fluid_channel_init_ctrl midi (fluid_channel_init_ctrl midi (sampleChan 0) 0) 0
        = fluid_channel_init_ctrl midi (sampleChan 0) 0
    ∧ fluid_channel_init_ctrl midi (fluid_channel_init_ctrl midi (sampleChan 0) 1) 1
        = fluid_channel_init_ctrl midi (sampleChan 0) 1
    ∧ fluid_channel_init_ctrl midi (fluid_channel_init_ctrl midi (sampleChan 0) 0) 1
        = fluid_channel_init_ctrl midi (sampleChan 0) 0
    ∧ fluid_channel_init_ctrl midi (fluid_channel_init_ctrl midi (sampleChan 0) 1) 0
        = fluid_channel_init_ctrl midi (sampleChan 0) 0 :=
  ⟨by decide, by decide, by decide,
    reset_idempotent midi (sampleChan 0) 1 1 (by decide) (by decide) (by decide) (by decide)⟩

/-! ## Rebinding and the return queue: claims -/

/-- C12 (rebind with queue capacity): when an instrument `old` is bound and
the return queue has a free slot, `fluid_channel_set_preset(chan, new)`
appends exactly one request, FREE_PRESET(old), to the queue, leaves `new`
bound and returns FLUID_OK; when no instrument is bound, the queue is
unchanged and `new` is bound. -/
theorem rebind_with_capacity (synth : fluid_synth_t) (chan : fluid_channel_t)
    (new : Option fluid_preset_t) :
    (∀ old, chan.preset = some old →
      fluid_event_queue_get_inptr synth.return_queue = true →
      (fluid_channel_set_preset synth chan new).1 = fluid_status.FLUID_OK
      ∧ (fluid_channel_set_preset synth chan new).2.1.return_queue.array
          = synth.return_queue.array ++ [fluid_event_queue_elem_t.FREE_PRESET old]
      ∧ (fluid_channel_set_preset synth chan new).2.1.return_queue.totalcount
          = synth.return_queue.totalcount
      ∧ (fluid_channel_set_preset synth chan new).2.2.preset = new)
    ∧ (chan.preset = none →
      (fluid_channel_set_preset synth chan new).1 = fluid_status.FLUID_OK
      ∧ (fluid_channel_set_preset synth chan new).2.1.return_queue = synth.return_queue
      ∧ (fluid_channel_set_preset synth chan new).2.2.preset = new) := by
  constructor
  · intro old hold hq
    rw [set_preset_queued synth chan new old hold hq]
    refine ⟨rfl, ?_, ?_, rfl⟩
    · simp only [preset_notify_queue]
      rfl
    · simp only [preset_notify_queue]
      rfl
  · intro hold
    rw [set_preset_unbound synth chan new hold]
    exact ⟨rfl, preset_notify_queue _ _ _ _, rfl⟩

/-- Instance of C12: instrument 11 bound, one free slot, rebind to 12. -/
theorem rebind_with_capacity_witness :
    (sampleChan 0).preset = some 11
    ∧ fluid_event_queue_get_inptr (sampleSynth 1).return_queue = true
    ∧ (fluid_channel_set_preset (sampleSynth 1) (sampleChan 0) (some 12)).1
        = fluid_status.FLUID_OK
    ∧ (fluid_channel_set_preset (sampleSynth 1) (sampleChan 0) (some 12)).2.1.return_queue.array
        = (sampleSynth 1).return_queue.array ++ [fluid_event_queue_elem_t.FREE_PRESET 11]
    ∧ (fluid_channel_set_preset (sampleSynth 1) (sampleChan 0)
        (some 12)).2.1.return_queue.totalcount = (sampleSynth 1).return_queue.totalcount
    ∧ (fluid_channel_set_preset (sampleSynth 1) (sampleChan 0) (some 12)).2.2.preset = some 12 :=
  ⟨rfl, rfl, (rebind_with_capacity (sampleSynth 1) (sampleChan 0) (some 12)).1 11 rfl rfl⟩

/-- C13 as stated fails: with instrument 11 bound and no free slot, after
`fluid_channel_set_preset(chan, 12)` the bound instrument is not 12, no
release of 11 was made and no request was queued. -/
theorem rebind_saturated_counterexample :
    (sampleChan 0).preset = some 11
    ∧ fluid_event_queue_get_inptr (sampleSynth 0).return_queue = false
    ∧ (fluid_channel_set_preset (sampleSynth 0) (sampleChan 0) (some 12)).2.2.preset ≠ some 12
    ∧ Call.delete_preset 11
        ∉ (fluid_channel_set_preset (sampleSynth 0) (sampleChan 0) (some 12)).2.1.calls
    ∧ (fluid_channel_set_preset (sampleSynth 0) (sampleChan 0)
        (some 12)).2.1.return_queue.array = [] := by
  decide

/-- C13, amended: when an instrument `old` is bound and the return queue has
no free slot, `fluid_channel_set_preset(chan, new)` returns FLUID_FAILED and
reports the full queue, leaves the channel as it was, with `old` still
bound, appends nothing to the queue and makes no synchronous release. -/
theorem rebind_saturated (synth : fluid_synth_t) (chan : fluid_channel_t)
    (new : Option fluid_preset_t) (old : fluid_preset_t) (hold : chan.preset = some old)
    (hq : fluid_event_queue_get_inptr synth.return_queue = false) :
    (fluid_channel_set_preset synth chan new).1 = fluid_status.FLUID_FAILED
    ∧ (fluid_channel_set_preset synth chan new).2.2 = chan
    ∧ (fluid_channel_set_preset synth chan new).2.2.preset = some old
    ∧ (fluid_channel_set_preset synth chan new).2.1.return_queue = synth.return_queue
    ∧ (∃ rest, (fluid_channel_set_preset synth chan new).2.1.calls = synth.calls ++ rest
        ∧ Call.log_queue_full ∈ rest ∧ ∀ p, Call.delete_preset p ∉ rest) := by
  rw [set_preset_saturated synth chan new old hold hq]
  refine ⟨rfl, rfl, hold, rfl, [_, _], List.append_assoc _ _ _, by simp, by simp⟩

/-- Instance of the amended C13: instrument 11 bound, a queue without
slots. -/
theorem rebind_saturated_witness :
    (sampleChan 0).preset = some 11
    ∧ fluid_event_queue_get_inptr (sampleSynth 0).return_queue = false
    ∧ (fluid_channel_set_preset (sampleSynth 0) (sampleChan 0) (some 12)).1
        = fluid_status.FLUID_FAILED
    ∧ (fluid_channel_set_preset (sampleSynth 0) (sampleChan 0) (some 12)).2.2 = sampleChan 0
    ∧ (fluid_channel_set_preset (sampleSynth 0) (sampleChan 0) (some 12)).2.2.preset = some 11
    ∧ (fluid_channel_set_preset (sampleSynth 0) (sampleChan 0) (some 12)).2.1.return_queue
        = (sampleSynth 0).return_queue
    ∧ (∃ rest, (fluid_channel_set_preset (sampleSynth 0) (sampleChan 0) (some 12)).2.1.calls
          = (sampleSynth 0).calls ++ rest
        ∧ Call.log_queue_full ∈ rest ∧ ∀ p, Call.delete_preset p ∉ rest) :=
  ⟨rfl, rfl, rebind_saturated (sampleSynth 0) (sampleChan 0) (some 12) 11 rfl rfl⟩

/-- C14 as stated fails: the preset store has no instrument, instrument 11 is
bound and the queue has no free slot; after `fluid_channel_reset` instrument
11 is still bound. -/
theorem missing_instrument_counterexample :
    (emptySynth 0).presets (if (sampleChan 0).channum = 9 then 128 else 0) 0 = none
    ∧ (sampleChan 0).preset = some 11
    ∧ fluid_event_queue_get_inptr (emptySynth 0).return_queue = false
    ∧ (fluid_channel_reset midi (emptySynth 0) (sampleChan 0)).2.preset = some 11 := by
  decide

/-- C14, amended: when the preset store has no instrument for the default
bank and program, a channel created by `new_fluid_channel` has no bound
instrument, whatever the state of the return queue; and after
`fluid_channel_reset` the channel has no bound instrument provided that no
instrument was bound before or the return queue has a free slot. -/
theorem missing_instrument (K : Consts) (synth : fluid_synth_t) (n : Int)
    (mem chan : fluid_channel_t) :
    (synth.presets (if n = 9 then 128 else 0) 0 = none →
      ∃ synth1 chan1, new_fluid_channel K synth n (some mem) = (synth1, some chan1)
        ∧ chan1.preset = none)
    ∧ (synth.presets (if chan.channum = 9 then 128 else 0) 0 = none →
      (chan.preset = none ∨ fluid_event_queue_get_inptr synth.return_queue = true) →
      (fluid_channel_reset K synth chan).2.preset = none) := by
  constructor
  · intro hnone
    refine ⟨_, _, rfl, ?_⟩
    rw [init_ctrl_preset]
    exact init_missing_preset K synth { mem with channum := n, preset := none } hnone
      (Or.inl rfl)
  · intro hnone hfree
    show (fluid_channel_init_ctrl K (fluid_channel_init K synth chan).2 0).preset = none
    rw [init_ctrl_preset]
    exact init_missing_preset K synth chan hnone hfree

/-- Instance of the amended C14: a creation with a queue without slots, and
a reset with instrument 11 bound and one free slot. -/
theorem missing_instrument_witness :
    ((emptySynth 0).presets (if (9 : Int) = 9 then 128 else 0) 0 = none
      ∧ ∃ synth1 chan1, new_fluid_channel midi (emptySynth 0) 9 (some (sampleChan 0))
          = (synth1, some chan1) ∧ chan1.preset = none)
    ∧ ((emptySynth 1).presets (if (sampleChan 0).channum = 9 then 128 else 0) 0 = none
      ∧ ((sampleChan 0).preset = none
        ∨ fluid_event_queue_get_inptr (emptySynth 1).return_queue = true)
      ∧ (fluid_channel_reset midi (emptySynth 1) (sampleChan 0)).2.preset = none) :=
  ⟨⟨rfl, (missing_instrument midi (emptySynth 0) 9 (sampleChan 0) (sampleChan 0)).1 rfl⟩,
    ⟨rfl, Or.inr rfl,
      (missing_instrument midi (emptySynth 1) 9 (sampleChan 0) (sampleChan 0)).2 rfl
        (Or.inr rfl)⟩⟩

/-- C15 (tuning retirement): let `mid` be the state `fluid_channel_init` has
reached when it checks the tuning, that is, after its rebind.  The tuning
checked is the tuning of the channel.  If it is a tuning t and the queue then
has a free slot, exactly one request UNREF_TUNING(t, 1) is appended and no
call is made; if the queue is then saturated, t is unreffed in place once,
with count 1, the full queue is reported, and the queue is unchanged; in both
cases the channel has no tuning afterwards.  If the channel has no tuning,
nothing is appended and no call is made. -/
theorem tuning_retirement (K : Consts) (synth : fluid_synth_t) (chan : fluid_channel_t)
    (mid : fluid_status × fluid_synth_t × fluid_channel_t)
    (hmid : mid = fluid_channel_set_preset
      (fluid_synth_find_preset synth (if chan.channum = 9 then 128 else 0) 0).1
      { chan with sfont_bank_prog := if chan.channum = 9 then 16384 else 0 }
      (fluid_synth_find_preset synth (if chan.channum = 9 then 128 else 0) 0).2) :
    mid.2.2.tuning = chan.tuning
    ∧ (∀ t, chan.tuning = some t →
        (fluid_event_queue_get_inptr mid.2.1.return_queue = true →
          (fluid_channel_init K synth chan).1.return_queue.array
              = mid.2.1.return_queue.array ++ [fluid_event_queue_elem_t.UNREF_TUNING t 1]
          ∧ (fluid_channel_init K synth chan).1.calls = mid.2.1.calls)
        ∧ (fluid_event_queue_get_inptr mid.2.1.return_queue = false →
          (fluid_channel_init K synth chan).1.return_queue = mid.2.1.return_queue
          ∧ (fluid_channel_init K synth chan).1.calls
              = mid.2.1.calls ++ [Call.tuning_unref t 1, Call.log_queue_full])
        ∧ (fluid_channel_init K synth chan).2.tuning = none)
    ∧ (chan.tuning = none →
        (fluid_channel_init K synth chan).1.return_queue = mid.2.1.return_queue
        ∧ (fluid_channel_init K synth chan).1.calls = mid.2.1.calls
        ∧ (fluid_channel_init K synth chan).2.tuning = none) := by
  obtain ⟨_, h2, h3, h4, h5⟩ := init_after_rebind K synth chan mid hmid
  refine ⟨?_, ?_, ?_⟩
  · rw [hmid]
    exact (set_preset_calls _ _ _).2.2.1
  · intro t ht
    refine ⟨?_, ?_, h2⟩
    · intro hq
      rw [h3 t ht hq]
      exact ⟨rfl, rfl⟩
    · intro hq
      rw [h4 t ht hq]
      refine ⟨rfl, ?_⟩
      simp [FLUID_LOG, fluid_tuning_unref]
  · intro ht
    rw [h5 ht]
    exact ⟨rfl, rfl, h2⟩

/-- Instances of C15 for a channel with instrument 11 and tuning 21: with two
slots the queue ends with the two requests; with one slot the instrument
takes it and the tuning is unreffed in place. -/
theorem tuning_retirement_witness :
    (sampleChan 0).tuning = some 21
    ∧ ((fluid_channel_init midi (sampleSynth 2) (sampleChan 0)).1.return_queue.array
          = [fluid_event_queue_elem_t.FREE_PRESET 11,
              fluid_event_queue_elem_t.UNREF_TUNING 21 1]
        ∧ Call.tuning_unref 21 1
            ∉ (fluid_channel_init midi (sampleSynth 2) (sampleChan 0)).1.calls)
    ∧ ((fluid_channel_init midi (sampleSynth 1) (sampleChan 0)).1.return_queue.array
          = [fluid_event_queue_elem_t.FREE_PRESET 11]
        ∧ (fluid_channel_init midi (sampleSynth 1) (sampleChan 0)).1.calls
          = [Call.find_preset 0 0,
              Call.preset_notify 11 fluid_preset_reason.FLUID_PRESET_UNSELECTED 3,
              Call.preset_notify 100 fluid_preset_reason.FLUID_PRESET_SELECTED 3,
              Call.tuning_unref 21 1, Call.log_queue_full])
    ∧ (fluid_channel_init midi (sampleSynth 2) (sampleChan 0)).2.tuning = none :=
  ⟨rfl,
    ⟨(((tuning_retirement midi (sampleSynth 2) (sampleChan 0) _ rfl).2.1 21 rfl).1 rfl).1,
      by decide⟩,
    ⟨congrArg fluid_event_queue_t.array
        (((tuning_retirement midi (sampleSynth 1) (sampleChan 0) _ rfl).2.1 21 rfl).2.1 rfl).1,
      (((tuning_retirement midi (sampleSynth 1) (sampleChan 0) _ rfl).2.1 21 rfl).2.1 rfl).2⟩,
    ((tuning_retirement midi (sampleSynth 2) (sampleChan 0) _ rfl).2.1 21 rfl).2.2⟩

/-! ## Calls from several threads: lemmas -/

/-- A call run alone returns in its first iteration, with the word its loop
body computes from the candidate and the word held. -/
theorem selector_call_run_succ (c : selector_call) (fuel : Nat) (chan : fluid_channel_t) :
    c.run (fuel + 1) chan
      = some { chan with
          sfont_bank_prog := c.loop_newval c.candidate chan.sfont_bank_prog } := by
  cases c with
  | set_sfont_bank_prog s b p =>
    simp only [selector_call.run, fluid_channel_set_sfont_bank_prog,
      set_sfont_bank_prog_loop_succ, Option.map_some']
    rfl
  | set_bank_lsb v =>
    simp only [selector_call.run, fluid_channel_set_bank_lsb, set_bank_lsb_loop_succ,
      Option.map_some']
    rfl
  | set_bank_msb v =>
    simp only [selector_call.run, fluid_channel_set_bank_msb, set_bank_msb_loop_succ,
      Option.map_some']
    rfl
  | get_sfont_bank_prog => rfl

/-- The sequence of calls made by one thread does not depend on the
iteration bound, as long as there is one iteration. -/
theorem run_in_order_succ (fuel : Nat) (calls : List selector_call) (order : List Nat)
    (chan : fluid_channel_t) :
    run_in_order (fuel + 1) calls order chan = run_in_order 1 calls order chan := by
  unfold run_in_order
  congr 1
  funext r i
  congr 1
  funext chan1
  cases calls[i]? with
  | none => rfl
  | some c => simp only [selector_call_run_succ c fuel, selector_call_run_succ c 0]

/-- The sequence of calls with one more call at the end. -/
theorem run_in_order_concat (calls : List selector_call) (order : List Nat) (i : Nat)
    (c : selector_call) (chan mid : fluid_channel_t) (hc : calls[i]? = some c)
    (h : run_in_order 1 calls order chan = some mid) :
    run_in_order 1 calls (order ++ [i]) chan = c.run 1 mid := by
  unfold run_in_order at h ⊢
  rw [List.foldl_append, h]
  simp only [List.foldl_cons, List.foldl_nil, Option.some_bind, hc]

/-- A candidate that was merged once merges as the first candidate does. -/
theorem loop_newval_absorb (c : selector_call) (newval oldval w : Int) :
    c.loop_newval (c.loop_newval newval oldval) w = c.loop_newval newval w := by
  cases c with
  | set_sfont_bank_prog s b p => exact merge_absorb _ _ _ _
  | set_bank_lsb v => rfl
  | set_bank_msb v => rfl
  | get_sfont_bank_prog => rfl

/-- One atomic step of a thread whose locals come from its call: the locals
still do afterwards; a thread that has returned does nothing; the step by
which a call returns does to the channel what the call does when run alone,
a getter returning the triple of the channel at that step; any other step
leaves the channel as it is. -/
theorem selector_step_spec (c : selector_call) (pc : selector_pc) (chan : fluid_channel_t)
    (hload : ∀ nv, pc = .at_load nv → ∀ w, c.loop_newval nv w = c.loop_newval c.candidate w)
    (hcas : ∀ old nv, pc = .at_cas old nv → nv = c.loop_newval c.candidate old) :
    (∀ nv, (selector_step c pc chan).1 = .at_load nv →
        ∀ w, c.loop_newval nv w = c.loop_newval c.candidate w)
    ∧ (∀ old nv, (selector_step c pc chan).1 = .at_cas old nv →
        nv = c.loop_newval c.candidate old)
    ∧ (pc.is_returned = true → selector_step c pc chan = (pc, chan))
    ∧ (pc.is_returned = false → (selector_step c pc chan).1.is_returned = true →
        c.run 1 chan = some (selector_step c pc chan).2)
    ∧ (pc.is_returned = false → ∀ t, (selector_step c pc chan).1 = .returned (some t) →
        t = fluid_channel_get_sfont_bank_prog chan)
    ∧ ((selector_step c pc chan).1.is_returned = false → (selector_step c pc chan).2 = chan) := by
  cases pc with
  | returned t =>
    simp [selector_step, selector_pc.is_returned]
  | at_cas old nv =>
    have hnv := hcas old nv rfl
    by_cases hcell : chan.sfont_bank_prog = old
    · simp only [selector_step, fluid_atomic_int_compare_and_exchange, hcell, if_true,
        selector_pc.is_returned]
      refine ⟨?_, ?_, ?_, ?_, ?_, ?_⟩ <;> intros <;>
        try first | contradiction | trivial | (rename_i h; cases h; done)
      rw [selector_call_run_succ c 0, hcell, ← hnv]
    · simp only [selector_step, fluid_atomic_int_compare_and_exchange, hcell, if_false,
        selector_pc.is_returned]
      refine ⟨?_, ?_, ?_, ?_, ?_, ?_⟩ <;> intros <;>
        try first | contradiction | trivial | (rename_i h; cases h; done)
      · rename_i nv1 h w
        cases h
        rw [hnv, loop_newval_absorb]
  | at_load nv =>
    have hnv := hload nv rfl
    have key : ∀ c1 : selector_call, c1 = c → c1 ≠ .get_sfont_bank_prog →
        selector_step c1 (.at_load nv) chan
          = if c1.loop_newval nv chan.sfont_bank_prog ≠ chan.sfont_bank_prog then
              (.at_cas chan.sfont_bank_prog (c1.loop_newval nv chan.sfont_bank_prog), chan)
            else (.returned none, chan) := by
      intro c1 _ hne
      cases c1 with
      | get_sfont_bank_prog => exact absurd rfl hne
      | set_sfont_bank_prog s b p => rfl
      | set_bank_lsb v => rfl
      | set_bank_msb v => rfl
    by_cases hget : c = .get_sfont_bank_prog
    · subst hget
      simp only [selector_step, selector_pc.is_returned]
      refine ⟨?_, ?_, ?_, ?_, ?_, ?_⟩ <;> intros <;>
        try first | contradiction | trivial | (rename_i h; cases h; done)
      rename_i h
      cases h
      rfl
    · rw [key c rfl hget]
      by_cases hsame : c.loop_newval nv chan.sfont_bank_prog = chan.sfont_bank_prog
      · simp only [hsame, ne_eq, not_true_eq_false, if_false, selector_pc.is_returned]
        refine ⟨?_, ?_, ?_, ?_, ?_, ?_⟩ <;> intros <;>
        try first | contradiction | trivial | (rename_i h; cases h; done)
        rw [selector_call_run_succ c 0, ← hnv, hsame]
      · simp only [hsame, ne_eq, not_false_eq_true, if_true, selector_pc.is_returned]
        refine ⟨?_, ?_, ?_, ?_, ?_, ?_⟩ <;> intros <;>
        try first | contradiction | trivial | (rename_i h; cases h; done)
        · rename_i h
          cases h
          exact hnv _

/-- A step of a thread that exists. -/
theorem system_step_eq (calls : List selector_call) (st : selector_system) (i : Nat)
    (c : selector_call) (pc : selector_pc) (hc : calls[i]? = some c)
    (hpc : st.pcs[i]? = some pc) :
    system_step calls st i
      = { chan := (selector_step c pc st.chan).2
          pcs := st.pcs.set i (selector_step c pc st.chan).1
          order :=
            if pc.is_returned = false ∧ (selector_step c pc st.chan).1.is_returned = true then
              st.order ++ [i]
            else st.order } := by
  simp only [system_step, hc, hpc]

/-- A step of a thread that does not exist. -/
theorem system_step_skip (calls : List selector_call) (st : selector_system) (i : Nat)
    (h : calls[i]? = none ∨ st.pcs[i]? = none) : system_step calls st i = st := by
  unfold system_step
  rcases h with h | h
  · simp only [h]
  · cases calls[i]? <;> simp only [h]

/-- What one step of the scheduler keeps: the number of threads; the calls
of the threads in `order` made in sequence give the channel; `order` lists
each returned thread once and no other; the locals of every thread come from
its call; and the triple of every returned getter is the triple of the
channel after the calls before it in `order`. -/
theorem system_step_invariant (calls : List selector_call) (chan : fluid_channel_t)
    (st : selector_system) (i : Nat)
    (j1 : st.pcs.length = calls.length)
    (j2 : run_in_order 1 calls st.order chan = some st.chan)
    (j3 : st.order.Nodup)
    (j4 : ∀ j : Nat, j ∈ st.order ↔ (st.pcs[j]?).map selector_pc.is_returned = some true)
    (j5 : ∀ (j : Nat) (c : selector_call) (nv : Int), calls[j]? = some c → st.pcs[j]? = some (.at_load nv) →
      ∀ w, c.loop_newval nv w = c.loop_newval c.candidate w)
    (j6 : ∀ (j : Nat) (c : selector_call) (old nv : Int), calls[j]? = some c → st.pcs[j]? = some (.at_cas old nv) →
      nv = c.loop_newval c.candidate old)
    (j7 : ∀ (j : Nat) (t : Int × Int × Int), st.pcs[j]? = some (.returned (some t)) →
      ∃ k, st.order[k]? = some j
        ∧ (run_in_order 1 calls (st.order.take k) chan).map fluid_channel_get_sfont_bank_prog
            = some t) :
    (system_step calls st i).pcs.length = calls.length
    ∧ run_in_order 1 calls (system_step calls st i).order chan
        = some (system_step calls st i).chan
    ∧ (system_step calls st i).order.Nodup
    ∧ (∀ j : Nat, j ∈ (system_step calls st i).order
        ↔ ((system_step calls st i).pcs[j]?).map selector_pc.is_returned = some true)
    ∧ (∀ (j : Nat) (c : selector_call) (nv : Int), calls[j]? = some c → (system_step calls st i).pcs[j]? = some (.at_load nv) →
        ∀ w, c.loop_newval nv w = c.loop_newval c.candidate w)
    ∧ (∀ (j : Nat) (c : selector_call) (old nv : Int), calls[j]? = some c →
        (system_step calls st i).pcs[j]? = some (.at_cas old nv) →
        nv = c.loop_newval c.candidate old)
    ∧ (∀ (j : Nat) (t : Int × Int × Int), (system_step calls st i).pcs[j]? = some (.returned (some t)) →
        ∃ k, (system_step calls st i).order[k]? = some j
          ∧ (run_in_order 1 calls ((system_step calls st i).order.take k) chan).map
              fluid_channel_get_sfont_bank_prog = some t) := by
  rcases hc : calls[i]? with _ | c
  · rw [system_step_skip calls st i (Or.inl hc)]
    exact ⟨j1, j2, j3, j4, j5, j6, j7⟩
  rcases hpc : st.pcs[i]? with _ | pc
  · rw [system_step_skip calls st i (Or.inr hpc)]
    exact ⟨j1, j2, j3, j4, j5, j6, j7⟩
  rw [system_step_eq calls st i c pc hc hpc]
  obtain ⟨s1, s2, s3, s4, s5, s6⟩ := selector_step_spec c pc st.chan
    (fun nv h => j5 i c nv hc (by rw [hpc, h]))
    (fun old nv h => j6 i c old nv hc (by rw [hpc, h]))
  generalize selector_step c pc st.chan = n at s1 s2 s3 s4 s5 s6
  have hi : i < st.pcs.length := by
    obtain ⟨h, _⟩ := List.getElem?_eq_some.1 hpc
    exact h
  have hget : ∀ j : Nat, (st.pcs.set i n.1)[j]? = if i = j then some n.1 else st.pcs[j]? := by
    intro j
    rw [List.getElem?_set]
    by_cases hij : i = j
    · subst hij
      simp only [if_true]
      rw [if_pos hi]
    · simp only [hij, if_false]
  have hold : i ∈ st.order ↔ pc.is_returned = true := by
    rw [j4 i, hpc]
    simp
  simp only []
  by_cases hret : pc.is_returned = true
  · -- the thread had returned: nothing changes
    have hn := s3 hret
    have hcond : ¬ (pc.is_returned = false ∧ n.1.is_returned = true) := by
      rw [hret]
      simp
    have hsame : ∀ j : Nat, (st.pcs.set i n.1)[j]? = st.pcs[j]? := by
      intro j
      rw [hget j]
      by_cases hij : i = j
      · subst hij
        simp only [if_true]
        rw [hpc, hn]
      · simp only [hij, if_false]
    simp only [hcond, if_false, hsame, List.length_set]
    refine ⟨j1, ?_, j3, j4, j5, j6, j7⟩
    rw [j2, hn]
  · have hnot : pc.is_returned = false := by
      cases h : pc.is_returned
      · rfl
      · exact absurd h hret
    by_cases heff : n.1.is_returned = true
    · -- the step by which the call returns
      have hcond : pc.is_returned = false ∧ n.1.is_returned = true := ⟨hnot, heff⟩
      have hnew : i ∉ st.order := fun h => hret (hold.1 h)
      simp only [hcond, and_self, if_true, List.length_set]
      refine ⟨j1, ?_, ?_, ?_, ?_, ?_, ?_⟩
      · rw [run_in_order_concat calls st.order i c chan st.chan hc j2]
        exact s4 hnot heff
      · rw [List.nodup_append]
        refine ⟨j3, List.nodup_singleton i, ?_⟩
        intro a ha hb
        rw [List.mem_singleton] at hb
        exact hnew (hb ▸ ha)
      · intro j
        rw [hget j, List.mem_append, List.mem_singleton]
        by_cases hij : i = j
        · subst hij
          simp only [if_true, Option.map_some', or_true, true_iff]
          rw [heff]
        · simp only [hij, if_false]
          rw [← j4 j]
          constructor
          · rintro (h | h)
            · exact h
            · exact absurd h.symm hij
          · exact Or.inl
      · intro j c1 nv hc1 hj
        rw [hget j] at hj
        by_cases hij : i = j
        · subst hij
          simp only [if_true, Option.some.injEq] at hj
          rw [hj] at heff
          cases heff
        · simp only [hij, if_false] at hj
          exact j5 j c1 nv hc1 hj
      · intro j c1 old nv hc1 hj
        rw [hget j] at hj
        by_cases hij : i = j
        · subst hij
          simp only [if_true, Option.some.injEq] at hj
          rw [hj] at heff
          cases heff
        · simp only [hij, if_false] at hj
          exact j6 j c1 old nv hc1 hj
      · intro j t hj
        rw [hget j] at hj
        by_cases hij : i = j
        · subst hij
          simp only [if_true, Option.some.injEq] at hj
          refine ⟨st.order.length, ?_, ?_⟩
          · exact List.getElem?_concat_length _ _
          · rw [List.take_left, j2, s5 hnot t hj]
            rfl
        · simp only [hij, if_false] at hj
          obtain ⟨k, hk, hrun⟩ := j7 j t hj
          have hklt : k < st.order.length := by
            obtain ⟨h, _⟩ := List.getElem?_eq_some.1 hk
            exact h
          refine ⟨k, ?_, ?_⟩
          · rw [List.getElem?_append_left hklt]
            exact hk
          · rw [List.take_append_of_le_length (Nat.le_of_lt hklt)]
            exact hrun
    · -- a step inside the loop
      have hcond : ¬ (pc.is_returned = false ∧ n.1.is_returned = true) := fun h => heff h.2
      have hin : n.1.is_returned = false := by
        cases h : n.1.is_returned
        · rfl
        · exact absurd h heff
      simp only [hcond, if_false, List.length_set]
      refine ⟨j1, ?_, j3, ?_, ?_, ?_, ?_⟩
      · rw [j2, s6 hin]
      · intro j
        rw [hget j]
        by_cases hij : i = j
        · subst hij
          simp only [if_true, Option.map_some']
          rw [hin]
          constructor
          · intro h
            exact absurd (hold.1 h) hret
          · intro h
            cases h
        · simp only [hij, if_false]
          exact j4 j
      · intro j c1 nv hc1 hj
        rw [hget j] at hj
        by_cases hij : i = j
        · subst hij
          simp only [if_true, Option.some.injEq] at hj
          rw [hc] at hc1
          cases hc1
          exact s1 nv hj
        · simp only [hij, if_false] at hj
          exact j5 j c1 nv hc1 hj
      · intro j c1 old nv hc1 hj
        rw [hget j] at hj
        by_cases hij : i = j
        · subst hij
          simp only [if_true, Option.some.injEq] at hj
          rw [hc] at hc1
          cases hc1
          exact s2 old nv hj
        · simp only [hij, if_false] at hj
          exact j6 j c1 old nv hc1 hj
      · intro j t hj
        rw [hget j] at hj
        by_cases hij : i = j
        · subst hij
          simp only [if_true, Option.some.injEq] at hj
          rw [hj] at hin
          cases hin
        · simp only [hij, if_false] at hj
          exact j7 j t hj

/-- The run of the threads one step longer. -/
theorem system_run_concat (calls : List selector_call) (sched : List Nat) (i : Nat)
    (st : selector_system) :
    system_run calls (sched ++ [i]) st = system_step calls (system_run calls sched st) i := by
  simp only [system_run, List.foldl_append, List.foldl_cons, List.foldl_nil]

/-- Under every schedule: the number of threads stays; the calls of the
threads in `order` made in sequence give the channel; `order` lists each
returned thread once and no other; the locals of every thread come from its
call; and the triple of every returned getter is the triple of the channel
after the calls before it in `order`. -/
theorem system_run_invariant (calls : List selector_call) (chan : fluid_channel_t)
    (sched : List Nat) :
    (system_run calls sched (system_init calls chan)).pcs.length = calls.length
    ∧ run_in_order 1 calls (system_run calls sched (system_init calls chan)).order chan
        = some (system_run calls sched (system_init calls chan)).chan
    ∧ (system_run calls sched (system_init calls chan)).order.Nodup
    ∧ (∀ j : Nat, j ∈ (system_run calls sched (system_init calls chan)).order
        ↔ ((system_run calls sched (system_init calls chan)).pcs[j]?).map
            selector_pc.is_returned = some true)
    ∧ (∀ (j : Nat) (c : selector_call) (nv : Int), calls[j]? = some c →
        (system_run calls sched (system_init calls chan)).pcs[j]? = some (.at_load nv) →
        ∀ w, c.loop_newval nv w = c.loop_newval c.candidate w)
    ∧ (∀ (j : Nat) (c : selector_call) (old nv : Int), calls[j]? = some c →
        (system_run calls sched (system_init calls chan)).pcs[j]? = some (.at_cas old nv) →
        nv = c.loop_newval c.candidate old)
    ∧ (∀ (j : Nat) (t : Int × Int × Int),
        (system_run calls sched (system_init calls chan)).pcs[j]? = some (.returned (some t)) →
        ∃ k, (system_run calls sched (system_init calls chan)).order[k]? = some j
          ∧ (run_in_order 1 calls
                ((system_run calls sched (system_init calls chan)).order.take k) chan).map
              fluid_channel_get_sfont_bank_prog = some t) := by
  induction sched using List.reverseRecOn with
  | nil =>
    simp only [system_run, List.foldl_nil, system_init, List.length_map, List.getElem?_map,
      List.not_mem_nil, List.nodup_nil, false_iff, true_and]
    refine ⟨rfl, ?_, ?_, ?_, ?_⟩
    · intro j
      cases calls[j]? <;> simp [selector_pc.is_returned]
    · intro j c nv hc hj
      rw [hc] at hj
      simp only [Option.map_some', Option.some.injEq, selector_pc.at_load.injEq] at hj
      rw [hj]
      intro w
      rfl
    · intro j c old nv hc hj
      rw [hc] at hj
      simp at hj
    · intro j t hj
      cases hcj : calls[j]? with
      | none => rw [hcj] at hj; simp at hj
      | some c => rw [hcj] at hj; simp at hj
  | append_singleton sched i ih =>
    obtain ⟨j1, j2, j3, j4, j5, j6, j7⟩ := ih
    rw [system_run_concat]
    exact system_step_invariant calls chan _ i j1 j2 j3 j4 j5 j6 j7

/-- The step of a setter at its atomic load. -/
theorem selector_step_load (c : selector_call) (nv : Int) (chan : fluid_channel_t)
    (hc : c ≠ .get_sfont_bank_prog) :
    selector_step c (.at_load nv) chan
      = if c.loop_newval nv chan.sfont_bank_prog ≠ chan.sfont_bank_prog then
          (.at_cas chan.sfont_bank_prog (c.loop_newval nv chan.sfont_bank_prog), chan)
        else (.returned none, chan) := by
  cases c with
  | get_sfont_bank_prog => exact absurd rfl hc
  | set_sfont_bank_prog s b p => rfl
  | set_bank_lsb v => rfl
  | set_bank_msb v => rfl

/-- The step of a thread at its compare-and-exchange. -/
theorem selector_step_cas (c : selector_call) (old nv : Int) (chan : fluid_channel_t) :
    selector_step c (.at_cas old nv) chan
      = if chan.sfont_bank_prog = old then
          (.returned none, { chan with sfont_bank_prog := nv })
        else (.at_load nv, chan) := by
  by_cases hcell : chan.sfont_bank_prog = old
  · simp only [selector_step, fluid_atomic_int_compare_and_exchange, hcell, if_true]
  · simp only [selector_step, fluid_atomic_int_compare_and_exchange, hcell, if_false]

/-- A thread that runs three steps in a row returns: a stale
compare-and-exchange fails, the load that follows sees the word held, and
the compare-and-exchange after it finds that word still there. -/
theorem selector_step_thrice (c : selector_call) (pc : selector_pc) (chan : fluid_channel_t) :
    (selector_step c
        (selector_step c (selector_step c pc chan).1 (selector_step c pc chan).2).1
        (selector_step c (selector_step c pc chan).1 (selector_step c pc chan).2).2).1.is_returned
      = true := by
  have hload : ∀ nv ch, (selector_step c (selector_step c (.at_load nv) ch).1
      (selector_step c (.at_load nv) ch).2).1.is_returned = true := by
    intro nv ch
    by_cases hget : c = .get_sfont_bank_prog
    · subst hget
      rfl
    · rw [selector_step_load c nv ch hget]
      by_cases hsame : c.loop_newval nv ch.sfont_bank_prog = ch.sfont_bank_prog
      · simp only [hsame, ne_eq, not_true_eq_false, if_false]
        rfl
      · simp only [hsame, ne_eq, not_false_eq_true, if_true]
        rw [selector_step_cas, if_pos rfl]
        rfl
  have hstay : ∀ p ch, p.is_returned = true →
      (selector_step c p ch).1.is_returned = true := by
    intro p ch hp
    cases p with
    | returned t => rfl
    | at_load nv => cases hp
    | at_cas old nv => cases hp
  cases pc with
  | returned t => rfl
  | at_load nv => exact hstay _ _ (hload nv chan)
  | at_cas old nv =>
    rw [selector_step_cas]
    by_cases hcell : chan.sfont_bank_prog = old
    · simp only [hcell, if_true]
      rfl
    · simp only [hcell, if_false]
      exact hload nv chan

/-- What a step of the scheduler does to the thread it names. -/
theorem system_step_self (calls : List selector_call) (st : selector_system) (i : Nat)
    (c : selector_call) (pc : selector_pc) (hc : calls[i]? = some c)
    (hpc : st.pcs[i]? = some pc) :
    (system_step calls st i).pcs[i]? = some (selector_step c pc st.chan).1
    ∧ (system_step calls st i).chan = (selector_step c pc st.chan).2 := by
  rw [system_step_eq calls st i c pc hc hpc]
  have hi : i < st.pcs.length := by
    obtain ⟨h, _⟩ := List.getElem?_eq_some.1 hpc
    exact h
  exact ⟨List.getElem?_set_self hi, rfl⟩

/-- From any state, three steps in a row of a thread make it return. -/
theorem system_step_thrice (calls : List selector_call) (st : selector_system) (i : Nat)
    (hlen : st.pcs.length = calls.length) (hi : i < calls.length) :
    ((system_step calls (system_step calls (system_step calls st i) i) i).pcs[i]?).map
        selector_pc.is_returned = some true := by
  obtain ⟨c, hc⟩ : ∃ c, calls[i]? = some c := ⟨calls[i], List.getElem?_eq_getElem hi⟩
  obtain ⟨pc, hpc⟩ : ∃ pc, st.pcs[i]? = some pc :=
    ⟨st.pcs[i], List.getElem?_eq_getElem (hlen ▸ hi)⟩
  obtain ⟨a1, b1⟩ := system_step_self calls st i c pc hc hpc
  obtain ⟨a2, b2⟩ := system_step_self calls _ i c _ hc a1
  obtain ⟨a3, _⟩ := system_step_self calls _ i c _ hc a2
  rw [a3, b2, b1, Option.map_some', selector_step_thrice]

/-- A call with in-range arguments, run alone: every field of the triple
afterwards is the value the call applies to it, or the value before when the
call does not target it. -/
theorem field_after_call (c : selector_call) (chan chan1 : fluid_channel_t)
    (hr : c.in_range) (h : c.run 1 chan = some chan1) (f : selector_field) :
    f.of_triple (fluid_channel_get_sfont_bank_prog chan1)
      = (c.applied_value f).getD (f.of_triple (fluid_channel_get_sfont_bank_prog chan)) := by
  have hn := int_to_uint_lt chan.sfont_bank_prog
  cases c with
  | get_sfont_bank_prog =>
    cases h
    cases f <;> rfl
  | set_sfont_bank_prog s b p =>
    obtain ⟨hs, hb, hp⟩ := hr
    have e : fluid_channel_set_sfont_bank_prog 1 chan s b p = _ :=
      set_sfont_bank_prog_eq 0 chan s b p hs hb hp
    simp only [selector_call.run] at h
    rw [e] at h
    cases h
    rw [get_sfont_bank_prog_eq chan, get_of_fields _
      (if s ≠ -1 then s.toNat else int_to_uint chan.sfont_bank_prog / 2097152)
      (if b ≠ -1 then b.toNat else int_to_uint chan.sfont_bank_prog / 128 % 16384)
      (if p ≠ -1 then p.toNat else int_to_uint chan.sfont_bank_prog % 128)
      (by split <;> omega) (by split <;> omega) (by split <;> omega) rfl]
    generalize int_to_uint chan.sfont_bank_prog = n at hn
    cases f
    · simp only [selector_field.of_triple, selector_call.applied_value]
      split
      · simp only [Option.getD_some]
        omega
      · rfl
    · simp only [selector_field.of_triple, selector_call.applied_value]
      split
      · simp only [Option.getD_some]
        omega
      · rfl
    · simp only [selector_field.of_triple, selector_call.applied_value]
      split
      · simp only [Option.getD_some]
        omega
      · rfl
    · simp only [selector_field.of_triple, selector_call.applied_value]
      split
      · simp only [Option.getD_some]
        omega
      · rfl
  | set_bank_lsb v =>
    have e : fluid_channel_set_bank_lsb 1 chan v = _ := set_bank_lsb_eq 0 chan v hr
    obtain ⟨hv0, hv1⟩ := hr
    simp only [selector_call.run] at h
    rw [e] at h
    cases h
    rw [get_sfont_bank_prog_eq chan, get_of_fields _
      (int_to_uint chan.sfont_bank_prog / 2097152)
      (int_to_uint chan.sfont_bank_prog / 128 % 16384 / 128 * 128 + v.toNat)
      (int_to_uint chan.sfont_bank_prog % 128)
      (by omega) (by omega) (by omega) rfl]
    generalize int_to_uint chan.sfont_bank_prog = n at hn
    cases f <;> simp only [selector_field.of_triple, selector_call.applied_value,
      Option.getD_some, Option.getD_none] <;> omega
  | set_bank_msb v =>
    have e : fluid_channel_set_bank_msb 1 chan v = _ := set_bank_msb_eq 0 chan v hr
    obtain ⟨hv0, hv1⟩ := hr
    simp only [selector_call.run] at h
    rw [e] at h
    cases h
    rw [get_sfont_bank_prog_eq chan, get_of_fields _
      (int_to_uint chan.sfont_bank_prog / 2097152)
      (v.toNat * 128 + int_to_uint chan.sfont_bank_prog / 128 % 16384 % 128)
      (int_to_uint chan.sfont_bank_prog % 128)
      (by omega) (by omega) (by omega) rfl]
    generalize int_to_uint chan.sfont_bank_prog = n at hn
    cases f <;> simp only [selector_field.of_triple, selector_call.applied_value,
      Option.getD_some, Option.getD_none] <;> omega

/-- The sequence of calls, the first call apart. -/
theorem run_in_order_cons (calls : List selector_call) (i : Nat) (rest : List Nat)
    (chan : fluid_channel_t) :
    run_in_order 1 calls (i :: rest) chan
      = match calls[i]? with
        | some c =>
          run_in_order 1 calls rest
            { chan with sfont_bank_prog := c.loop_newval c.candidate chan.sfont_bank_prog }
        | none => run_in_order 1 calls rest chan := by
  unfold run_in_order
  rw [List.foldl_cons, Option.some_bind]
  cases calls[i]? with
  | none => rfl
  | some c => simp only [selector_call_run_succ c 0]

/-- Calls with in-range arguments made in sequence: every field of the
triple afterwards is the value most recently applied to it. -/
theorem run_in_order_fields (calls : List selector_call) (order : List Nat)
    (chan chan1 : fluid_channel_t) (hr : ∀ c ∈ calls, c.in_range)
    (h : run_in_order 1 calls order chan = some chan1) (f : selector_field) :
    f.of_triple (fluid_channel_get_sfont_bank_prog chan1)
      = most_recently_applied calls order f
          (f.of_triple (fluid_channel_get_sfont_bank_prog chan)) := by
  induction order generalizing chan with
  | nil =>
    cases h
    rfl
  | cons i rest ih =>
    rw [run_in_order_cons] at h
    unfold most_recently_applied
    rw [List.foldl_cons]
    cases hc : calls[i]? with
    | none =>
      simp only [hc] at h
      exact ih chan h
    | some c =>
      simp only [hc] at h
      have hcr : c.in_range := hr c (List.getElem?_mem hc)
      have hf := field_after_call c chan _ hcr (selector_call_run_succ c 0 chan) f
      have hrest := ih _ h
      rw [hf] at hrest
      exact hrest

/-- The value most recently applied to a field that one thread alone
targets: the value of that thread, once it is in the order. -/
theorem most_recently_applied_only (calls : List selector_call) (order : List Nat)
    (f : selector_field) (i : Nat) (c : selector_call) (v : Int) (hc : calls[i]? = some c)
    (hv : c.applied_value f = some v)
    (hothers : ∀ (j : Nat) (c2 : selector_call), j ≠ i → calls[j]? = some c2 →
      c2.applied_value f = none)
    (initial : Int) :
    most_recently_applied calls order f initial = if i ∈ order then v else initial := by
  induction order generalizing initial with
  | nil => rfl
  | cons j rest ih =>
    unfold most_recently_applied at ih ⊢
    rw [List.foldl_cons]
    by_cases hji : j = i
    · subst hji
      simp only [hc, hv, Option.getD_some, List.mem_cons, true_or, if_true]
      rw [ih v]
      split <;> rfl
    · have hstep : (match calls[j]? with
          | some c => (c.applied_value f).getD initial
          | none => initial) = initial := by
        cases hcj : calls[j]? with
        | none => rfl
        | some c2 => simp only [hothers j c2 hji hcj, Option.getD_none]
      rw [hstep, ih initial]
      have hmem : i ∈ j :: rest ↔ i ∈ rest := by
        rw [List.mem_cons]
        constructor
        · rintro (h | h)
          · exact absurd h.symm hji
          · exact h
        · exact Or.inr
      simp only [hmem]

/-- Under every schedule a thread that runs the getter is at its load or has
returned with a triple. -/
theorem system_run_getter (calls : List selector_call) (chan : fluid_channel_t)
    (sched : List Nat) (j : Nat) (hj : calls[j]? = some .get_sfont_bank_prog) :
    (∃ nv, (system_run calls sched (system_init calls chan)).pcs[j]? = some (.at_load nv))
    ∨ ∃ t, (system_run calls sched (system_init calls chan)).pcs[j]?
        = some (.returned (some t)) := by
  induction sched using List.reverseRecOn with
  | nil =>
    left
    simp only [system_run, List.foldl_nil, system_init, List.getElem?_map, hj, Option.map_some']
    exact ⟨_, rfl⟩
  | append_singleton sched i ih =>
    rw [system_run_concat]
    generalize system_run calls sched (system_init calls chan) = st at ih
    rcases hc : calls[i]? with _ | c
    · rw [system_step_skip calls st i (Or.inl hc)]
      exact ih
    rcases hpc : st.pcs[i]? with _ | pc
    · rw [system_step_skip calls st i (Or.inr hpc)]
      exact ih
    by_cases hij : i = j
    · subst hij
      rw [hj] at hc
      cases hc
      obtain ⟨a, _⟩ := system_step_self calls st i _ pc hj hpc
      rw [a]
      rcases ih with ⟨nv, h⟩ | ⟨t, h⟩
      · rw [hpc] at h
        cases h
        right
        exact ⟨_, rfl⟩
      · rw [hpc] at h
        cases h
        right
        exact ⟨t, rfl⟩
    · rw [system_step_eq calls st i c pc hc hpc]
      simp only [List.getElem?_set_ne hij]
      exact ih

/-! ## The selector word among threads and the bank setters: claims -/

/-- The record of returned threads only grows at its end. -/
theorem system_run_order_grows (calls : List selector_call) (more : List Nat)
    (st : selector_system) :
    ∃ later, (system_run calls more st).order = st.order ++ later := by
  induction more generalizing st with
  | nil => exact ⟨[], (List.append_nil _).symm⟩
  | cons i rest ih =>
    obtain ⟨later, h⟩ := ih (system_step calls st i)
    have hstep : ∃ l, (system_step calls st i).order = st.order ++ l := by
      unfold system_step
      split
      · simp only []
        split
        · exact ⟨[i], rfl⟩
        · exact ⟨[], (List.append_nil _).symm⟩
      · exact ⟨[], (List.append_nil _).symm⟩
    obtain ⟨l, hl⟩ := hstep
    refine ⟨l ++ later, ?_⟩
    show (system_run calls rest (system_step calls st i)).order = _
    rw [h, hl, List.append_assoc]

/-- C17 (retry loop among other threads): let the other threads act on the
register as the schedule `others` tells, one element per round of the loop
of `fluid_channel_set_sfont_bank_prog`, and let every round of the schedule
be a failed compare-and-exchange (the candidate differs from the word loaded
and the register no longer holds the word loaded).  Then the loop loads
exactly the words w_1..w_n with w_1 the word held at the call and w_(k+1) the
word the schedule puts in the register after round k, so n is the length of
the schedule plus one; it makes one compare-and-exchange per failed round and
one more on iteration n unless the candidate equals w_n; and the register
ends at (v & ~m) | (w_n & m), where v is the candidate computed from the
arguments and m the mask of the arguments passed as -1.  A further round
that finds the register still at w_n ends the loop the same way, whatever
the schedule holds after it.  Without any hypothesis on the schedule the
register ends at (v & ~m) | (w & m) for the last word w loaded, so two runs
with the same last word loaded end alike.  With an empty schedule the loop
loads once, makes no compare-and-exchange when the candidate already equals
the word held, and leaves the word the single-thread run leaves. -/
theorem cas_retry_loop (others : List (Int × Int)) (chan : fluid_channel_t)
    (sfontnum banknum prognum : Int) :
    ((∀ p ∈ (chan.sfont_bank_prog :: others.map Prod.snd).zip (others.map Prod.fst),
        int_or
            (int_and (set_sfont_bank_prog_newval sfontnum banknum prognum)
              (int_not (set_sfont_bank_prog_oldmask sfontnum banknum prognum)))
            (int_and p.1 (set_sfont_bank_prog_oldmask sfontnum banknum prognum)) ≠ p.1
          ∧ p.2 ≠ p.1) →
      ∃ w_n, (chan.sfont_bank_prog :: others.map Prod.snd).getLast? = some w_n
        ∧ (fluid_channel_set_sfont_bank_prog_among others chan sfontnum banknum prognum).loads
            = chan.sfont_bank_prog :: others.map Prod.snd
        ∧ (fluid_channel_set_sfont_bank_prog_among others chan sfontnum banknum
              prognum).cas_calls
            = others.length
              + (if int_or
                    (int_and (set_sfont_bank_prog_newval sfontnum banknum prognum)
                      (int_not (set_sfont_bank_prog_oldmask sfontnum banknum prognum)))
                    (int_and w_n (set_sfont_bank_prog_oldmask sfontnum banknum prognum)) = w_n
                then 0 else 1)
        ∧ (fluid_channel_set_sfont_bank_prog_among others chan sfontnum banknum prognum).cell
            = int_or
                (int_and (set_sfont_bank_prog_newval sfontnum banknum prognum)
                  (int_not (set_sfont_bank_prog_oldmask sfontnum banknum prognum)))
                (int_and w_n (set_sfont_bank_prog_oldmask sfontnum banknum prognum))
        ∧ ∀ atLoad rest,
            fluid_channel_set_sfont_bank_prog_among (others ++ (w_n, atLoad) :: rest) chan
                sfontnum banknum prognum
              = fluid_channel_set_sfont_bank_prog_among others chan sfontnum banknum prognum)
    ∧ (∃ w, (fluid_channel_set_sfont_bank_prog_among others chan sfontnum banknum
          prognum).loads.getLast? = some w
      ∧ (fluid_channel_set_sfont_bank_prog_among others chan sfontnum banknum prognum).cell
          = int_or
              (int_and (set_sfont_bank_prog_newval sfontnum banknum prognum)
                (int_not (set_sfont_bank_prog_oldmask sfontnum banknum prognum)))
              (int_and w (set_sfont_bank_prog_oldmask sfontnum banknum prognum)))
    ∧ (∀ others2 chan2,
        (fluid_channel_set_sfont_bank_prog_among others2 chan2 sfontnum banknum
            prognum).loads.getLast?
          = (fluid_channel_set_sfont_bank_prog_among others chan sfontnum banknum
            prognum).loads.getLast? →
        (fluid_channel_set_sfont_bank_prog_among others2 chan2 sfontnum banknum prognum).cell
          = (fluid_channel_set_sfont_bank_prog_among others chan sfontnum banknum prognum).cell)
    ∧ (fluid_channel_set_sfont_bank_prog_among others chan sfontnum banknum
          prognum).loads.head? = some chan.sfont_bank_prog
    ∧ (fluid_channel_set_sfont_bank_prog_among [] chan sfontnum banknum prognum).loads
        = [chan.sfont_bank_prog]
    ∧ (int_or
          (int_and (set_sfont_bank_prog_newval sfontnum banknum prognum)
            (int_not (set_sfont_bank_prog_oldmask sfontnum banknum prognum)))
          (int_and chan.sfont_bank_prog (set_sfont_bank_prog_oldmask sfontnum banknum prognum))
        = chan.sfont_bank_prog →
      (fluid_channel_set_sfont_bank_prog_among [] chan sfontnum banknum prognum).cas_calls = 0)
    ∧ ∀ fuel, fluid_channel_set_sfont_bank_prog (fuel + 1) chan sfontnum banknum prognum
        = some { chan with
            sfont_bank_prog :=
              (fluid_channel_set_sfont_bank_prog_among [] chan sfontnum banknum prognum).cell } := by
  unfold fluid_channel_set_sfont_bank_prog_among
  obtain ⟨n1, n2, n3⟩ := loop_among_nil (set_sfont_bank_prog_oldmask sfontnum banknum prognum)
    (set_sfont_bank_prog_newval sfontnum banknum prognum) chan.sfont_bank_prog
  refine ⟨?_, loop_among_cell _ _ _ _, ?_, loop_among_head _ _ _ _, n1, ?_, ?_⟩
  · intro hfail
    obtain ⟨l1, w, hw, l2⟩ := loop_among_failed
      (set_sfont_bank_prog_oldmask sfontnum banknum prognum) others
      (set_sfont_bank_prog_newval sfontnum banknum prognum) chan.sfont_bank_prog hfail
    obtain ⟨w2, hw2, hcell⟩ := loop_among_cell
      (set_sfont_bank_prog_oldmask sfontnum banknum prognum) others
      (set_sfont_bank_prog_newval sfontnum banknum prognum) chan.sfont_bank_prog
    rw [l1, hw] at hw2
    cases hw2
    exact ⟨w, hw, l1, l2, hcell, fun atLoad rest => loop_among_stop _ _ _ _ hfail w hw atLoad rest⟩
  · intro others2 chan2 hlast
    obtain ⟨w, hw, hcell⟩ := loop_among_cell
      (set_sfont_bank_prog_oldmask sfontnum banknum prognum) others
      (set_sfont_bank_prog_newval sfontnum banknum prognum) chan.sfont_bank_prog
    obtain ⟨w2, hw2, hcell2⟩ := loop_among_cell
      (set_sfont_bank_prog_oldmask sfontnum banknum prognum) others2
      (set_sfont_bank_prog_newval sfontnum banknum prognum) chan2.sfont_bank_prog
    rw [hw, hw2] at hlast
    cases hlast
    rw [hcell, hcell2]
  · intro h
    rw [n3, if_pos h]
  · intro fuel
    rw [n2]
    unfold fluid_channel_set_sfont_bank_prog
    simp only [set_sfont_bank_prog_loop_succ, Option.map_some']
    rfl

/-- Instance of C17: setting bank 5 on a register holding 0 while other
threads change the register in two rounds (to 5 and then 77, to 99 and then
1234567): both compare-and-exchange calls fail, the loop loads 0, 77 and
1234567, makes three compare-and-exchange calls and leaves bank 5 merged
into 1234567. -/
theorem cas_retry_loop_witness :
    (∀ p ∈ ((sampleChan 0).sfont_bank_prog :: [((5 : Int), (77 : Int)), (99, 1234567)].map
          Prod.snd).zip ([((5 : Int), (77 : Int)), (99, 1234567)].map Prod.fst),
        int_or
            (int_and (set_sfont_bank_prog_newval (-1) 5 (-1))
              (int_not (set_sfont_bank_prog_oldmask (-1) 5 (-1))))
            (int_and p.1 (set_sfont_bank_prog_oldmask (-1) 5 (-1))) ≠ p.1
          ∧ p.2 ≠ p.1)
    ∧ ∃ w_n, ((sampleChan 0).sfont_bank_prog :: [((5 : Int), (77 : Int)), (99, 1234567)].map
          Prod.snd).getLast? = some w_n
        ∧ (fluid_channel_set_sfont_bank_prog_among [(5, 77), (99, 1234567)] (sampleChan 0)
            (-1) 5 (-1)).loads
            = (sampleChan 0).sfont_bank_prog :: [((5 : Int), (77 : Int)), (99, 1234567)].map
                Prod.snd
        ∧ (fluid_channel_set_sfont_bank_prog_among [(5, 77), (99, 1234567)] (sampleChan 0)
            (-1) 5 (-1)).cas_calls
            = [((5 : Int), (77 : Int)), (99, 1234567)].length
              + (if int_or
                    (int_and (set_sfont_bank_prog_newval (-1) 5 (-1))
                      (int_not (set_sfont_bank_prog_oldmask (-1) 5 (-1))))
                    (int_and w_n (set_sfont_bank_prog_oldmask (-1) 5 (-1))) = w_n
                then 0 else 1)
        ∧ (fluid_channel_set_sfont_bank_prog_among [(5, 77), (99, 1234567)] (sampleChan 0)
            (-1) 5 (-1)).cell
            = int_or
                (int_and (set_sfont_bank_prog_newval (-1) 5 (-1))
                  (int_not (set_sfont_bank_prog_oldmask (-1) 5 (-1))))
                (int_and w_n (set_sfont_bank_prog_oldmask (-1) 5 (-1)))
        ∧ ∀ atLoad rest,
            fluid_channel_set_sfont_bank_prog_among
                ([(5, 77), (99, 1234567)] ++ (w_n, atLoad) :: rest) (sampleChan 0) (-1) 5 (-1)
              = fluid_channel_set_sfont_bank_prog_among [(5, 77), (99, 1234567)] (sampleChan 0)
                  (-1) 5 (-1) :=
  ⟨by decide,
   (cas_retry_loop [(5, 77), (99, 1234567)] (sampleChan 0) (-1) 5 (-1)).1 (by decide)⟩

/-- C18: for every selector word and every l, m in [0,127], setting the bank
LSB to l and then the bank MSB to m, setting the MSB and then the LSB, and
`fluid_channel_set_sfont_bank_prog(-1, m * 128 + l, -1)` all return and leave
the same channel, whose decoded bank is m * 128 + l. -/
theorem bank_setters_compose (fuel : Nat) (chan : fluid_channel_t) (l m : Int)
    (hl : 0 ≤ l ∧ l ≤ 127) (hm : 0 ≤ m ∧ m ≤ 127) :
    ∃ chan1,
      ((fluid_channel_set_bank_lsb (fuel + 1) chan l).bind
          fun c => fluid_channel_set_bank_msb (fuel + 1) c m) = some chan1
      ∧ ((fluid_channel_set_bank_msb (fuel + 1) chan m).bind
          fun c => fluid_channel_set_bank_lsb (fuel + 1) c l) = some chan1
      ∧ fluid_channel_set_sfont_bank_prog (fuel + 1) chan (-1) (m * 128 + l) (-1) = some chan1
      ∧ (fluid_channel_get_sfont_bank_prog chan1).2.1 = m * 128 + l := by
  have hn := int_to_uint_lt chan.sfont_bank_prog
  obtain ⟨a, rfl⟩ := Int.eq_ofNat_of_zero_le hl.1
  obtain ⟨b, rfl⟩ := Int.eq_ofNat_of_zero_le hm.1
  have ha : a < 128 := by omega
  have hb : b < 128 := by omega
  generalize hN : int_to_uint chan.sfont_bank_prog = n at hn
  have key : ∀ (c : fluid_channel_t) (x y : Nat), x = y →
      (some { c with sfont_bank_prog := uint_to_int x } : Option fluid_channel_t)
        = some { c with sfont_bank_prog := uint_to_int y } := fun c x y h => by rw [h]
  have ht : ((b : Int) * 128 + (a : Int)).toNat = b * 128 + a := by omega
  refine ⟨{ chan with
      sfont_bank_prog := uint_to_int (n / 2097152 * 2097152 + (b * 128 + a) * 128 + n % 128) },
    ?_, ?_, ?_, ?_⟩
  · rw [set_bank_lsb_eq fuel chan _ hl, Option.some_bind, set_bank_msb_eq fuel _ _ hm]
    simp only [hN, Int.toNat_ofNat]
    rw [int_to_uint_uint_to_int _ (by omega)]
    apply key chan
    omega
  · rw [set_bank_msb_eq fuel chan _ hm, Option.some_bind, set_bank_lsb_eq fuel _ _ hl]
    simp only [hN, Int.toNat_ofNat]
    rw [int_to_uint_uint_to_int _ (by omega)]
    apply key chan
    omega
  · rw [set_sfont_bank_prog_eq fuel chan _ _ _ (Or.inl rfl) (Or.inr ⟨by omega, by omega⟩)
      (Or.inl rfl)]
    have hne : ((b : Int) * 128 + (a : Int)) ≠ -1 := by omega
    simp only [hN, hne, ne_eq, not_true_eq_false, not_false_eq_true, if_true, if_false, ht]
  · rw [get_of_fields _ (n / 2097152) (b * 128 + a) (n % 128) (by omega) (by omega) (by omega)
      rfl]
    simp only []
    omega

/-- Instance of C18 with l = 20 and m = 3 on a selector holding -1. -/
theorem bank_setters_compose_witness :
    ((0 : Int) ≤ 20 ∧ (20 : Int) ≤ 127) ∧ ((0 : Int) ≤ 3 ∧ (3 : Int) ≤ 127)
    ∧ ∃ chan1,
      ((fluid_channel_set_bank_lsb (0 + 1) (sampleChan (-1)) 20).bind
          fun c => fluid_channel_set_bank_msb (0 + 1) c 3) = some chan1
      ∧ ((fluid_channel_set_bank_msb (0 + 1) (sampleChan (-1)) 3).bind
          fun c => fluid_channel_set_bank_lsb (0 + 1) c 20) = some chan1
      ∧ fluid_channel_set_sfont_bank_prog (0 + 1) (sampleChan (-1)) (-1) (3 * 128 + 20) (-1)
          = some chan1
      ∧ (fluid_channel_get_sfont_bank_prog chan1).2.1 = 3 * 128 + 20 :=
  ⟨by decide, by decide, bank_setters_compose 0 (sampleChan (-1)) 20 3 (by decide) (by decide)⟩

/-- C19: `fluid_channel_set_bank_lsb` does not mask its argument: from the
all-zero word, which decodes to (0, 0, 0), the call with 128, a value outside
[0,127], leaves a word decoding to bank 128, with bits outside the bank LSB
field changed: bank MSB 1, bank LSB 0. -/
theorem set_bank_lsb_unmasked (fuel : Nat) :
    ¬ ((0 : Int) ≤ 128 ∧ (128 : Int) ≤ 127)
    ∧ fluid_channel_get_sfont_bank_prog (sampleChan 0) = (0, 0, 0)
    ∧ ∃ chan1, fluid_channel_set_bank_lsb (fuel + 1) (sampleChan 0) 128 = some chan1
        ∧ fluid_channel_get_sfont_bank_prog chan1 = (0, 128, 0)
        ∧ int_and chan1.sfont_bank_prog (int_not BANKLSB_MASKVAL)
            ≠ int_and (sampleChan 0).sfont_bank_prog (int_not BANKLSB_MASKVAL)
        ∧ int_and chan1.sfont_bank_prog BANKMSB_MASKVAL = int_shl 1 (BANK_SHIFTVAL + 7)
        ∧ int_and chan1.sfont_bank_prog BANKLSB_MASKVAL = 0 := by
  refine ⟨by decide, by decide, ?_⟩
  unfold fluid_channel_set_bank_lsb
  rw [set_bank_lsb_loop_succ, Option.map_some']
  exact ⟨_, rfl, by decide, by decide, by decide, by decide⟩

end FluidChan
